import Mathlib

/-!
# Helicopter flight-control core: shallow embedding and verified properties

The C sources (`circBufT.c`, `altimeter.c`, `yawmeter.c`, `buttons.c`) are
embedded as Lean functions over explicit state records.  Hardware reads
(GPIO pin levels) become function arguments.  Machine integers are `Nat`/`Int`
with explicit reduction to the C type's width at every place the C code stores
into a narrower or unsigned type; signed arithmetic wraps in two's complement,
as on the target.  Integer division by zero has no result (`none`).
-/

namespace Helicopter

/-! ## Machine integers -/

/-- Conversion to `uint8_t`. -/
def toUint8 (x : Int) : Nat := (x % 256).toNat

/-- Conversion to `uint16_t`. -/
def toUint16 (x : Int) : Nat := (x % 65536).toNat

/-- Conversion to `uint32_t`. -/
def toUint32 (x : Int) : Nat := (x % 4294967296).toNat

/-- Conversion to `int16_t` (two's complement wrap). -/
def toInt16 (x : Int) : Int := (x + 32768) % 65536 - 32768

/-- Conversion to `int32_t` (two's complement wrap). -/
def toInt32 (x : Int) : Int := (x + 2147483648) % 4294967296 - 2147483648

/-- Conversion to `int64_t` (two's complement wrap). -/
def toInt64 (x : Int) : Int :=
  (x + 9223372036854775808) % 18446744073709551616 - 9223372036854775808

/-- C integer division: truncation toward zero, no result for a zero divisor. -/
def cdiv (a b : Int) : Option Int :=
  if b = 0 then none else some (Int.tdiv a b)

/-! ## circBufT.c -/

/-- Buffer structure of `circBufT.h`; `data` is the allocated array of
`uint32_t` slots. -/
structure circBuf_t where
  size : Nat
  windex : Nat
  rindex : Nat
  data : List Nat
deriving DecidableEq

/-- The function `writeCircBuf`: store at `windex`, advance `windex` modulo the size. -/
def writeCircBuf (buffer : circBuf_t) (entry : Nat) : circBuf_t :=
  let data := buffer.data.set buffer.windex entry
  let windex := toUint32 (buffer.windex + 1)
  { buffer with data := data, windex := if windex ≥ buffer.size then 0 else windex }

/-- The function `readCircBuf`: return the entry at `rindex`, advance `rindex`
modulo the size. -/
def readCircBuf (buffer : circBuf_t) : Nat × circBuf_t :=
  let entry := buffer.data.getD buffer.rindex 0
  let rindex := toUint32 (buffer.rindex + 1)
  (entry, { buffer with rindex := if rindex ≥ buffer.size then 0 else rindex })

/-- The `for` loop of `circBufMean`: `n` remaining iterations, each adding one
`readCircBuf` result to the `int64_t` accumulator. -/
def circBufMeanLoop : Nat → circBuf_t → Int → Int × circBuf_t
  | 0, buffer, circBufSum => (circBufSum, buffer)
  | n + 1, buffer, circBufSum =>
    let r := readCircBuf buffer
    circBufMeanLoop n r.2 (toInt64 (circBufSum + r.1))

/-- The function `circBufMean`: the rounded mean of the buffer's entries,
together with the buffer after the reads. -/
def circBufMean (buffer : circBuf_t) : Option (Nat × circBuf_t) :=
  let bufferSize := buffer.size
  let r := circBufMeanLoop bufferSize buffer 0
  let circBufSum := r.1
  let denom := toUint32 (2 * bufferSize)
  let num := toInt64 (toInt64 (2 * circBufSum) + bufferSize)
  match cdiv num denom with
  | none => none
  | some q =>
    let average := toInt32 q
    some (toUint32 average, r.2)

/-! ## altimeter.c -/

/-- Width of an ADC sample in bits (`ADC_WIDTH_BITS`). -/
def ADC_WIDTH_BITS : Nat := 12

/-- Size of the circular buffer for altitude ADC values (`BUF_SIZE`). -/
def BUF_SIZE : Nat := 25

/-- Module globals of `altimeter.c`. -/
structure AltimeterState where
  g_altitudeBuffer : circBuf_t
  g_sampleCount : Nat
  g_minAltADCValue : Nat
  g_maxAltADCValue : Nat
deriving DecidableEq

/-- The macro `MAX(a,b)` of `altimeter.h`, expanded textually as `a>b?a:b`. -/
def MAX (a b : Int) : Int := if a > b then a else b

/-- The function `getCurrentAltitude`: the altitude percentage computed from the
buffer mean and the two calibration values, together with the module state after
the buffer reads. There is no result when `circBufMean` has none or when the
divisor `2 * altPercDenom` is zero. -/
def getCurrentAltitude (s : AltimeterState) : Option (Nat × AltimeterState) :=
  (circBufMean s.g_altitudeBuffer).bind fun r =>
    let currentAltADCValue : Nat := r.1
    let altPercNum : Int :=
      toInt32 (toUint32 ((toUint32 ((currentAltADCValue : Int) - s.g_maxAltADCValue) : Int) * 100))
    let altPercDenom : Int :=
      toInt32 (toUint32 ((s.g_maxAltADCValue : Int) - s.g_minAltADCValue))
    (cdiv (toInt32 (toInt32 (2 * altPercNum) - altPercDenom)) (toInt32 (2 * altPercDenom))).map
      fun q =>
        let currentAlt : Nat := toUint16 (MAX 0 (toInt32 (q + 100)))
        (currentAlt, { s with g_altitudeBuffer := r.2 })

/-! ## yawmeter.c -/

/-- Number of quadrature interrupts per revolution (`INTERRUPTS_PER_REV`):
`INTERRUPTS_PER_SLOT * SLOTS_PER_REV * QUADRATURE_SENSOR_COUNT`. -/
def INTERRUPTS_PER_REV : Int := 2 * 112 * 2

/-- The enumeration `yawDirection_t`. -/
inductive yawDirection_t where
  | DIRECTION_CW
  | DIRECTION_ANTI_CW
deriving DecidableEq

/-- Module globals of `yawmeter.c`. -/
structure YawState where
  g_stateA : Bool
  g_stateB : Bool
  g_pinChangeInterruptCount : Int
  g_currentDirection : yawDirection_t
  g_yawCalibrated : Bool
deriving DecidableEq

/-- The function `yawCalibrated_p`. -/
def yawCalibrated_p (s : YawState) : Bool := s.g_yawCalibrated

/-- The function `yawDifference` on two `uint16_t` bearings. -/
def yawDifference (reference current : Nat) : Int :=
  let yawError : Int := (reference : Int) - current
  if yawError < -180 then yawError + 360
  else if yawError > 180 then yawError - 360
  else yawError

/-- The function `pinChangeIntHandler`; `newStateA` and `newStateB` are the two
pin levels read from the GPIO port. -/
def pinChangeIntHandler (s : YawState) (newStateA newStateB : Bool) : YawState :=
  let pinChangeInterruptCount : Int := s.g_pinChangeInterruptCount
  let direction : yawDirection_t :=
    if newStateA != s.g_stateA then
      if newStateA == newStateB then yawDirection_t.DIRECTION_CW
      else yawDirection_t.DIRECTION_ANTI_CW
    else if newStateB != s.g_stateB then
      if newStateA != newStateB then yawDirection_t.DIRECTION_CW
      else yawDirection_t.DIRECTION_ANTI_CW
    else yawDirection_t.DIRECTION_CW
  let pinChangeInterruptCount : Int :=
    match direction with
    | yawDirection_t.DIRECTION_CW => toInt16 (pinChangeInterruptCount + 1)
    | yawDirection_t.DIRECTION_ANTI_CW => toInt16 (pinChangeInterruptCount - 1)
  let pinChangeInterruptCount : Int :=
    if pinChangeInterruptCount ≥ INTERRUPTS_PER_REV then
      toInt16 (pinChangeInterruptCount - INTERRUPTS_PER_REV)
    else if pinChangeInterruptCount < 0 then
      toInt16 (pinChangeInterruptCount + INTERRUPTS_PER_REV)
    else pinChangeInterruptCount
  { s with
    g_stateA := newStateA
    g_stateB := newStateB
    g_currentDirection := direction
    g_pinChangeInterruptCount := pinChangeInterruptCount }

/-- The function `yawRefIntHandler`. -/
def yawRefIntHandler (s : YawState) : YawState :=
  { s with g_pinChangeInterruptCount := 0, g_yawCalibrated := true }

/-- The function `getCurrentYaw`. -/
def getCurrentYaw (s : YawState) : Nat :=
  toUint16 (Int.tdiv (toInt32 (s.g_pinChangeInterruptCount * 360)) INTERRUPTS_PER_REV)

/-! ## buttons.c -/

/-- Number of inputs (`NUM_BUTS`, the last member of `enum butNames`). -/
abbrev NUM_BUTS : Nat := 6

/-- Debounce threshold (`NUM_BUT_POLLS`). -/
def NUM_BUT_POLLS : Nat := 3

/-- Members of `enum butNames`. -/
def UP : Fin NUM_BUTS := 0
/-- Member of `enum butNames`. -/
def DOWN : Fin NUM_BUTS := 1
/-- Member of `enum butNames`. -/
def LEFT : Fin NUM_BUTS := 2
/-- Member of `enum butNames`. -/
def RIGHT : Fin NUM_BUTS := 3
/-- Member of `enum butNames`. -/
def RESET : Fin NUM_BUTS := 4
/-- Member of `enum butNames`. -/
def SLIDE_RIGHT : Fin NUM_BUTS := 5

/-- The enumeration `butStates`. -/
inductive butStates where
  | RELEASED
  | PUSHED
  | NO_CHANGE
deriving DecidableEq

/-- Module globals of `buttons.c`: four arrays indexed by input. -/
structure ButtonsState where
  but_state : Fin NUM_BUTS → Bool
  but_count : Fin NUM_BUTS → Nat
  but_flag : Fin NUM_BUTS → Bool
  but_normal : Fin NUM_BUTS → Bool

/-- Body of the `for` loop of `updateButtons` for index `i`. -/
def updateButtonsBody (but_value : Fin NUM_BUTS → Bool) (s : ButtonsState)
    (i : Fin NUM_BUTS) : ButtonsState :=
  if but_value i != s.but_state i then
    let s := { s with but_count := Function.update s.but_count i (toUint8 (s.but_count i + 1)) }
    if s.but_count i ≥ NUM_BUT_POLLS then
      { s with
        but_state := Function.update s.but_state i (but_value i)
        but_count := Function.update s.but_count i 0
        but_flag := Function.update s.but_flag i true }
    else s
  else
    { s with but_count := Function.update s.but_count i 0 }

/-- The function `updateButtons`; `but_value` holds the pin levels read at this
poll (true means HIGH). -/
def updateButtons (s : ButtonsState) (but_value : Fin NUM_BUTS → Bool) : ButtonsState :=
  (List.finRange NUM_BUTS).foldl (updateButtonsBody but_value) s

/-- The function `checkButton`. -/
def checkButton (s : ButtonsState) (butName : Fin NUM_BUTS) : butStates × ButtonsState :=
  if s.but_flag butName then
    let s := { s with but_flag := Function.update s.but_flag butName false }
    if s.but_state butName == s.but_normal butName then (butStates.RELEASED, s)
    else (butStates.PUSHED, s)
  else (butStates.NO_CHANGE, s)

/-! ## pidController.c

The C type `double` is modelled by exact rational arithmetic. A quotient by a
zero `deltaT` has no rational value (the C code yields an infinity or NaN), so
the control value is then absent. -/

/-- Controller structure of `pidController.h`. -/
structure pidController_t where
  errorIntegrated : ℚ
  errorPrevious : ℚ
  gainProportional : ℚ
  gainIntegral : ℚ
  gainDerivative : ℚ
deriving DecidableEq

/-- The function `initPidController`. -/
def initPidController (controller : pidController_t) (Kp Ki Kd : ℚ) : pidController_t :=
  { controller with
    errorIntegrated := 0
    errorPrevious := 0
    gainProportional := Kp
    gainIntegral := Ki
    gainDerivative := Kd }

/-- The function `pidUpdate`: the control value (absent when `deltaT` is zero)
and the controller after the update. -/
def pidUpdate (controller : pidController_t) (error deltaT : ℚ) :
    Option ℚ × pidController_t :=
  let controller :=
    { controller with errorIntegrated := controller.errorIntegrated + error * deltaT }
  let control : Option ℚ :=
    if deltaT = 0 then none
    else
      let errorDerivative := (error - controller.errorPrevious) / deltaT
      some (error * controller.gainProportional
        + controller.errorIntegrated * controller.gainIntegral
        + errorDerivative * controller.gainDerivative)
  (control, { controller with errorPrevious := error })

/-! ## pidController.c in `double` arithmetic

A value of type `double` is modelled by the rational it denotes, and every
value is taken to be finite (no infinity, no NaN, no overflow). An arithmetic
operation on `double` returns the rounding of its exact result. The conversion
of a `double` to `uint32_t` truncates toward zero; C leaves it undefined when
the truncated value is not representable, and what is then stored depends on the
platform. Rounding and the out-of-range conversion are therefore parameters. -/

/-- The arithmetic of `double` on a platform: `round` gives the `double`
returned by an operation whose exact result is the argument;
`convertOutOfRange` gives what a conversion to `uint32_t` produces for a
`double` whose truncated value does not fit (taken modulo 2^32). -/
structure doubleArith where
  round : ℚ → ℚ
  convertOutOfRange : ℚ → Nat

/-- The function `pidUpdate` with the rounding of every `double` operation
explicit, in the order of evaluation of the C expressions; `pidUpdate` above is
the instance with exact arithmetic. A field of the controller is read as the
`double` nearest to the rational recorded for it, so that a gain recorded as the
decimal of its literal (`0.2` as 1/5) enters the arithmetic as the `double` the
program stores; reading a field that already is a `double` changes nothing. The
control value is absent when `deltaT` is zero. -/
def pidUpdateDouble (fp : doubleArith) (controller : pidController_t) (error deltaT : ℚ) :
    Option ℚ × pidController_t :=
  let errorIntegrated : ℚ :=
    fp.round (fp.round controller.errorIntegrated + fp.round (error * deltaT))
  let control : Option ℚ :=
    if deltaT = 0 then none
    else
      let errorDerivative :=
        fp.round (fp.round (error - fp.round controller.errorPrevious) / deltaT)
      some (fp.round (fp.round (fp.round (error * fp.round controller.gainProportional)
          + fp.round (errorIntegrated * fp.round controller.gainIntegral))
        + fp.round (errorDerivative * fp.round controller.gainDerivative)))
  (control, { controller with errorIntegrated := errorIntegrated, errorPrevious := error })

/-- Conversion of a `double` to `uint32_t` on a platform: truncation toward
zero where C defines it, the platform's value elsewhere. -/
def doubleToUint32In (fp : doubleArith) (v : ℚ) : Nat :=
  if -1 < v ∧ v < 4294967296 then (Rat.floor v).toNat
  else toUint32 (fp.convertOutOfRange v)

/-- Rounding of a rational to the nearest integer, ties to the even one. -/
def roundHalfEven (q : ℚ) : Int :=
  let f := Rat.floor q
  if q - f < 1 / 2 then f
  else if 1 / 2 < q - f then f + 1
  else if f % 2 = 0 then f else f + 1

/-- Exponent of the unit in the last place of the IEEE 754 binary64 values next
to `q`: 52 below the binary exponent of `q`, and -1074 for subnormal values. -/
def ulpExponent (q : ℚ) : Int := max (Int.log 2 |q|) (-1022) - 52

/-- IEEE 754 binary64 rounding to nearest, ties to even, of a rational whose
magnitude is below the overflow threshold. -/
def roundBinary64 (q : ℚ) : ℚ :=
  (roundHalfEven (q / 2 ^ ulpExponent q) : ℚ) * 2 ^ ulpExponent q

/-- Truncation of a rational toward zero. -/
def truncate (q : ℚ) : Int := if 0 ≤ q then Rat.floor q else -Rat.floor (-q)

/-- A platform used as concrete input: IEEE 754 binary64 arithmetic with every
operation rounded to nearest, and out-of-range conversions to `uint32_t` made
through a signed 64-bit integer (the low 32 bits of the truncated value, 0 when
that does not fit either). -/
def binary64 : doubleArith where
  round := roundBinary64
  convertOutOfRange := fun v =>
    if -9223372036854775808 ≤ truncate v ∧ truncate v < 9223372036854775808 then
      toUint32 (truncate v)
    else 0

/-! ## altimeter.c: sampling and calibration -/

/-- Expected altitude signal range in volts (`ALTITUDE_RANGE_VOLTS`, 0.8). -/
def ALTITUDE_RANGE_VOLTS : ℚ := 8 / 10

/-- ADC input range in volts (`ADC_RANGE_VOLTS`, 3.3). -/
def ADC_RANGE_VOLTS : ℚ := 33 / 10

/-- Conversion of a `double` to `uint32_t`: truncation toward zero; undefined
(no result) when the truncated value is not representable. -/
def doubleToUint32 (v : ℚ) : Option Nat :=
  if -1 < v ∧ v < 4294967296 then some (Rat.floor v).toNat else none

/-- The function `updateAltitude`; `adc` is the conversion result when the ADC
has a value ready, `none` otherwise. -/
def updateAltitude (s : AltimeterState) (adc : Option Nat) : AltimeterState :=
  match adc with
  | none => s
  | some sample =>
    let buffer := writeCircBuf s.g_altitudeBuffer sample
    let sampleCount := toUint8 (s.g_sampleCount + 1)
    { s with
      g_altitudeBuffer := buffer
      g_sampleCount := if sampleCount > BUF_SIZE then BUF_SIZE else sampleCount }

/-- The blocking `while` loop of `calibrateAltimeter`: one ADC poll per
iteration, taken from `adc`; no result when the polls run out before the
buffer is filled. -/
def calibrateAltimeterWait : List (Option Nat) → AltimeterState → Option AltimeterState
  | [], s => if s.g_sampleCount < BUF_SIZE then none else some s
  | poll :: rest, s =>
    if s.g_sampleCount < BUF_SIZE then calibrateAltimeterWait rest (updateAltitude s poll)
    else some s

/-- The function `calibrateAltimeter`. -/
def calibrateAltimeter (s : AltimeterState) (adc : List (Option Nat)) :
    Option AltimeterState :=
  (calibrateAltimeterWait adc s).bind fun s =>
    (circBufMean s.g_altitudeBuffer).bind fun r =>
      let minAltADCValue : Nat := r.1
      (doubleToUint32 ((minAltADCValue : ℚ)
          - (ALTITUDE_RANGE_VOLTS * ((2 ^ ADC_WIDTH_BITS : Nat) : ℚ)) / ADC_RANGE_VOLTS)).map
        fun maxAltADCValue =>
          { s with
            g_altitudeBuffer := r.2
            g_minAltADCValue := minAltADCValue
            g_maxAltADCValue := maxAltADCValue }

/-! ## motors.c -/

/-- Module globals of `motors.c`. -/
structure MotorsState where
  g_mainDC : Nat
  g_tailDC : Nat
  g_mainEnabled : Bool
  g_tailEnabled : Bool
deriving DecidableEq

/-- The function `enableMainMotor`. -/
def enableMainMotor (m : MotorsState) : MotorsState := { m with g_mainEnabled := true }

/-- The function `disableMainMotor`. -/
def disableMainMotor (m : MotorsState) : MotorsState := { m with g_mainEnabled := false }

/-- The function `enableTailMotor`. -/
def enableTailMotor (m : MotorsState) : MotorsState := { m with g_tailEnabled := true }

/-- The function `disableTailMotor`. -/
def disableTailMotor (m : MotorsState) : MotorsState := { m with g_tailEnabled := false }

/-! ## helicopter_main.c -/

/-- Altitude controller gain `KP_ALT`. -/
def KP_ALT : ℚ := 1
/-- Altitude controller gain `KI_ALT` (0.5). -/
def KI_ALT : ℚ := 1 / 2
/-- Altitude controller gain `KD_ALT` (0.2). -/
def KD_ALT : ℚ := 1 / 5
/-- Yaw controller gain `KP_YAW`. -/
def KP_YAW : ℚ := 1
/-- Yaw controller gain `KI_YAW` (0.2). -/
def KI_YAW : ℚ := 1 / 5
/-- Yaw controller gain `KD_YAW` (0.2). -/
def KD_YAW : ℚ := 1 / 5

/-- Button response `INCREMENT_ALT`. -/
def INCREMENT_ALT : Int := 10
/-- Button response `INCREMENT_YAW`. -/
def INCREMENT_YAW : Int := 15
/-- Take-off parameter `YAW_TAKEOFF_TOLERANCE`. -/
def YAW_TAKEOFF_TOLERANCE : Int := 15
/-- Landing parameter `YAW_LANDING_TOLERANCE`. -/
def YAW_LANDING_TOLERANCE : Int := 3
/-- Take-off and landing parameter `YAW_REF_INCREMENT`. -/
def YAW_REF_INCREMENT : Int := 30
/-- Take-off and landing parameter `YAW_MIN_POLLS`. -/
def YAW_MIN_POLLS : Int := 15
/-- Take-off and landing parameter `ALT_TOLERANCE`. -/
def ALT_TOLERANCE : Int := 8
/-- Take-off parameter `YAW_CORRECTION_ALT`. -/
def YAW_CORRECTION_ALT : Int := 10
/-- Landing parameter `LANDING_MAX_ALT`. -/
def LANDING_MAX_ALT : Int := 3
/-- Landing parameter `ALT_LANDING_INCREMENT`. -/
def ALT_LANDING_INCREMENT : Int := 10
/-- Landing parameter `ALT_MIN_POLLS`. -/
def ALT_MIN_POLLS : Int := 10

/-- The macro `MIN(a,b)` of `helicopter_main.h`, expanded textually as `a>b?b:a`. -/
def MIN (a b : Int) : Int := if a > b then b else a

/-- The enumeration `heliState_t`. -/
inductive heliState_t where
  | IDLE
  | TAKING_OFF
  | FLYING
  | LANDING
deriving DecidableEq

/-- Program state seen by the flight supervisor: the module globals of
`helicopter_main.c`, the globals of the modules it calls, and the enable bit of
the yaw reference interrupt. -/
structure HeliState where
  g_targetYaw : Nat
  g_targetAlt : Nat
  g_currentYaw : Nat
  g_currentAlt : Int
  altController : pidController_t
  yawController : pidController_t
  g_state : heliState_t
  g_flightModeActive : Bool
  g_yawDebounce : Nat
  g_altDebounce : Nat
  buttons : ButtonsState
  yawmeter : YawState
  altimeter : AltimeterState
  motors : MotorsState
  yawRefIntEnabled : Bool

/-- The function `updateStateIdle`. -/
def updateStateIdle (justChangedState : Bool) (s : HeliState) : heliState_t × HeliState :=
  let s : HeliState :=
    if justChangedState then
      { s with
        motors := disableTailMotor (disableMainMotor s.motors)
        g_flightModeActive := false }
    else s
  let c := checkButton s.buttons SLIDE_RIGHT
  let s : HeliState := { s with buttons := c.2 }
  if c.1 = butStates.PUSHED then
    (heliState_t.TAKING_OFF,
      { s with
        altController := initPidController s.altController KP_ALT KI_ALT KD_ALT
        yawController := initPidController s.yawController KP_YAW KI_YAW KD_YAW
        g_targetAlt := toUint8 YAW_CORRECTION_ALT })
  else (heliState_t.IDLE, s)

/-- The entry block of `updateStateTakingOff` (`if (justChangedState) ...`);
`adc` holds the ADC polls available to the blocking calibration. There is no
result when that calibration has none. -/
def updateStateTakingOffEntry (justChangedState : Bool) (adc : List (Option Nat))
    (s : HeliState) : Option HeliState :=
  if justChangedState then
    (calibrateAltimeter s.altimeter adc).map fun a =>
      { s with
        altimeter := a
        motors := enableTailMotor (enableMainMotor s.motors)
        g_flightModeActive := true
        g_targetAlt := toUint8 YAW_CORRECTION_ALT
        g_yawDebounce := 0 }
  else some s

/-- The statements of `updateStateTakingOff` after the entry block. -/
def updateStateTakingOffBody (s : HeliState) : heliState_t × HeliState :=
  let c := checkButton s.buttons SLIDE_RIGHT
  let s : HeliState := { s with buttons := c.2 }
  if c.1 = butStates.RELEASED then (heliState_t.IDLE, s)
  else if yawCalibrated_p s.yawmeter then
    (heliState_t.FLYING, { s with g_targetYaw := 0, yawRefIntEnabled := false })
  else
    let yawError : Int := (yawDifference s.g_targetYaw s.g_currentYaw).natAbs
    let altError : Int := ((s.g_targetAlt : Int) - s.g_currentAlt).natAbs
    if yawError < YAW_TAKEOFF_TOLERANCE ∧ altError < ALT_TOLERANCE then
      let s : HeliState := { s with g_yawDebounce := toUint8 (s.g_yawDebounce + 1) }
      if (s.g_yawDebounce : Int) > YAW_MIN_POLLS then
        let newTargetYaw : Int := s.g_targetYaw + YAW_REF_INCREMENT
        let newTargetYaw : Int :=
          if newTargetYaw ≥ 360 then newTargetYaw - 360 else newTargetYaw
        (heliState_t.TAKING_OFF, { s with g_targetYaw := toUint16 newTargetYaw })
      else (heliState_t.TAKING_OFF, s)
    else (heliState_t.TAKING_OFF, { s with g_yawDebounce := 0 })

/-- The function `updateStateTakingOff`: the entry block, then the rest. -/
def updateStateTakingOff (justChangedState : Bool) (adc : List (Option Nat))
    (s : HeliState) : Option (heliState_t × HeliState) :=
  (updateStateTakingOffEntry justChangedState adc s).map updateStateTakingOffBody

/-- The statement of `updateStateFlying` for the `UP` button. -/
def flyingCheckUp (s : HeliState) : HeliState :=
  let c := checkButton s.buttons UP
  let s : HeliState := { s with buttons := c.2 }
  if c.1 = butStates.PUSHED then
    { s with g_targetAlt := toUint8 (MIN 100 (s.g_targetAlt + INCREMENT_ALT)) }
  else s

/-- The statement of `updateStateFlying` for the `DOWN` button. -/
def flyingCheckDown (s : HeliState) : HeliState :=
  let c := checkButton s.buttons DOWN
  let s : HeliState := { s with buttons := c.2 }
  if c.1 = butStates.PUSHED then
    { s with g_targetAlt := toUint8 (MAX 0 (s.g_targetAlt - INCREMENT_ALT)) }
  else s

/-- The statement of `updateStateFlying` for the `RIGHT` button. -/
def flyingCheckRight (s : HeliState) : HeliState :=
  let c := checkButton s.buttons RIGHT
  let s : HeliState := { s with buttons := c.2 }
  if c.1 = butStates.PUSHED then
    { s with g_targetYaw := toUint16 (Int.tmod (s.g_targetYaw + INCREMENT_YAW) 360) }
  else s

/-- The statement of `updateStateFlying` for the `LEFT` button. -/
def flyingCheckLeft (s : HeliState) : HeliState :=
  let c := checkButton s.buttons LEFT
  let s : HeliState := { s with buttons := c.2 }
  if c.1 = butStates.PUSHED then
    if (s.g_targetYaw : Int) < INCREMENT_YAW then
      { s with g_targetYaw := toUint16 (s.g_targetYaw - INCREMENT_YAW + 360) }
    else
      { s with g_targetYaw := toUint16 (s.g_targetYaw - INCREMENT_YAW) }
  else s

/-- The function `updateStateFlying`: the flight switch is examined first, then
the four directional buttons in the order `UP`, `DOWN`, `RIGHT`, `LEFT`. -/
def updateStateFlying (_justChangedState : Bool) (s : HeliState) : heliState_t × HeliState :=
  let c := checkButton s.buttons SLIDE_RIGHT
  let s : HeliState := { s with buttons := c.2 }
  if c.1 = butStates.RELEASED then (heliState_t.LANDING, s)
  else
    (heliState_t.FLYING, flyingCheckLeft (flyingCheckRight (flyingCheckDown (flyingCheckUp s))))

/-- The first block of the `else` branch of `updateStateLanding`: the yaw
debounce and the step of target yaw toward 0. -/
def landingYawStep (s : HeliState) : HeliState :=
  let yawError : Int := (yawDifference s.g_targetYaw s.g_currentYaw).natAbs
  if yawError < YAW_LANDING_TOLERANCE then
    let s : HeliState := { s with g_yawDebounce := toUint8 (s.g_yawDebounce + 1) }
    if (s.g_yawDebounce : Int) > YAW_MIN_POLLS then
      if s.g_targetYaw ≠ 0 then
        if yawDifference 0 s.g_targetYaw < 0 then
          { s with g_targetYaw := toUint16 (MAX 0 ((s.g_targetYaw : Int) - YAW_REF_INCREMENT)) }
        else
          let newTargetYaw : Int := s.g_targetYaw + YAW_REF_INCREMENT
          let newTargetYaw : Int := if newTargetYaw ≥ 360 then 0 else newTargetYaw
          { s with g_targetYaw := toUint16 newTargetYaw }
      else s
    else s
  else { s with g_yawDebounce := 0 }

/-- The second block of the `else` branch of `updateStateLanding`: touch-down
test and descent of the target altitude. -/
def landingDescend (s : HeliState) : heliState_t × HeliState :=
  let yawError : Int := (yawDifference 0 s.g_currentYaw).natAbs
  if yawError < YAW_LANDING_TOLERANCE then
    if s.g_currentAlt ≤ LANDING_MAX_ALT then (heliState_t.IDLE, s)
    else
      let altError : Int := ((s.g_targetAlt : Int) - s.g_currentAlt).natAbs
      if altError < ALT_TOLERANCE then
        let s : HeliState := { s with g_altDebounce := toUint8 (s.g_altDebounce + 1) }
        if (s.g_altDebounce : Int) > ALT_MIN_POLLS then
          (heliState_t.LANDING,
            { s with g_targetAlt := toUint8 (MAX 0 ((s.g_targetAlt : Int) - ALT_LANDING_INCREMENT)) })
        else (heliState_t.LANDING, s)
      else (heliState_t.LANDING, { s with g_altDebounce := 0 })
  else (heliState_t.LANDING, s)

/-- The function `updateStateLanding`. -/
def updateStateLanding (justChangedState : Bool) (s : HeliState) : heliState_t × HeliState :=
  let s : HeliState :=
    if justChangedState then { s with g_yawDebounce := 0, g_altDebounce := 0 } else s
  let c := checkButton s.buttons SLIDE_RIGHT
  let s : HeliState := { s with buttons := c.2 }
  if c.1 = butStates.PUSHED then (heliState_t.FLYING, s)
  else landingDescend (landingYawStep s)

/-- Normal (inactive) levels set by `initButtons`: `UP`, `DOWN` and
`SLIDE_RIGHT` are active high, `LEFT`, `RIGHT` and `RESET` active low. -/
def butNormalLevels : Fin NUM_BUTS → Bool :=
  fun i => i = LEFT ∨ i = RIGHT ∨ i = RESET

/-- Button records with every input stable at its normal level, no run in
progress and no pending flag. -/
def buttonsAtRest : ButtonsState :=
  ⟨butNormalLevels, fun _ => 0, fun _ => false, butNormalLevels⟩

/-- Button records as `buttonsAtRest`, except that input `i` has just become
stably active (flag pending). -/
def buttonsPushed (i : Fin NUM_BUTS) : ButtonsState :=
  { buttonsAtRest with
    but_state := Function.update butNormalLevels i (!butNormalLevels i)
    but_flag := Function.update (fun _ => false) i true }

/-- Button records as `buttonsAtRest`, except that input `i` has just returned
to its normal level (flag pending). -/
def buttonsReleased (i : Fin NUM_BUTS) : ButtonsState :=
  { buttonsAtRest with but_flag := Function.update (fun _ => false) i true }

/-- A program state used as concrete input: idle on the ground, buffer of 25
samples of value 2000 calibrated to `low = 2000`, `high = 1007`, yaw decoder not
calibrated, controllers zeroed, inputs at rest. -/
def groundState : HeliState where
  g_targetYaw := 0
  g_targetAlt := 0
  g_currentYaw := 0
  g_currentAlt := 0
  altController := ⟨0, 0, 0, 0, 0⟩
  yawController := ⟨0, 0, 0, 0, 0⟩
  g_state := heliState_t.IDLE
  g_flightModeActive := false
  g_yawDebounce := 0
  g_altDebounce := 0
  buttons := buttonsAtRest
  yawmeter := ⟨false, false, 0, yawDirection_t.DIRECTION_CW, false⟩
  altimeter := ⟨⟨25, 0, 0, List.replicate 25 2000⟩, 25, 2000, 1007⟩
  motors := ⟨0, 0, false, false⟩
  yawRefIntEnabled := true

/-- A program state used as concrete input: `groundState` with the flight
switch just pushed. -/
def switchOnState : HeliState :=
  { groundState with buttons := buttonsPushed SLIDE_RIGHT }

/-- A program state used as concrete input: LANDING with the flight-active flag
set, controllers freshly initialised with their gains, both motors enabled at
duty cycle 50, target altitude 10, altitude reading 3, yaw reading and target
yaw 0, inputs at rest. -/
def touchdownState : HeliState :=
  { groundState with
    g_state := heliState_t.LANDING
    g_flightModeActive := true
    altController := ⟨0, 0, KP_ALT, KI_ALT, KD_ALT⟩
    yawController := ⟨0, 0, KP_YAW, KI_YAW, KD_YAW⟩
    g_targetAlt := 10
    g_currentAlt := 3
    motors := ⟨50, 50, true, true⟩ }

/-- A program state used as concrete input: FLYING above the target altitude
and on the target yaw, with the flight-active flag set: target altitude 40 and
altitude reading 60, target yaw and yaw reading 90, both motors enabled at duty
cycle 50, inputs at rest. The altitude controller is freshly initialised with
its gains; the yaw controller holds the gains and the integrated error
`15 - 2^-49`, the `double` next below 15. -/
def descendingState : HeliState :=
  { groundState with
    g_state := heliState_t.FLYING
    g_flightModeActive := true
    altController := ⟨0, 0, KP_ALT, KI_ALT, KD_ALT⟩
    yawController := ⟨8444249301319679 / 562949953421312, 0, KP_YAW, KI_YAW, KD_YAW⟩
    g_targetAlt := 40
    g_currentAlt := 60
    g_targetYaw := 90
    g_currentYaw := 90
    motors := ⟨50, 50, true, true⟩ }

/-- What has changed between two supervisor ticks: the button records and the
yaw decoder (updated by interrupts) and the two sensor readings taken by the
main loop. -/
structure TickInput where
  buttons : ButtonsState
  yawmeter : YawState
  currentYaw : Nat
  currentAlt : Int

/-- The program state at the start of a tick with input `i`. -/
def applyTickInput (s : HeliState) (i : TickInput) : HeliState :=
  { s with
    buttons := i.buttons
    yawmeter := i.yawmeter
    g_currentYaw := i.currentYaw
    g_currentAlt := i.currentAlt }

/-- A run of consecutive TAKING_OFF ticks after the entry tick, one per input;
no result when a tick leaves TAKING_OFF. -/
def takingOffRun : List TickInput → HeliState → Option HeliState
  | [], s => some s
  | i :: rest, s =>
    (updateStateTakingOff false [] (applyTickInput s i)).bind fun r =>
      if r.1 = heliState_t.TAKING_OFF then takingOffRun rest r.2 else none

/-- Tick input used as concrete input: inputs at rest, yaw decoder not
calibrated, the given yaw reading and altitude reading 10. -/
def searchInput (currentYaw : Nat) : TickInput :=
  ⟨buttonsAtRest, ⟨false, false, 0, yawDirection_t.DIRECTION_CW, false⟩, currentYaw, 10⟩

/-- The slots of a buffer in the order in which they will be overwritten: from
the write cursor to the end, then from the start to the write cursor. -/
def slotsOldestFirst (b : circBuf_t) : List Nat :=
  b.data.drop b.windex ++ b.data.take b.windex

/-! ## motors.c: duty cycle commands -/

/-- PWM parameter `DEFAULT_FREQUENCY_MAIN`. -/
def DEFAULT_FREQUENCY_MAIN : Nat := 150

/-- PWM parameter `DUTY_MAX_MAIN`. -/
def DUTY_MAX_MAIN : Int := 98

/-- PWM parameter `DUTY_MIN_MAIN`. -/
def DUTY_MIN_MAIN : Int := 2

/-- PWM parameter `DEFAULT_FREQUENCY_TAIL`. -/
def DEFAULT_FREQUENCY_TAIL : Nat := 150

/-- PWM parameter `DUTY_MAX_TAIL`. -/
def DUTY_MAX_TAIL : Int := 98

/-- PWM parameter `DUTY_MIN_TAIL`. -/
def DUTY_MIN_TAIL : Int := 2

/-- The function `setPWMMain` on two `uint32_t` arguments: the duty cycle is
limited with `MAX` then `MIN` and stored in `g_mainDC` (a `uint8_t`). The
period is a quotient by `ui32Freq`, so there is no result for frequency 0. -/
def setPWMMain (m : MotorsState) (ui32Freq ui32Duty : Nat) : Option MotorsState :=
  let ui32Duty : Nat := toUint32 (MAX DUTY_MIN_MAIN ui32Duty)
  let ui32Duty : Nat := toUint32 (MIN DUTY_MAX_MAIN ui32Duty)
  if ui32Freq = 0 then none else some { m with g_mainDC := toUint8 ui32Duty }

/-- The function `setPWMTail`, as `setPWMMain` for the tail motor. -/
def setPWMTail (m : MotorsState) (ui32Freq ui32Duty : Nat) : Option MotorsState :=
  let ui32Duty : Nat := toUint32 (MAX DUTY_MIN_TAIL ui32Duty)
  let ui32Duty : Nat := toUint32 (MIN DUTY_MAX_TAIL ui32Duty)
  if ui32Freq = 0 then none else some { m with g_tailDC := toUint8 ui32Duty }

/-! ## helicopter_main.c: control interrupt and main loop -/

/-- Control interrupt rate `CONTROL_UPDATE_FREQUENCY`. -/
def CONTROL_UPDATE_FREQUENCY : Nat := 100

/-- The constant `g_deltaT = 1.0 / CONTROL_UPDATE_FREQUENCY`, a `double`
quotient. -/
def g_deltaT (fp : doubleArith) : ℚ := fp.round (1 / (CONTROL_UPDATE_FREQUENCY : ℚ))

/-- The function `controllerIntHandler` on a platform `fp`. The yaw error is
stored in an `int16_t`; both errors are integers, converted to `double` without
rounding; both control values are converted from `double` to `uint32_t` at the
calls of `setPWMMain` and `setPWMTail`. There is no result only when the
quotient by `g_deltaT` has none. -/
def controllerIntHandler (fp : doubleArith) (s : HeliState) : Option HeliState :=
  if s.g_flightModeActive then
    let yawError : Int := toInt16 (yawDifference s.g_targetYaw s.g_currentYaw)
    let a := pidUpdateDouble fp s.altController
      (((s.g_targetAlt : Int) - s.g_currentAlt : Int) : ℚ) (g_deltaT fp)
    let y := pidUpdateDouble fp s.yawController (yawError : ℚ) (g_deltaT fp)
    a.1.bind fun altControl =>
      y.1.bind fun yawControl =>
        (setPWMMain s.motors DEFAULT_FREQUENCY_MAIN (doubleToUint32In fp altControl)).bind
          fun m =>
            (setPWMTail m DEFAULT_FREQUENCY_TAIL (doubleToUint32In fp yawControl)).map
              fun m => { s with altController := a.2, yawController := y.2, motors := m }
  else some s

/-- The state machine step of the loop of `main`: the `switch` on `g_state`,
then the update of `justChangedState` and `g_state`. The result pairs the new
`justChangedState` with the new program state. -/
def supervisorTick (justChangedState : Bool) (adc : List (Option Nat)) (s : HeliState) :
    Option (Bool × HeliState) :=
  let r : Option (heliState_t × HeliState) :=
    match s.g_state with
    | heliState_t.IDLE => some (updateStateIdle justChangedState s)
    | heliState_t.TAKING_OFF => updateStateTakingOff justChangedState adc s
    | heliState_t.FLYING => some (updateStateFlying justChangedState s)
    | heliState_t.LANDING => some (updateStateLanding justChangedState s)
  r.map fun r =>
    if r.1 = r.2.g_state then (false, r.2) else (true, { r.2 with g_state := r.1 })

/-- A run of supervisor ticks: before each tick the inputs and the sensor
readings are replaced by those of the tick input, and the tick receives the ADC
polls paired with it. There is no result when a tick has none. -/
def supervisorRun :
    List (TickInput × List (Option Nat)) → Bool × HeliState → Option (Bool × HeliState)
  | [], c => some c
  | i :: rest, c =>
    (supervisorTick c.1 i.2 (applyTickInput c.2 i.1)).bind fun c => supervisorRun rest c

/-- Tick input used as concrete input: the flight switch just pushed, every
other input at rest, yaw decoder not calibrated, yaw reading 0 and altitude
reading 0. -/
def switchOnInput : TickInput :=
  ⟨buttonsPushed SLIDE_RIGHT, ⟨false, false, 0, yawDirection_t.DIRECTION_CW, false⟩, 0, 0⟩

/-- Module state of `altimeter.c` used as concrete input: the buffer of 25
samples filled with the value 2000, sample count 25, no calibration yet. -/
def filledAltimeter : AltimeterState :=
  ⟨⟨25, 0, 0, List.replicate 25 2000⟩, 25, 0, 0⟩

/-- What happens to the program over time: a quadrature edge interrupt with the
two pin levels it reads, a yaw reference interrupt, or one iteration of the
loop of `main` with the button records and the altitude reading it finds and
the ADC polls available to a blocking calibration. -/
inductive heliEvent where
  | edge (newStateA newStateB : Bool)
  | reference
  | tick (buttons : ButtonsState) (currentAlt : Int) (adc : List (Option Nat))

/-- The effect of one event on the pair of `justChangedState` and the program
state. An edge interrupt runs `pinChangeIntHandler`; a reference interrupt runs
`yawRefIntHandler` when the interrupt is enabled; a loop iteration reads the
yaw with `getCurrentYaw` and runs the state machine step. -/
def eventStep (c : Bool × HeliState) : heliEvent → Option (Bool × HeliState)
  | heliEvent.edge newStateA newStateB =>
    some (c.1, { c.2 with yawmeter := pinChangeIntHandler c.2.yawmeter newStateA newStateB })
  | heliEvent.reference =>
    some (c.1,
      if c.2.yawRefIntEnabled then { c.2 with yawmeter := yawRefIntHandler c.2.yawmeter }
      else c.2)
  | heliEvent.tick buttons currentAlt adc =>
    supervisorTick c.1 adc
      { c.2 with
        buttons := buttons
        g_currentAlt := currentAlt
        g_currentYaw := getCurrentYaw c.2.yawmeter }

/-- A run of events; no result when a loop iteration has none. -/
def eventRun : List heliEvent → Bool × HeliState → Option (Bool × HeliState)
  | [], c => some c
  | ev :: rest, c => (eventStep c ev).bind fun c => eventRun rest c

/-- The record of input `i`: stable state, run counter, change flag and normal
level. -/
def recordAt (s : ButtonsState) (i : Fin NUM_BUTS) : Bool × Nat × Bool × Bool :=
  (s.but_state i, s.but_count i, s.but_flag i, s.but_normal i)

/-! ## Lemmas on machine integers -/

theorem toInt64_of_range (x : Int) (h0 : -9223372036854775808 ≤ x)
    (h1 : x < 9223372036854775808) : toInt64 x = x := by
  unfold toInt64; omega

theorem toInt32_of_range (x : Int) (h0 : -2147483648 ≤ x)
    (h1 : x < 2147483648) : toInt32 x = x := by
  unfold toInt32; omega

theorem toUint32_of_range (x : Nat) (h1 : x < 4294967296) : toUint32 (x : Int) = x := by
  unfold toUint32; omega

theorem toUint32_toInt32 (x : Int) : toUint32 (toInt32 x) = toUint32 x := by
  unfold toUint32 toInt32; omega

/-! ## Lemmas on the circular buffer -/

theorem getD_lt_of_forall_lt (l : List Nat) (B : Nat) (hB : 0 < B)
    (h : ∀ x ∈ l, x < B) (i : Nat) : l.getD i 0 < B := by
  by_cases hi : i < l.length
  · rw [List.getD_eq_getElem l 0 hi]
    exact h _ (List.getElem_mem hi)
  · rw [List.getD_eq_default l 0 (by omega)]
    exact hB

theorem sum_le_of_forall_lt (l : List Nat) (B : Nat) (h : ∀ x ∈ l, x < B + 1) :
    l.sum ≤ l.length * B := by
  induction l with
  | nil => simp
  | cons a t ih =>
    have ha : a < B + 1 := h a (List.mem_cons_self a t)
    have ht : t.sum ≤ t.length * B := ih (fun x hx => h x (List.mem_cons_of_mem a hx))
    simp only [List.sum_cons, List.length_cons]
    nlinarith

theorem readCircBuf_eq (b : circBuf_t) (hs : b.size < 4294967296) (hr : b.rindex < b.size) :
    readCircBuf b
      = (b.data.getD b.rindex 0, { b with rindex := (b.rindex + 1) % b.size }) := by
  have hu : toUint32 ((b.rindex : Int) + 1) = b.rindex + 1 := by
    unfold toUint32; omega
  unfold readCircBuf
  simp only [hu]
  by_cases hw : b.rindex + 1 = b.size
  · rw [hw, Nat.mod_self]; simp
  · have hlt : b.rindex + 1 < b.size := by omega
    rw [Nat.mod_eq_of_lt hlt, if_neg (by omega)]

theorem circBufMeanLoop_eq (k : Nat) :
    ∀ (b : circBuf_t) (acc : Int), b.size < 4294967296 → b.rindex < b.size →
      (∀ x ∈ b.data, x < 4294967296) → 0 ≤ acc →
      acc + (k : Int) * 4294967296 < 9223372036854775808 →
      circBufMeanLoop k b acc
        = (acc + (((List.range k).map
              (fun j => b.data.getD ((b.rindex + j) % b.size) 0)).sum : Nat),
            { b with rindex := (b.rindex + k) % b.size }) := by
  induction k with
  | zero =>
    intro b acc _ hr _ _ _
    simp [circBufMeanLoop, Nat.mod_eq_of_lt hr]
  | succ k ih =>
    intro b acc hs hr hd h0 hacc
    have he : b.data.getD b.rindex 0 < 4294967296 :=
      getD_lt_of_forall_lt b.data _ (by norm_num) hd _
    have hpos : 0 < b.size := by omega
    have hr2 : (b.rindex + 1) % b.size < b.size := Nat.mod_lt _ hpos
    have hwrap : toInt64 (acc + (b.data.getD b.rindex 0 : Nat))
        = acc + (b.data.getD b.rindex 0 : Nat) := by
      apply toInt64_of_range <;> push_cast at hacc ⊢ <;> omega
    rw [circBufMeanLoop, readCircBuf_eq b hs hr]
    simp only [hwrap]
    rw [ih ⟨b.size, b.windex, (b.rindex + 1) % b.size, b.data⟩ _ hs hr2 hd (by omega)
      (by push_cast at hacc ⊢; omega)]
    have hidx : ∀ j, ((b.rindex + 1) % b.size + j) % b.size
        = (b.rindex + (j + 1)) % b.size := by
      intro j
      rw [Nat.add_mod, Nat.mod_mod, ← Nat.add_mod]
      congr 1; omega
    rw [List.range_succ_eq_map]
    simp only [List.map_cons, List.map_map, List.sum_cons, Nat.add_zero,
      Nat.mod_eq_of_lt hr, hidx]
    refine Prod.ext ?_ ?_
    · simp only [Function.comp_def, Nat.succ_eq_add_one]
      push_cast
      ring
    · simp

theorem readSeq_eq_rotate (l : List Nat) (r : Nat) :
    (List.range l.length).map (fun j => l.getD ((r + j) % l.length) 0) = l.rotate r := by
  apply List.ext_getElem
  · simp
  · intro i h1 h2
    have hi : i < l.length := by simpa using h1
    have hm : (r + i) % l.length < l.length := Nat.mod_lt _ (by omega)
    rw [List.getElem_rotate]
    simp only [List.getElem_map, List.getElem_range]
    rw [List.getD_eq_getElem l 0 hm]
    congr 1
    rw [Nat.add_comm]

theorem readSeq_sum (l : List Nat) (r : Nat) :
    ((List.range l.length).map (fun j => l.getD ((r + j) % l.length) 0)).sum = l.sum := by
  rw [readSeq_eq_rotate]
  exact (List.rotate_perm l r).sum_eq

/-- The rounded mean computed by `circBufMean`, and the buffer it leaves. -/
theorem circBufMean_eq (b : circBuf_t) (hN : 1 ≤ b.size) (hcap : b.size < 1073741824)
    (hlen : b.data.length = b.size) (hr : b.rindex < b.size)
    (hd : ∀ x ∈ b.data, x < 4294967296) :
    circBufMean b = some ((2 * b.data.sum + b.size) / (2 * b.size), b) := by
  have hS : b.data.sum ≤ b.size * 4294967295 := by
    have := sum_le_of_forall_lt b.data 4294967295 hd
    rwa [hlen] at this
  have hloop := circBufMeanLoop_eq b.size b 0 (by omega) hr hd (le_refl _) (by omega)
  have hsum : ((List.range b.size).map
      (fun j => b.data.getD ((b.rindex + j) % b.size) 0)).sum = b.data.sum := by
    have := readSeq_sum b.data b.rindex
    rwa [hlen] at this
  rw [hsum] at hloop
  have hback : (b.rindex + b.size) % b.size = b.rindex := by
    rw [Nat.add_mod_right, Nat.mod_eq_of_lt hr]
  rw [hback] at hloop
  have hq : (2 * b.data.sum + b.size) / (2 * b.size) < 4294967296 := by
    rw [Nat.div_lt_iff_lt_mul (by omega)]
    omega
  have hden : toUint32 (2 * (b.size : Int)) = 2 * b.size := by
    unfold toUint32; omega
  have h2s : toInt64 (2 * ((0 : Int) + (b.data.sum : Nat))) = 2 * (b.data.sum : Int) := by
    rw [toInt64_of_range] <;> omega
  have hnum : toInt64 (2 * (b.data.sum : Int) + (b.size : Int))
      = ((2 * b.data.sum + b.size : Nat) : Int) := by
    rw [toInt64_of_range] <;> omega
  have hdiv : Int.tdiv ((2 * b.data.sum + b.size : Nat) : Int) ((2 * b.size : Nat) : Int)
      = (((2 * b.data.sum + b.size) / (2 * b.size) : Nat) : Int) :=
    (Int.ofNat_tdiv _ _).symm
  unfold circBufMean
  simp only [hloop, hden, h2s, hnum]
  have hne : ((2 * b.size : Nat) : Int) ≠ 0 := by omega
  simp only [cdiv, if_neg hne, hdiv, toUint32_toInt32]
  rw [toUint32_of_range _ hq]

/-- After `k` iterations of the loop of `circBufMean` only the read cursor has
changed: it has advanced by `k` modulo the size. -/
theorem circBufMeanLoop_snd (k : Nat) :
    ∀ (b : circBuf_t) (acc : Int), b.size < 4294967296 → b.rindex < b.size →
      (circBufMeanLoop k b acc).2 = { b with rindex := (b.rindex + k) % b.size } := by
  induction k with
  | zero =>
    intro b acc _ hr
    simp [circBufMeanLoop, Nat.mod_eq_of_lt hr]
  | succ k ih =>
    intro b acc hs hr
    have hpos : 0 < b.size := by omega
    rw [circBufMeanLoop, readCircBuf_eq b hs hr]
    rw [ih ⟨b.size, b.windex, (b.rindex + 1) % b.size, b.data⟩ _ hs (Nat.mod_lt _ hpos)]
    have hidx : ((b.rindex + 1) % b.size + k) % b.size = (b.rindex + (k + 1)) % b.size := by
      rw [Nat.add_mod, Nat.mod_mod, ← Nat.add_mod]
      congr 1; omega
    simp only [hidx]

/-- A full cycle of reads leaves the buffer as it was. -/
theorem circBufMeanLoop_full_cycle (b : circBuf_t) (acc : Int)
    (hs : b.size < 4294967296) (hr : b.rindex < b.size) :
    (circBufMeanLoop b.size b acc).2 = b := by
  rw [circBufMeanLoop_snd b.size b acc hs hr, Nat.add_mod_right, Nat.mod_eq_of_lt hr]

/-- Whatever `circBufMean` returns, the buffer it returns is the buffer after
the loop. -/
theorem circBufMean_snd (b : circBuf_t) (res : Nat × circBuf_t)
    (h : circBufMean b = some res) : res.2 = (circBufMeanLoop b.size b 0).2 := by
  have key : ∀ (o : Option Int) (X : circBuf_t),
      (match o with
        | none => none
        | some q => some (toUint32 (toInt32 q), X)) = some res → res.2 = X := by
    intro o X hx
    cases o with
    | none => exact absurd hx (by simp)
    | some q =>
      simp only [Option.some.injEq] at hx
      rw [← hx]
  exact key (cdiv _ _) _ h

/-- The function `circBufMean` has a result when its divisor `2 * size`, taken
as a `uint32_t`, is not zero. -/
theorem circBufMean_isSome (b : circBuf_t) (h : toUint32 (2 * (b.size : Int)) ≠ 0) :
    ∃ res, circBufMean b = some res := by
  have hne : ((toUint32 (2 * (b.size : Int)) : Nat) : Int) ≠ 0 := by exact_mod_cast h
  have hc : cdiv (toInt64 (toInt64 (2 * (circBufMeanLoop b.size b 0).1) + (b.size : Int)))
      ((toUint32 (2 * (b.size : Int)) : Nat) : Int)
      = some (Int.tdiv (toInt64 (toInt64 (2 * (circBufMeanLoop b.size b 0).1) + (b.size : Int)))
          ((toUint32 (2 * (b.size : Int)) : Nat) : Int)) := by
    unfold cdiv
    rw [if_neg hne]
  unfold circBufMean
  simp only [hc]
  exact ⟨_, rfl⟩

/-- One write on a buffer whose write cursor is below its size. -/
theorem writeCircBuf_eq (b : circBuf_t) (v : Nat) (hs : b.size < 4294967296)
    (hw : b.windex < b.size) :
    writeCircBuf b v
      = { b with data := b.data.set b.windex v, windex := (b.windex + 1) % b.size } := by
  have hu : toUint32 ((b.windex : Int) + 1) = b.windex + 1 := by
    unfold toUint32; omega
  unfold writeCircBuf
  simp only [hu]
  by_cases hwrap : b.windex + 1 = b.size
  · rw [hwrap, Nat.mod_self]; simp
  · have hlt : b.windex + 1 < b.size := by omega
    rw [Nat.mod_eq_of_lt hlt, if_neg (by omega)]

/-- One write drops the oldest slot and appends the written value as the newest. -/
theorem slotsOldestFirst_write (b : circBuf_t) (v : Nat) (hs : b.size < 4294967296)
    (hw : b.windex < b.size) (hlen : b.data.length = b.size) :
    slotsOldestFirst (writeCircBuf b v) = (slotsOldestFirst b).tail ++ [v] := by
  have hwl : b.windex < b.data.length := by omega
  have hset : b.data.set b.windex v
      = b.data.take b.windex ++ v :: b.data.drop (b.windex + 1) := by
    rw [List.set_eq_take_append_cons_drop, if_pos hwl]
  have hlt : (b.data.take b.windex).length = b.windex := by
    rw [List.length_take]; omega
  have hold : (slotsOldestFirst b).tail
      = b.data.drop (b.windex + 1) ++ b.data.take b.windex := by
    unfold slotsOldestFirst
    rw [List.tail_append_of_ne_nil, List.tail_drop]
    intro h
    have := congrArg List.length h
    rw [List.length_drop] at this
    simp only [List.length_nil] at this
    omega
  rw [hold, writeCircBuf_eq b v hs hw]
  unfold slotsOldestFirst
  simp only [hset]
  by_cases hwrap : b.windex + 1 = b.size
  · have hnil : b.data.drop (b.windex + 1) = [] := List.drop_eq_nil_of_le (by omega)
    rw [hnil, hwrap, Nat.mod_self]
    simp
  · have hlt2 : b.windex + 1 < b.size := by omega
    rw [Nat.mod_eq_of_lt hlt2]
    have hd : (b.data.take b.windex ++ v :: b.data.drop (b.windex + 1)).drop (b.windex + 1)
        = b.data.drop (b.windex + 1) := by
      have h1 : b.data.take b.windex ++ v :: b.data.drop (b.windex + 1)
          = (b.data.take b.windex ++ [v]) ++ b.data.drop (b.windex + 1) := by simp
      have h2 : (b.data.take b.windex ++ [v]).length = b.windex + 1 := by simp [hlt]
      rw [h1, ← h2, List.drop_left]
    have ht : (b.data.take b.windex ++ v :: b.data.drop (b.windex + 1)).take (b.windex + 1)
        = b.data.take b.windex ++ [v] := by
      have h1 : b.data.take b.windex ++ v :: b.data.drop (b.windex + 1)
          = (b.data.take b.windex ++ [v]) ++ b.data.drop (b.windex + 1) := by simp
      have h2 : (b.data.take b.windex ++ [v]).length = b.windex + 1 := by simp [hlt]
      rw [h1, ← h2, List.take_left]
    rw [hd, ht, List.append_assoc]

/-- What one write leaves unchanged, and the well-formedness it preserves. -/
theorem writeCircBuf_frame (b : circBuf_t) (v : Nat) (hs : b.size < 4294967296)
    (hw : b.windex < b.size) :
    (writeCircBuf b v).size = b.size ∧ (writeCircBuf b v).rindex = b.rindex
    ∧ (writeCircBuf b v).data.length = b.data.length
    ∧ (writeCircBuf b v).windex < b.size := by
  rw [writeCircBuf_eq b v hs hw]
  exact ⟨rfl, rfl, List.length_set _ _ _, Nat.mod_lt _ (by omega)⟩

/-- After a sequence of writes the slots, oldest first, are the old slots
followed by the written values, with as many of the oldest dropped as values
were written. -/
theorem slotsOldestFirst_writes (vs : List Nat) :
    ∀ (b : circBuf_t), b.size < 4294967296 → b.windex < b.size →
      b.data.length = b.size →
      slotsOldestFirst (vs.foldl writeCircBuf b) = (slotsOldestFirst b ++ vs).drop vs.length
      ∧ (vs.foldl writeCircBuf b).size = b.size
      ∧ (vs.foldl writeCircBuf b).rindex = b.rindex
      ∧ (vs.foldl writeCircBuf b).data.length = b.size
      ∧ (vs.foldl writeCircBuf b).windex < b.size := by
  induction vs with
  | nil =>
    intro b _ hw hlen
    simp [hw, hlen]
  | cons v rest ih =>
    intro b hs hw hlen
    obtain ⟨f1, f2, f3, f4⟩ := writeCircBuf_frame b v hs hw
    obtain ⟨a1, a2, a3, a4, a5⟩ := ih (writeCircBuf b v) (by rw [f1]; exact hs)
      (by rw [f1]; exact f4) (by rw [f3, f1]; exact hlen)
    rw [List.foldl_cons]
    refine ⟨?_, by rw [a2, f1], by rw [a3, f2], by rw [a4, f1], by rw [← f1]; exact a5⟩
    rw [a1, slotsOldestFirst_write b v hs hw hlen]
    have hne : slotsOldestFirst b ≠ [] := by
      intro h
      have := congrArg List.length h
      unfold slotsOldestFirst at this
      simp only [List.length_append, List.length_drop, List.length_take, List.length_nil] at this
      omega
    have htail : (slotsOldestFirst b ++ v :: rest).drop (rest.length + 1)
        = ((slotsOldestFirst b).tail ++ v :: rest).drop rest.length := by
      rw [← List.tail_append_of_ne_nil hne, ← List.drop_one, List.drop_drop]
      congr 1
      omega
    rw [List.length_cons, htail]
    simp

/-- The sum of the slots does not depend on where the write cursor is. -/
theorem slotsOldestFirst_sum (b : circBuf_t) : (slotsOldestFirst b).sum = b.data.sum := by
  unfold slotsOldestFirst
  rw [List.sum_append, Nat.add_comm, List.sum_take_add_sum_drop]

/-- Every slot occurs in the age-ordered list. -/
theorem mem_slotsOldestFirst (b : circBuf_t) (x : Nat) (h : x ∈ b.data) :
    x ∈ slotsOldestFirst b := by
  unfold slotsOldestFirst
  rw [← List.take_append_drop b.windex b.data] at h
  rcases List.mem_append.mp h with h | h
  · exact List.mem_append.mpr (Or.inr h)
  · exact List.mem_append.mpr (Or.inl h)

/-! ## Lemmas on the altitude percentage -/

theorem natAbs_tdiv_le (a b : Int) : (Int.tdiv a b).natAbs ≤ a.natAbs := by
  rw [Int.natAbs_tdiv]
  exact Nat.div_le_self _ _

theorem MAX_zero_eq_max (x : Int) : MAX 0 x = max 0 x := by
  unfold MAX
  split_ifs <;> omega

theorem tdiv_201_pos (n : Nat) (hn : 0 < n) :
    Int.tdiv (201 * (n : Int)) (2 * (n : Int)) = 100 := by
  have h1 : (201 * (n : Int)) = ((201 * n : Nat) : Int) := by push_cast; ring
  have h2 : (2 * (n : Int)) = ((2 * n : Nat) : Int) := by push_cast; ring
  rw [h1, h2, ← Int.ofNat_tdiv, Nat.mul_div_mul_right 201 2 hn]
  rfl

/-- Truncating division of `-201 * d` by `2 * d` gives `-100`. -/
theorem tdiv_neg201 (d : Int) (hd : d ≠ 0) : Int.tdiv (-(201 * d)) (2 * d) = -100 := by
  have hn : 0 < d.natAbs := Int.natAbs_pos.mpr hd
  rcases Int.natAbs_eq d with h | h
  · rw [h, Int.neg_tdiv, tdiv_201_pos _ hn]
  · have e1 : -(201 * d) = 201 * (d.natAbs : Int) := by rw [h]; simp
    have e2 : 2 * d = -(2 * (d.natAbs : Int)) := by rw [h]; simp
    rw [e1, e2, Int.tdiv_neg, tdiv_201_pos _ hn]

/-- Truncating division of `-d` by `2 * d` gives `0`. -/
theorem tdiv_negself (d : Int) (hd : d ≠ 0) : Int.tdiv (-d) (2 * d) = 0 := by
  have hn : 0 < d.natAbs := Int.natAbs_pos.mpr hd
  have h := Int.natAbs_tdiv (-d) (2 * d)
  have h2 : (-d).natAbs.div (2 * d).natAbs = 0 := by
    show (-d).natAbs / (2 * d).natAbs = 0
    apply Nat.div_eq_of_lt
    omega
  rw [h2] at h
  exact Int.natAbs_eq_zero.mp h

/-- For a negative range `den` and a numerator at or beyond the baseline
(`num ≥ -100 * den`), the rounded quotient of `getCurrentAltitude` is at most
`-100`. -/
theorem tdiv_at_most_neg100 (num den : Int) (hden : den < 0) (hnum : -100 * den ≤ num) :
    Int.tdiv (2 * num - den) (2 * den) ≤ -100 := by
  have e : 2 * den = -(2 * (-den)) := by ring
  have h1 : Int.tdiv (2 * num - den) (2 * (-den)) = (2 * num - den) / (2 * (-den)) :=
    Int.tdiv_eq_ediv (by omega) (by omega)
  have h2 : 100 ≤ (2 * num - den) / (2 * (-den)) :=
    Int.le_ediv_of_mul_le (by omega) (by omega)
  rw [e, Int.tdiv_neg, h1]
  omega

/-- The value computed by `getCurrentAltitude` for 12-bit operands when the
result fits in `uint16_t`. -/
theorem getCurrentAltitude_eq (s : AltimeterState) (rawMean : Nat) (buffer : circBuf_t)
    (hmean : circBufMean s.g_altitudeBuffer = some (rawMean, buffer))
    (hraw : rawMean < 4096) (hlow : s.g_minAltADCValue < 4096)
    (hhigh : s.g_maxAltADCValue < 4096)
    (hden : (s.g_maxAltADCValue : Int) - s.g_minAltADCValue ≠ 0)
    (hres : max 0 (Int.tdiv
        (2 * (((rawMean : Int) - s.g_maxAltADCValue) * 100)
          - ((s.g_maxAltADCValue : Int) - s.g_minAltADCValue))
        (2 * ((s.g_maxAltADCValue : Int) - s.g_minAltADCValue)) + 100) < 65536) :
    getCurrentAltitude s
      = some ((max 0 (Int.tdiv
            (2 * (((rawMean : Int) - s.g_maxAltADCValue) * 100)
              - ((s.g_maxAltADCValue : Int) - s.g_minAltADCValue))
            (2 * ((s.g_maxAltADCValue : Int) - s.g_minAltADCValue)) + 100)).toNat,
          { s with g_altitudeBuffer := buffer }) := by
  have hnum : toInt32 (toUint32 ((toUint32 ((rawMean : Int) - s.g_maxAltADCValue) : Int) * 100))
      = ((rawMean : Int) - s.g_maxAltADCValue) * 100 := by
    unfold toInt32 toUint32; omega
  have hdenom : toInt32 (toUint32 ((s.g_maxAltADCValue : Int) - s.g_minAltADCValue))
      = (s.g_maxAltADCValue : Int) - s.g_minAltADCValue := by
    unfold toInt32 toUint32; omega
  have h2num : toInt32 (2 * (((rawMean : Int) - s.g_maxAltADCValue) * 100))
      = 2 * (((rawMean : Int) - s.g_maxAltADCValue) * 100) :=
    toInt32_of_range _ (by omega) (by omega)
  have hsub : toInt32 (2 * (((rawMean : Int) - s.g_maxAltADCValue) * 100)
        - ((s.g_maxAltADCValue : Int) - s.g_minAltADCValue))
      = 2 * (((rawMean : Int) - s.g_maxAltADCValue) * 100)
        - ((s.g_maxAltADCValue : Int) - s.g_minAltADCValue) :=
    toInt32_of_range _ (by omega) (by omega)
  have h2den : toInt32 (2 * ((s.g_maxAltADCValue : Int) - s.g_minAltADCValue))
      = 2 * ((s.g_maxAltADCValue : Int) - s.g_minAltADCValue) :=
    toInt32_of_range _ (by omega) (by omega)
  have hne : 2 * ((s.g_maxAltADCValue : Int) - s.g_minAltADCValue) ≠ 0 := by omega
  have hq := natAbs_tdiv_le
    (2 * (((rawMean : Int) - s.g_maxAltADCValue) * 100)
      - ((s.g_maxAltADCValue : Int) - s.g_minAltADCValue))
    (2 * ((s.g_maxAltADCValue : Int) - s.g_minAltADCValue))
  have hcdiv : cdiv
      (2 * (((rawMean : Int) - s.g_maxAltADCValue) * 100)
        - ((s.g_maxAltADCValue : Int) - s.g_minAltADCValue))
      (2 * ((s.g_maxAltADCValue : Int) - s.g_minAltADCValue))
      = some (Int.tdiv
          (2 * (((rawMean : Int) - s.g_maxAltADCValue) * 100)
            - ((s.g_maxAltADCValue : Int) - s.g_minAltADCValue))
          (2 * ((s.g_maxAltADCValue : Int) - s.g_minAltADCValue))) := by
    unfold cdiv
    rw [if_neg hne]
  unfold getCurrentAltitude
  rw [hmean, Option.some_bind]
  simp only [hnum, hdenom, h2num, hsub, h2den, hcdiv, Option.map_some', MAX_zero_eq_max]
  generalize Int.tdiv
    (2 * (((rawMean : Int) - s.g_maxAltADCValue) * 100)
      - ((s.g_maxAltADCValue : Int) - s.g_minAltADCValue))
    (2 * ((s.g_maxAltADCValue : Int) - s.g_minAltADCValue)) = q at hq hres ⊢
  have hwrap : toInt32 (q + 100) = q + 100 := toInt32_of_range _ (by omega) (by omega)
  rw [hwrap]
  have h16 : toUint16 (max 0 (q + 100)) = (max 0 (q + 100)).toNat := by
    unfold toUint16; omega
  rw [h16]

/-! ## Lemmas on the flight supervisor -/

/-- The result of `checkButton` for input `j` is not affected by an earlier
`checkButton` for another input `i`. -/
theorem checkButton_after_other (b : ButtonsState) (i j : Fin NUM_BUTS) (h : j ≠ i) :
    (checkButton (checkButton b i).2 j).1 = (checkButton b j).1 := by
  unfold checkButton
  cases hi : b.but_flag i <;> cases hj : b.but_flag j <;>
    cases hs : b.but_state i <;> cases hn : b.but_normal i <;>
    simp [hi, hj, hs, hn, Function.update_noteq h] <;>
    split_ifs <;> rfl

/-- An immediate second `checkButton` for the same input reports no change. -/
theorem checkButton_twice (b : ButtonsState) (i : Fin NUM_BUTS) :
    (checkButton (checkButton b i).2 i).1 = butStates.NO_CHANGE := by
  unfold checkButton
  cases hi : b.but_flag i <;> cases hs : b.but_state i <;> cases hn : b.but_normal i <;>
    simp [hi, hs, hn, Function.update_same]

/-- The entry block of `updateStateTakingOff` on a tick that is not an entry
tick. -/
theorem updateStateTakingOffEntry_false (adc : List (Option Nat)) (s : HeliState) :
    updateStateTakingOffEntry false adc s = some s := by
  simp [updateStateTakingOffEntry]

/-- What the entry block of `updateStateTakingOff` leaves and what it sets. -/
theorem updateStateTakingOffEntry_fields (jcs : Bool) (adc : List (Option Nat))
    (s e : HeliState) (h : updateStateTakingOffEntry jcs adc s = some e) :
    e.buttons = s.buttons ∧ e.yawmeter = s.yawmeter ∧ e.g_targetYaw = s.g_targetYaw
    ∧ e.g_currentYaw = s.g_currentYaw ∧ e.g_currentAlt = s.g_currentAlt
    ∧ e.yawRefIntEnabled = s.yawRefIntEnabled
    ∧ e.g_targetAlt = (if jcs then 10 else s.g_targetAlt)
    ∧ e.g_yawDebounce = (if jcs then 0 else s.g_yawDebounce) := by
  cases jcs
  · simp only [updateStateTakingOffEntry_false, Option.some.injEq] at h
    subst h
    simp
  · simp only [updateStateTakingOffEntry, if_true, Option.map_eq_some'] at h
    obtain ⟨a, _, rfl⟩ := h
    refine ⟨rfl, rfl, rfl, rfl, rfl, rfl, ?_, rfl⟩
    simp [toUint8, YAW_CORRECTION_ALT]

/-- The function `updateStateTakingOff` returns exactly when its entry block does. -/
theorem updateStateTakingOff_eq_some (jcs : Bool) (adc : List (Option Nat))
    (s : HeliState) (r : heliState_t × HeliState) :
    updateStateTakingOff jcs adc s = some r
      ↔ ∃ e, updateStateTakingOffEntry jcs adc s = some e ∧ r = updateStateTakingOffBody e := by
  unfold updateStateTakingOff
  rw [Option.map_eq_some']
  constructor
  · rintro ⟨e, he, rfl⟩; exact ⟨e, he, rfl⟩
  · rintro ⟨e, he, rfl⟩; exact ⟨e, he, rfl⟩

/-- A tick of `updateStateTakingOff` returns when it is not an entry tick, and
on an entry tick when the blocking calibration returns. -/
theorem updateStateTakingOff_returns (jcs : Bool) (adc : List (Option Nat))
    (s : HeliState) (h : jcs = false ∨ (calibrateAltimeter s.altimeter adc).isSome = true) :
    ∃ r, updateStateTakingOff jcs adc s = some r := by
  cases jcs
  · exact ⟨updateStateTakingOffBody s, by
      simp [updateStateTakingOff, updateStateTakingOffEntry]⟩
  · rcases h with h | h
    · exact absurd h (by decide)
    · obtain ⟨a, ha⟩ := Option.isSome_iff_exists.mp h
      simp only [updateStateTakingOff, updateStateTakingOffEntry, ha, if_true,
        Option.map_some']
      exact ⟨_, rfl⟩

/-- The statements after the entry block of `updateStateTakingOff` when the
flight switch reports a release. -/
theorem updateStateTakingOffBody_released (e : HeliState)
    (hsw : (checkButton e.buttons SLIDE_RIGHT).1 = butStates.RELEASED) :
    (updateStateTakingOffBody e).1 = heliState_t.IDLE
    ∧ (updateStateTakingOffBody e).2.g_targetYaw = e.g_targetYaw := by
  simp [updateStateTakingOffBody, hsw]

/-- The statements after the entry block of `updateStateTakingOff` when the
flight switch reports no release and the yaw decoder is calibrated. -/
theorem updateStateTakingOffBody_calibrated (e : HeliState)
    (hsw : (checkButton e.buttons SLIDE_RIGHT).1 ≠ butStates.RELEASED)
    (hcal : yawCalibrated_p e.yawmeter = true) :
    (updateStateTakingOffBody e).1 = heliState_t.FLYING
    ∧ (updateStateTakingOffBody e).2.g_targetYaw = 0
    ∧ (updateStateTakingOffBody e).2.yawRefIntEnabled = false := by
  simp [updateStateTakingOffBody, hsw, hcal]

/-- The yaw search of `updateStateTakingOff`: no release reported, yaw decoder
not calibrated. -/
theorem updateStateTakingOffBody_search (e : HeliState)
    (hsw : (checkButton e.buttons SLIDE_RIGHT).1 ≠ butStates.RELEASED)
    (hcal : yawCalibrated_p e.yawmeter = false) (hyaw : e.g_targetYaw < 360) :
    (updateStateTakingOffBody e).1 = heliState_t.TAKING_OFF
    ∧ ((yawDifference e.g_targetYaw e.g_currentYaw).natAbs < 15
        ∧ ((e.g_targetAlt : Int) - e.g_currentAlt).natAbs < 8 →
        (updateStateTakingOffBody e).2.g_yawDebounce = (e.g_yawDebounce + 1) % 256
        ∧ (15 < (e.g_yawDebounce + 1) % 256 →
            (updateStateTakingOffBody e).2.g_targetYaw = (e.g_targetYaw + 30) % 360)
        ∧ ((e.g_yawDebounce + 1) % 256 ≤ 15 →
            (updateStateTakingOffBody e).2.g_targetYaw = e.g_targetYaw))
    ∧ (¬ ((yawDifference e.g_targetYaw e.g_currentYaw).natAbs < 15
        ∧ ((e.g_targetAlt : Int) - e.g_currentAlt).natAbs < 8) →
        (updateStateTakingOffBody e).2.g_yawDebounce = 0
        ∧ (updateStateTakingOffBody e).2.g_targetYaw = e.g_targetYaw) := by
  have hd : toUint8 ((e.g_yawDebounce : Int) + 1) = (e.g_yawDebounce + 1) % 256 := by
    unfold toUint8; omega
  have hy1 : toUint16 ((e.g_targetYaw : Int) + 30 - 360) = (e.g_targetYaw + 30) % 360
      ∨ (e.g_targetYaw : Int) + 30 < 360 := by
    unfold toUint16; omega
  have hy2 : toUint16 ((e.g_targetYaw : Int) + 30) = (e.g_targetYaw + 30) % 360
      ∨ (e.g_targetYaw : Int) + 30 ≥ 360 := by
    unfold toUint16; omega
  unfold updateStateTakingOffBody
  simp only [hsw, hcal, if_false, Bool.false_eq_true, YAW_TAKEOFF_TOLERANCE, ALT_TOLERANCE,
    YAW_MIN_POLLS, YAW_REF_INCREMENT, hd]
  by_cases htol : (yawDifference e.g_targetYaw e.g_currentYaw).natAbs < 15
      ∧ ((e.g_targetAlt : Int) - e.g_currentAlt).natAbs < 8
  · have htol' : ((yawDifference e.g_targetYaw e.g_currentYaw).natAbs : Int) < 15
        ∧ ((((e.g_targetAlt : Int) - e.g_currentAlt).natAbs : Nat) : Int) < 8 := by
      omega
    rw [if_pos htol']
    by_cases hc : (((e.g_yawDebounce + 1) % 256 : Nat) : Int) > 15
    · rw [if_pos hc]
      refine ⟨rfl, fun _ => ⟨rfl, fun _ => ?_, fun h => ?_⟩, fun h => absurd htol h⟩
      · by_cases h360 : (e.g_targetYaw : Int) + 30 ≥ 360
        · simp only [if_pos h360]
          rcases hy1 with h | h
          · exact h
          · omega
        · simp only [if_neg h360]
          rcases hy2 with h | h
          · exact h
          · omega
      · omega
    · rw [if_neg hc]
      refine ⟨rfl, fun _ => ⟨rfl, fun h => ?_, fun _ => rfl⟩, fun h => absurd htol h⟩
      omega
  · have htol' : ¬ (((yawDifference e.g_targetYaw e.g_currentYaw).natAbs : Int) < 15
        ∧ ((((e.g_targetAlt : Int) - e.g_currentAlt).natAbs : Nat) : Int) < 8) := by
      omega
    rw [if_neg htol']
    exact ⟨rfl, fun h => absurd h htol, fun _ => ⟨rfl, rfl⟩⟩

/-- A tick of the yaw search that stays in TAKING_OFF raises the debounce
counter by at most one and keeps target yaw while the counter is below
`YAW_MIN_POLLS`. -/
theorem updateStateTakingOffBody_counter (e : HeliState)
    (h : (updateStateTakingOffBody e).1 = heliState_t.TAKING_OFF) :
    (updateStateTakingOffBody e).2.g_yawDebounce ≤ e.g_yawDebounce + 1
    ∧ (e.g_yawDebounce < 15 → (updateStateTakingOffBody e).2.g_targetYaw = e.g_targetYaw) := by
  have hd : toUint8 ((e.g_yawDebounce : Int) + 1) = (e.g_yawDebounce + 1) % 256 := by
    unfold toUint8; omega
  have hle : (e.g_yawDebounce + 1) % 256 ≤ e.g_yawDebounce + 1 := Nat.mod_le _ _
  unfold updateStateTakingOffBody at h ⊢
  simp only [YAW_TAKEOFF_TOLERANCE, ALT_TOLERANCE, YAW_MIN_POLLS, YAW_REF_INCREMENT, hd] at h ⊢
  split_ifs at h ⊢ <;> dsimp only <;> first
    | exact ⟨by omega, fun _ => rfl⟩
    | exact ⟨by omega, fun h15 => by omega⟩

/-- From debounce counter `d`, a run of `n` TAKING_OFF ticks with
`d + n ≤ 15` leaves target yaw unchanged. -/
theorem takingOffRun_keeps_targetYaw (inputs : List TickInput) :
    ∀ (s u : HeliState), s.g_yawDebounce + inputs.length ≤ 15 →
      takingOffRun inputs s = some u →
      u.g_targetYaw = s.g_targetYaw ∧ u.g_yawDebounce ≤ s.g_yawDebounce + inputs.length := by
  induction inputs with
  | nil =>
    intro s u _ h
    simp only [takingOffRun, Option.some.injEq] at h
    subst h
    exact ⟨rfl, by simp⟩
  | cons i rest ih =>
    intro s u hlen h
    simp only [List.length_cons] at hlen ⊢
    simp only [takingOffRun, updateStateTakingOff, updateStateTakingOffEntry_false,
      Option.map_some', Option.some_bind] at h
    by_cases hst : (updateStateTakingOffBody (applyTickInput s i)).1 = heliState_t.TAKING_OFF
    · rw [if_pos hst] at h
      obtain ⟨h1, h2⟩ := updateStateTakingOffBody_counter _ hst
      have hd : (applyTickInput s i).g_yawDebounce = s.g_yawDebounce := rfl
      have hy : (applyTickInput s i).g_targetYaw = s.g_targetYaw := rfl
      rw [hd] at h1 h2
      rw [hy] at h2
      obtain ⟨a1, a2⟩ := ih _ u (by omega) h
      exact ⟨by rw [a1, h2 (by omega)], by omega⟩
    · rw [if_neg hst] at h
      exact absurd h (by simp)

/-- Effect of the `UP` statement of `updateStateFlying`. -/
theorem flyingCheckUp_fields (s : HeliState) :
    (flyingCheckUp s).buttons = (checkButton s.buttons UP).2
    ∧ (flyingCheckUp s).g_targetYaw = s.g_targetYaw
    ∧ (flyingCheckUp s).g_targetAlt
        = (if (checkButton s.buttons UP).1 = butStates.PUSHED then
            toUint8 (MIN 100 (s.g_targetAlt + INCREMENT_ALT)) else s.g_targetAlt) := by
  unfold flyingCheckUp
  dsimp only
  split_ifs <;> exact ⟨rfl, rfl, rfl⟩

/-- Effect of the `DOWN` statement of `updateStateFlying`. -/
theorem flyingCheckDown_fields (s : HeliState) :
    (flyingCheckDown s).buttons = (checkButton s.buttons DOWN).2
    ∧ (flyingCheckDown s).g_targetYaw = s.g_targetYaw
    ∧ (flyingCheckDown s).g_targetAlt
        = (if (checkButton s.buttons DOWN).1 = butStates.PUSHED then
            toUint8 (MAX 0 (s.g_targetAlt - INCREMENT_ALT)) else s.g_targetAlt) := by
  unfold flyingCheckDown
  dsimp only
  split_ifs <;> exact ⟨rfl, rfl, rfl⟩

/-- Effect of the `RIGHT` statement of `updateStateFlying`. -/
theorem flyingCheckRight_fields (s : HeliState) :
    (flyingCheckRight s).buttons = (checkButton s.buttons RIGHT).2
    ∧ (flyingCheckRight s).g_targetAlt = s.g_targetAlt
    ∧ (flyingCheckRight s).g_targetYaw
        = (if (checkButton s.buttons RIGHT).1 = butStates.PUSHED then
            toUint16 (Int.tmod (s.g_targetYaw + INCREMENT_YAW) 360) else s.g_targetYaw) := by
  unfold flyingCheckRight
  dsimp only
  split_ifs <;> exact ⟨rfl, rfl, rfl⟩

/-- Effect of the `LEFT` statement of `updateStateFlying`. -/
theorem flyingCheckLeft_fields (s : HeliState) :
    (flyingCheckLeft s).buttons = (checkButton s.buttons LEFT).2
    ∧ (flyingCheckLeft s).g_targetAlt = s.g_targetAlt
    ∧ (flyingCheckLeft s).g_targetYaw
        = (if (checkButton s.buttons LEFT).1 = butStates.PUSHED then
            (if (s.g_targetYaw : Int) < INCREMENT_YAW then
              toUint16 (s.g_targetYaw - INCREMENT_YAW + 360)
            else toUint16 (s.g_targetYaw - INCREMENT_YAW))
          else s.g_targetYaw) := by
  unfold flyingCheckLeft
  dsimp only
  split_ifs <;> exact ⟨rfl, rfl, rfl⟩

/-- Target altitude after an `UP` event, for a target altitude in `[0,100]`. -/
theorem targetAlt_up (t : Nat) (h : t ≤ 100) :
    toUint8 (MIN 100 ((t : Int) + INCREMENT_ALT)) = min 100 (t + 10) := by
  unfold toUint8 MIN INCREMENT_ALT
  split_ifs <;> omega

/-- Target altitude after a `DOWN` event, for a target altitude in `[0,255]`. -/
theorem targetAlt_down (t : Nat) (h : t ≤ 255) :
    toUint8 (MAX 0 ((t : Int) - INCREMENT_ALT)) = t - 10 := by
  unfold toUint8 MAX INCREMENT_ALT
  split_ifs <;> omega

/-- Target yaw after a `RIGHT` event, for a target yaw in `[0,360)`. -/
theorem targetYaw_right (y : Nat) (h : y < 360) :
    toUint16 (Int.tmod ((y : Int) + INCREMENT_YAW) 360) = (y + 15) % 360 := by
  have h1 : Int.tmod ((y : Int) + INCREMENT_YAW) 360 = ((y : Int) + 15) % 360 := by
    unfold INCREMENT_YAW
    exact Int.tmod_eq_emod (by omega) (by norm_num)
  rw [h1]
  unfold toUint16
  omega

/-- Target yaw after a `LEFT` event, for a target yaw in `[0,360)`. -/
theorem targetYaw_left (y : Nat) (h : y < 360) :
    (if (y : Int) < INCREMENT_YAW then toUint16 ((y : Int) - INCREMENT_YAW + 360)
      else toUint16 ((y : Int) - INCREMENT_YAW)) = (y + 345) % 360 := by
  unfold toUint16 INCREMENT_YAW
  split_ifs <;> omega

/-- State after `updateStateFlying` when the flight switch reports no release:
next state, target altitude and target yaw in terms of the four directional
events. -/
theorem updateStateFlying_fields (jcs : Bool) (s : HeliState)
    (hsw : (checkButton s.buttons SLIDE_RIGHT).1 ≠ butStates.RELEASED) :
    (updateStateFlying jcs s).1 = heliState_t.FLYING
    ∧ (updateStateFlying jcs s).2.g_targetAlt
        = (if (checkButton s.buttons DOWN).1 = butStates.PUSHED then
            toUint8 (MAX 0 (((if (checkButton s.buttons UP).1 = butStates.PUSHED then
              toUint8 (MIN 100 (s.g_targetAlt + INCREMENT_ALT)) else s.g_targetAlt : Nat) : Int)
              - INCREMENT_ALT))
          else (if (checkButton s.buttons UP).1 = butStates.PUSHED then
              toUint8 (MIN 100 (s.g_targetAlt + INCREMENT_ALT)) else s.g_targetAlt))
    ∧ (updateStateFlying jcs s).2.g_targetYaw
        = (if (checkButton s.buttons LEFT).1 = butStates.PUSHED then
            (if (((if (checkButton s.buttons RIGHT).1 = butStates.PUSHED then
                toUint16 (Int.tmod (s.g_targetYaw + INCREMENT_YAW) 360) else s.g_targetYaw : Nat)
                : Int) < INCREMENT_YAW) then
              toUint16 (((if (checkButton s.buttons RIGHT).1 = butStates.PUSHED then
                toUint16 (Int.tmod (s.g_targetYaw + INCREMENT_YAW) 360) else s.g_targetYaw : Nat)
                : Int) - INCREMENT_YAW + 360)
            else
              toUint16 (((if (checkButton s.buttons RIGHT).1 = butStates.PUSHED then
                toUint16 (Int.tmod (s.g_targetYaw + INCREMENT_YAW) 360) else s.g_targetYaw : Nat)
                : Int) - INCREMENT_YAW))
          else (if (checkButton s.buttons RIGHT).1 = butStates.PUSHED then
              toUint16 (Int.tmod (s.g_targetYaw + INCREMENT_YAW) 360) else s.g_targetYaw)) := by
  have hdef : updateStateFlying jcs s
      = (heliState_t.FLYING, flyingCheckLeft (flyingCheckRight (flyingCheckDown
          (flyingCheckUp { s with buttons := (checkButton s.buttons SLIDE_RIGHT).2 })))) := by
    unfold updateStateFlying
    dsimp only
    rw [if_neg hsw]
  obtain ⟨ub, uy, ua⟩ :=
    flyingCheckUp_fields { s with buttons := (checkButton s.buttons SLIDE_RIGHT).2 }
  obtain ⟨db, dy, da⟩ := flyingCheckDown_fields
    (flyingCheckUp { s with buttons := (checkButton s.buttons SLIDE_RIGHT).2 })
  obtain ⟨rb, ra, ry⟩ := flyingCheckRight_fields (flyingCheckDown
    (flyingCheckUp { s with buttons := (checkButton s.buttons SLIDE_RIGHT).2 }))
  obtain ⟨_, la, ly⟩ := flyingCheckLeft_fields (flyingCheckRight (flyingCheckDown
    (flyingCheckUp { s with buttons := (checkButton s.buttons SLIDE_RIGHT).2 })))
  have e1 : (checkButton (checkButton s.buttons SLIDE_RIGHT).2 UP).1
      = (checkButton s.buttons UP).1 :=
    checkButton_after_other _ _ _ (by decide)
  have e2 : (checkButton (checkButton (checkButton s.buttons SLIDE_RIGHT).2 UP).2 DOWN).1
      = (checkButton s.buttons DOWN).1 := by
    rw [checkButton_after_other _ UP DOWN (by decide),
      checkButton_after_other _ SLIDE_RIGHT DOWN (by decide)]
  have e3 : (checkButton (checkButton (checkButton
      (checkButton s.buttons SLIDE_RIGHT).2 UP).2 DOWN).2 RIGHT).1
      = (checkButton s.buttons RIGHT).1 := by
    rw [checkButton_after_other _ DOWN RIGHT (by decide),
      checkButton_after_other _ UP RIGHT (by decide),
      checkButton_after_other _ SLIDE_RIGHT RIGHT (by decide)]
  have e4 : (checkButton (checkButton (checkButton (checkButton
      (checkButton s.buttons SLIDE_RIGHT).2 UP).2 DOWN).2 RIGHT).2 LEFT).1
      = (checkButton s.buttons LEFT).1 := by
    rw [checkButton_after_other _ RIGHT LEFT (by decide),
      checkButton_after_other _ DOWN LEFT (by decide),
      checkButton_after_other _ UP LEFT (by decide),
      checkButton_after_other _ SLIDE_RIGHT LEFT (by decide)]
  rw [hdef]
  refine ⟨rfl, ?_, ?_⟩
  · show (flyingCheckLeft _).g_targetAlt = _
    rw [la, ra, da, ub, ua]
    simp only [e1, e2]
  · show (flyingCheckLeft _).g_targetYaw = _
    rw [ly, rb, ry, db, dy, ub, uy]
    simp only [e3, e4]

/-- A LANDING tick on which the flight switch reports no activation runs the
yaw step and then the descent block, on the state left by the entry block and
the switch check. -/
theorem updateStateLanding_not_pushed (jcs : Bool) (s : HeliState)
    (hsw : (checkButton s.buttons SLIDE_RIGHT).1 ≠ butStates.PUSHED) :
    ∃ e : HeliState, updateStateLanding jcs s = landingDescend (landingYawStep e)
      ∧ e.g_targetYaw = s.g_targetYaw ∧ e.g_targetAlt = s.g_targetAlt
      ∧ e.g_currentYaw = s.g_currentYaw ∧ e.g_currentAlt = s.g_currentAlt
      ∧ e.g_yawDebounce = (if jcs then 0 else s.g_yawDebounce)
      ∧ e.g_altDebounce = (if jcs then 0 else s.g_altDebounce) := by
  cases jcs
  · refine ⟨{ s with buttons := (checkButton s.buttons SLIDE_RIGHT).2 }, ?_,
      rfl, rfl, rfl, rfl, rfl, rfl⟩
    unfold updateStateLanding
    dsimp only
    simp only [Bool.false_eq_true, if_false]
    rw [if_neg hsw]
  · refine ⟨{ s with
        g_yawDebounce := 0
        g_altDebounce := 0
        buttons := (checkButton s.buttons SLIDE_RIGHT).2 }, ?_,
      rfl, rfl, rfl, rfl, rfl, rfl⟩
    unfold updateStateLanding
    dsimp only
    simp only [if_true]
    rw [if_neg hsw]

/-- A LANDING tick on which the flight switch reports an activation. -/
theorem updateStateLanding_pushed (jcs : Bool) (s : HeliState)
    (hsw : (checkButton s.buttons SLIDE_RIGHT).1 = butStates.PUSHED) :
    (updateStateLanding jcs s).1 = heliState_t.FLYING
    ∧ (updateStateLanding jcs s).2.g_targetAlt = s.g_targetAlt
    ∧ (updateStateLanding jcs s).2.g_targetYaw = s.g_targetYaw := by
  unfold updateStateLanding
  cases jcs <;> dsimp only <;> simp only [Bool.false_eq_true, if_false, if_true] <;>
    rw [if_pos hsw] <;> exact ⟨rfl, rfl, rfl⟩

/-- The yaw step of `updateStateLanding` changes only the yaw debounce counter
and target yaw. -/
theorem landingYawStep_frame (e : HeliState) :
    (landingYawStep e).g_targetAlt = e.g_targetAlt
    ∧ (landingYawStep e).g_currentYaw = e.g_currentYaw
    ∧ (landingYawStep e).g_currentAlt = e.g_currentAlt
    ∧ (landingYawStep e).g_altDebounce = e.g_altDebounce := by
  unfold landingYawStep
  dsimp only
  split_ifs <;> exact ⟨rfl, rfl, rfl, rfl⟩

/-- Target yaw after the yaw step of `updateStateLanding`, for a target yaw in
`[0,360)`. -/
theorem landingYawStep_targetYaw (e : HeliState) (hy : e.g_targetYaw < 360) :
    (landingYawStep e).g_targetYaw
      = (if (yawDifference e.g_targetYaw e.g_currentYaw).natAbs < 3
            ∧ 15 < (e.g_yawDebounce + 1) % 256 ∧ e.g_targetYaw ≠ 0 then
          (if e.g_targetYaw ≤ 180 then e.g_targetYaw - 30
            else if 360 ≤ e.g_targetYaw + 30 then 0 else e.g_targetYaw + 30)
        else e.g_targetYaw) := by
  have hd : toUint8 ((e.g_yawDebounce : Int) + 1) = (e.g_yawDebounce + 1) % 256 := by
    unfold toUint8; omega
  have hsign : yawDifference 0 e.g_targetYaw < 0 ↔ (e.g_targetYaw ≠ 0 ∧ e.g_targetYaw ≤ 180) := by
    unfold yawDifference
    simp only
    split_ifs <;> omega
  have hdown : toUint16 (MAX 0 ((e.g_targetYaw : Int) - 30)) = e.g_targetYaw - 30 := by
    unfold toUint16 MAX
    split_ifs <;> omega
  have hup : toUint16 ((e.g_targetYaw : Int) + 30) = e.g_targetYaw + 30 := by
    unfold toUint16; omega
  have hzero : toUint16 0 = 0 := by decide
  unfold landingYawStep
  simp only [YAW_LANDING_TOLERANCE, YAW_MIN_POLLS, YAW_REF_INCREMENT, hd, hsign, hdown]
  split_ifs <;> dsimp only <;> first
    | rfl
    | omega

/-- The descent block of `updateStateLanding` returns IDLE exactly when the yaw
is within tolerance of the reference and the altitude is at most
`LANDING_MAX_ALT`, and LANDING otherwise; it never changes target yaw. -/
theorem landingDescend_state (e : HeliState) :
    (landingDescend e).1
      = (if (yawDifference 0 e.g_currentYaw).natAbs < 3 ∧ e.g_currentAlt ≤ 3
          then heliState_t.IDLE else heliState_t.LANDING)
    ∧ (landingDescend e).2.g_targetYaw = e.g_targetYaw := by
  unfold landingDescend
  simp only [YAW_LANDING_TOLERANCE, LANDING_MAX_ALT, ALT_TOLERANCE, ALT_MIN_POLLS]
  split_ifs <;> first
    | exact ⟨rfl, rfl⟩
    | (exfalso; omega)

/-- Target altitude and altitude debounce counter after the descent block of
`updateStateLanding`, for a target altitude that fits a `uint8_t`. -/
theorem landingDescend_targetAlt (e : HeliState) (ht : e.g_targetAlt ≤ 255) :
    (landingDescend e).2.g_targetAlt
      = (if (yawDifference 0 e.g_currentYaw).natAbs < 3 ∧ 3 < e.g_currentAlt
            ∧ ((e.g_targetAlt : Int) - e.g_currentAlt).natAbs < 8
            ∧ 10 < (e.g_altDebounce + 1) % 256 then
          e.g_targetAlt - 10
        else e.g_targetAlt)
    ∧ ((yawDifference 0 e.g_currentYaw).natAbs < 3 → 3 < e.g_currentAlt →
        ¬ ((e.g_targetAlt : Int) - e.g_currentAlt).natAbs < 8 →
        (landingDescend e).2.g_altDebounce = 0) := by
  have hd : toUint8 ((e.g_altDebounce : Int) + 1) = (e.g_altDebounce + 1) % 256 := by
    unfold toUint8; omega
  have hdown : toUint8 (MAX 0 ((e.g_targetAlt : Int) - 10)) = e.g_targetAlt - 10 := by
    unfold toUint8 MAX
    split_ifs <;> omega
  unfold landingDescend
  simp only [YAW_LANDING_TOLERANCE, LANDING_MAX_ALT, ALT_TOLERANCE, ALT_MIN_POLLS,
    ALT_LANDING_INCREMENT, hd, hdown]
  split_ifs <;> dsimp only <;> refine ⟨?_, ?_⟩ <;> first
    | rfl
    | (intros; rfl)
    | omega

/-- The control period is the rounding of one hundredth of a second. -/
theorem g_deltaT_eq (fp : doubleArith) : g_deltaT fp = fp.round (1 / 100) := by
  unfold g_deltaT CONTROL_UPDATE_FREQUENCY
  norm_num

/-- The binary exponent of one hundredth. -/
theorem log_hundredth : Int.log 2 |(1 / 100 : ℚ)| = -7 := by
  have hpos : (0 : ℚ) < |(1 / 100 : ℚ)| := by norm_num
  apply le_antisymm
  · have h : Int.log 2 |(1 / 100 : ℚ)| < -6 := by
      rw [← Int.lt_zpow_iff_log_lt (by norm_num) hpos]
      norm_num [abs_of_pos]
    omega
  · rw [← Int.zpow_le_iff_le_log (by norm_num) hpos]
    norm_num [abs_of_pos]

/-- The binary64 value nearest to one hundredth. -/
theorem roundBinary64_hundredth :
    roundBinary64 (1 / 100) = 5764607523034235 / 576460752303423488 := by
  have hu : ulpExponent (1 / 100) = -59 := by
    unfold ulpExponent
    rw [log_hundredth]
    decide
  have hq : (1 / 100 : ℚ) / 2 ^ (-59 : Int) = 5764607523034234 + 22 / 25 := by
    norm_num
  have hf : Rat.floor ((5764607523034234 : ℚ) + 22 / 25) = 5764607523034234 := by
    have e : Rat.floor ((5764607523034234 : ℚ) + 22 / 25)
        = ⌊((5764607523034234 : ℚ) + 22 / 25)⌋ := rfl
    rw [e, Int.floor_eq_iff]
    norm_num
  unfold roundBinary64
  rw [hu, hq]
  unfold roundHalfEven
  simp only [hf]
  norm_num

/-- On the platform `binary64` the control period is not zero. -/
theorem g_deltaT_binary64 :
    g_deltaT binary64 = 5764607523034235 / 576460752303423488 ∧ g_deltaT binary64 ≠ 0 := by
  have h : g_deltaT binary64 = 5764607523034235 / 576460752303423488 := by
    rw [g_deltaT_eq]
    exact roundBinary64_hundredth
  refine ⟨h, ?_⟩
  rw [h]
  norm_num

/-- A rational nearer than one half to an integer rounds to it. -/
theorem roundHalfEven_near (q : ℚ) (n : Int) (h : |q - n| < 1 / 2) : roundHalfEven q = n := by
  have hb := abs_lt.mp h
  have e : Rat.floor q = ⌊q⌋ := rfl
  unfold roundHalfEven
  simp only [e]
  by_cases hn : (n : ℚ) ≤ q
  · have hf : ⌊q⌋ = n := by
      rw [Int.floor_eq_iff]
      constructor
      · exact hn
      · linarith [hb.2]
    rw [hf, if_pos (by linarith [hb.2])]
  · have hf : ⌊q⌋ = n - 1 := by
      rw [Int.floor_eq_iff]
      push_cast
      constructor
      · linarith [hb.1]
      · linarith
    rw [hf]
    push_cast
    rw [if_neg (by linarith [hb.1]), if_pos (by linarith [hb.1])]
    omega

/-- The binary exponent of a rational between two consecutive powers of two. -/
theorem log_of_bounds (q : ℚ) (e : Int) (hlo : (2 : ℚ) ^ e ≤ |q|)
    (hhi : |q| < (2 : ℚ) ^ (e + 1)) : Int.log 2 |q| = e := by
  have hpos : (0 : ℚ) < |q| := lt_of_lt_of_le (zpow_pos (by norm_num) e) hlo
  apply le_antisymm
  · have h : Int.log 2 |q| < e + 1 := by
      rw [← Int.lt_zpow_iff_log_lt (by norm_num) hpos]
      exact_mod_cast hhi
    omega
  · rw [← Int.zpow_le_iff_le_log (by norm_num) hpos]
    exact_mod_cast hlo

/-- Evaluation of `roundBinary64`: for `q` of binary exponent `e` in the normal
range, the result is `n` units in the last place when `q` is nearer than half a
unit to it. -/
theorem roundBinary64_near (q : ℚ) (e n : Int) (he : -1022 ≤ e)
    (hlo : (2 : ℚ) ^ e ≤ |q|) (hhi : |q| < (2 : ℚ) ^ (e + 1))
    (h : |q / 2 ^ (e - 52) - n| < 1 / 2) : roundBinary64 q = n * 2 ^ (e - 52) := by
  have hu : ulpExponent q = e - 52 := by
    unfold ulpExponent
    rw [log_of_bounds q e hlo hhi]
    omega
  unfold roundBinary64
  rw [hu, roundHalfEven_near _ n h]

/-- Zero is a binary64 value. -/
theorem roundBinary64_zero : roundBinary64 0 = 0 := by
  unfold roundBinary64
  rw [zero_div, roundHalfEven_near 0 0 (by norm_num)]
  norm_num

/-- The altitude controller update of `descendingState` on the platform
`binary64`: error -20, control value about -420.1. -/
theorem pidUpdateDouble_descending_alt :
    pidUpdateDouble binary64 descendingState.altController
        (((descendingState.g_targetAlt : Int) - descendingState.g_currentAlt : Int) : ℚ)
        (binary64.round (1 / 100))
      = (some (-3695238678629581 / 8796093022208),
          ⟨-3602879701896397 / 18014398509481984, -20, 1, 1 / 2, 1 / 5⟩) := by
  have hdt : (5764607523034235 / 576460752303423488 : ℚ) ≠ 0 := by norm_num
  have h1 : roundBinary64 (-20 * (5764607523034235 / 576460752303423488)) = -3602879701896397 / 18014398509481984 := by
    rw [roundBinary64_near _ (-3) (-7205759403792794) (by decide) (by norm_num [abs_of_neg, abs_of_pos])
      (by norm_num [abs_of_neg, abs_of_pos]) (by norm_num [abs_of_neg, abs_of_pos])]
    norm_num
  have h2 : roundBinary64 (0 + -3602879701896397 / 18014398509481984) = -3602879701896397 / 18014398509481984 := by
    rw [roundBinary64_near _ (-3) (-7205759403792794) (by decide) (by norm_num [abs_of_neg, abs_of_pos])
      (by norm_num [abs_of_neg, abs_of_pos]) (by norm_num [abs_of_neg, abs_of_pos])]
    norm_num
  have h3 : roundBinary64 (-20 - 0) = -20 := by
    rw [roundBinary64_near _ (4) (-5629499534213120) (by decide) (by norm_num [abs_of_neg, abs_of_pos])
      (by norm_num [abs_of_neg, abs_of_pos]) (by norm_num [abs_of_neg, abs_of_pos])]
    norm_num
  have h4 : roundBinary64 (-20 / (5764607523034235 / 576460752303423488)) = -2000 := by
    rw [roundBinary64_near _ (10) (-8796093022208000) (by decide) (by norm_num [abs_of_neg, abs_of_pos])
      (by norm_num [abs_of_neg, abs_of_pos]) (by norm_num [abs_of_neg, abs_of_pos])]
    norm_num
  have h5 : roundBinary64 (1) = 1 := by
    rw [roundBinary64_near _ (0) (4503599627370496) (by decide) (by norm_num [abs_of_neg, abs_of_pos])
      (by norm_num [abs_of_neg, abs_of_pos]) (by norm_num [abs_of_neg, abs_of_pos])]
    norm_num
  have h6 : roundBinary64 (1 / 2) = 1 / 2 := by
    rw [roundBinary64_near _ (-1) (4503599627370496) (by decide) (by norm_num [abs_of_neg, abs_of_pos])
      (by norm_num [abs_of_neg, abs_of_pos]) (by norm_num [abs_of_neg, abs_of_pos])]
    norm_num
  have h7 : roundBinary64 (1 / 5) = 3602879701896397 / 18014398509481984 := by
    rw [roundBinary64_near _ (-3) (7205759403792794) (by decide) (by norm_num [abs_of_neg, abs_of_pos])
      (by norm_num [abs_of_neg, abs_of_pos]) (by norm_num [abs_of_neg, abs_of_pos])]
    norm_num
  have h8 : roundBinary64 (-20 * 1) = -20 := by
    rw [roundBinary64_near _ (4) (-5629499534213120) (by decide) (by norm_num [abs_of_neg, abs_of_pos])
      (by norm_num [abs_of_neg, abs_of_pos]) (by norm_num [abs_of_neg, abs_of_pos])]
    norm_num
  have h9 : roundBinary64 (-3602879701896397 / 18014398509481984 * (1 / 2)) = -3602879701896397 / 36028797018963968 := by
    rw [roundBinary64_near _ (-4) (-7205759403792794) (by decide) (by norm_num [abs_of_neg, abs_of_pos])
      (by norm_num [abs_of_neg, abs_of_pos]) (by norm_num [abs_of_neg, abs_of_pos])]
    norm_num
  have h10 : roundBinary64 (-2000 * (3602879701896397 / 18014398509481984)) = -400 := by
    rw [roundBinary64_near _ (8) (-7036874417766400) (by decide) (by norm_num [abs_of_neg, abs_of_pos])
      (by norm_num [abs_of_neg, abs_of_pos]) (by norm_num [abs_of_neg, abs_of_pos])]
    norm_num
  have h11 : roundBinary64 (-20 + -3602879701896397 / 36028797018963968) = -2828823515942093 / 140737488355328 := by
    rw [roundBinary64_near _ (4) (-5657647031884186) (by decide) (by norm_num [abs_of_neg, abs_of_pos])
      (by norm_num [abs_of_neg, abs_of_pos]) (by norm_num [abs_of_neg, abs_of_pos])]
    norm_num
  have h12 : roundBinary64 (-2828823515942093 / 140737488355328 + -400) = -3695238678629581 / 8796093022208 := by
    rw [roundBinary64_near _ (8) (-7390477357259162) (by decide) (by norm_num [abs_of_neg, abs_of_pos])
      (by norm_num [abs_of_neg, abs_of_pos]) (by norm_num [abs_of_neg, abs_of_pos])]
    norm_num
  have he : (((descendingState.g_targetAlt : Int) - descendingState.g_currentAlt : Int) : ℚ)
      = -20 := by
    show ((((40 : Nat) : Int) - (60 : Int) : Int) : ℚ) = -20
    norm_num
  have hr : binary64.round (1 / 100) = 5764607523034235 / 576460752303423488 := roundBinary64_hundredth
  rw [he, hr]
  show pidUpdateDouble binary64 ⟨0, 0, 1, 1 / 2, 1 / 5⟩ (-20) (5764607523034235 / 576460752303423488) = _
  simp only [pidUpdateDouble, binary64, if_neg hdt, roundBinary64_zero, h1, h2, h3, h4, h5, h6,
    h7, h8, h9, h10, h11, h12]

/-- The yaw controller update of `descendingState` on the platform `binary64`:
error 0, control value exactly 3, where the exact product of the integrated
error and one fifth is below 3. -/
theorem pidUpdateDouble_descending_yaw :
    pidUpdateDouble binary64 descendingState.yawController
        ((toInt16 (yawDifference descendingState.g_targetYaw descendingState.g_currentYaw)
          : Int) : ℚ)
        (binary64.round (1 / 100))
      = (some 3, ⟨8444249301319679 / 562949953421312, 0, 1, 1 / 5, 1 / 5⟩) := by
  have hdt : (5764607523034235 / 576460752303423488 : ℚ) ≠ 0 := by norm_num
  have h1 : roundBinary64 (8444249301319679 / 562949953421312) = 8444249301319679 / 562949953421312 := by
    rw [roundBinary64_near _ (3) (8444249301319679) (by decide) (by norm_num [abs_of_neg, abs_of_pos])
      (by norm_num [abs_of_neg, abs_of_pos]) (by norm_num [abs_of_neg, abs_of_pos])]
    norm_num
  have h5 : roundBinary64 (1) = 1 := by
    rw [roundBinary64_near _ (0) (4503599627370496) (by decide) (by norm_num [abs_of_neg, abs_of_pos])
      (by norm_num [abs_of_neg, abs_of_pos]) (by norm_num [abs_of_neg, abs_of_pos])]
    norm_num
  have h7 : roundBinary64 (1 / 5) = 3602879701896397 / 18014398509481984 := by
    rw [roundBinary64_near _ (-3) (7205759403792794) (by decide) (by norm_num [abs_of_neg, abs_of_pos])
      (by norm_num [abs_of_neg, abs_of_pos]) (by norm_num [abs_of_neg, abs_of_pos])]
    norm_num
  have h9 : roundBinary64 (8444249301319679 / 562949953421312 * (3602879701896397 / 18014398509481984)) = 3 := by
    rw [roundBinary64_near _ (1) (6755399441055744) (by decide) (by norm_num [abs_of_neg, abs_of_pos])
      (by norm_num [abs_of_neg, abs_of_pos]) (by norm_num [abs_of_neg, abs_of_pos])]
    norm_num
  have h10 : roundBinary64 (3) = 3 := by
    rw [roundBinary64_near _ (1) (6755399441055744) (by decide) (by norm_num [abs_of_neg, abs_of_pos])
      (by norm_num [abs_of_neg, abs_of_pos]) (by norm_num [abs_of_neg, abs_of_pos])]
    norm_num
  have he : ((toInt16 (yawDifference descendingState.g_targetYaw
      descendingState.g_currentYaw) : Int) : ℚ) = 0 := by
    have h0 : toInt16 (yawDifference descendingState.g_targetYaw
        descendingState.g_currentYaw) = 0 := by decide
    rw [h0]
    norm_num
  have hr : binary64.round (1 / 100) = 5764607523034235 / 576460752303423488 := roundBinary64_hundredth
  rw [he, hr]
  show pidUpdateDouble binary64 ⟨8444249301319679 / 562949953421312, 0, 1, 1 / 5, 1 / 5⟩ 0 (5764607523034235 / 576460752303423488) = _
  simp only [pidUpdateDouble, binary64, if_neg hdt, roundBinary64_zero, zero_mul, add_zero,
    sub_zero, zero_div, zero_add, h1, h5, h7, h9, h10]

/-- On the platform `binary64` a control value of about -420.1 is converted to
`uint32_t` through the truncated value -420, which wraps to `2^32 - 420`. -/
theorem doubleToUint32In_descending_alt :
    doubleToUint32In binary64 (-3695238678629581 / 8796093022208) = 4294966876 := by
  have hf : Rat.floor (-(-3695238678629581 / 8796093022208 : ℚ)) = 420 := by
    have e : Rat.floor (-(-3695238678629581 / 8796093022208 : ℚ))
        = ⌊(-(-3695238678629581 / 8796093022208 : ℚ))⌋ := rfl
    rw [e, Int.floor_eq_iff]
    norm_num
  have ht : truncate (-3695238678629581 / 8796093022208) = -420 := by
    unfold truncate
    rw [if_neg (by norm_num), hf]
  unfold doubleToUint32In
  rw [if_neg (by norm_num)]
  show toUint32 ((if -9223372036854775808 ≤ truncate (-3695238678629581 / 8796093022208)
      ∧ truncate (-3695238678629581 / 8796093022208) < 9223372036854775808 then
        toUint32 (truncate (-3695238678629581 / 8796093022208))
      else 0 : Nat)) = 4294966876
  rw [ht]
  decide

/-- The control value 3 is converted to the `uint32_t` value 3. -/
theorem doubleToUint32In_three (fp : doubleArith) : doubleToUint32In fp 3 = 3 := by
  unfold doubleToUint32In
  rw [if_pos (by norm_num)]
  have e : Rat.floor (3 : ℚ) = ⌊(3 : ℚ)⌋ := rfl
  have h : ⌊(3 : ℚ)⌋ = 3 := by
    rw [Int.floor_eq_iff]
    norm_num
  rw [e, h]
  rfl

/-- In exact arithmetic `pidUpdateDouble` is `pidUpdate`. -/
theorem pidUpdateDouble_exact (o : ℚ → Nat) (controller : pidController_t)
    (error deltaT : ℚ) :
    pidUpdateDouble ⟨id, o⟩ controller error deltaT = pidUpdate controller error deltaT :=
  rfl

/-- For a nonzero time step `pidUpdateDouble` has a control value. -/
theorem pidUpdateDouble_control (fp : doubleArith) (c : pidController_t) (e dt : ℚ)
    (hdt : dt ≠ 0) : ∃ control, (pidUpdateDouble fp c e dt).1 = some control := by
  unfold pidUpdateDouble
  simp only [if_neg hdt]
  exact ⟨_, rfl⟩

/-- A conversion of a `double` to `uint32_t` gives a `uint32_t`. -/
theorem doubleToUint32In_lt (fp : doubleArith) (v : ℚ) :
    doubleToUint32In fp v < 4294967296 := by
  unfold doubleToUint32In
  split_ifs with h
  · have hf : Rat.floor v = ⌊v⌋ := rfl
    have hlt : ⌊v⌋ < 4294967296 := by
      rw [Int.floor_lt]
      exact_mod_cast h.2
    rw [hf]
    omega
  · unfold toUint32
    omega

/-- Duty cycle stored by `setPWMMain` at the default frequency: the argument
limited to `[2,98]`. -/
theorem setPWMMain_eq (m : MotorsState) (d : Nat) (hd : d < 4294967296) :
    setPWMMain m DEFAULT_FREQUENCY_MAIN d = some { m with g_mainDC := min 98 (max 2 d) } := by
  have h : toUint8 (toUint32 (MIN DUTY_MAX_MAIN (toUint32 (MAX DUTY_MIN_MAIN d))))
      = min 98 (max 2 d) := by
    unfold toUint8 toUint32 MIN MAX DUTY_MAX_MAIN DUTY_MIN_MAIN
    split_ifs <;> omega
  unfold setPWMMain
  simp only [h, DEFAULT_FREQUENCY_MAIN]
  rfl

/-- Duty cycle stored by `setPWMTail` at the default frequency: the argument
limited to `[2,98]`. -/
theorem setPWMTail_eq (m : MotorsState) (d : Nat) (hd : d < 4294967296) :
    setPWMTail m DEFAULT_FREQUENCY_TAIL d = some { m with g_tailDC := min 98 (max 2 d) } := by
  have h : toUint8 (toUint32 (MIN DUTY_MAX_TAIL (toUint32 (MAX DUTY_MIN_TAIL d))))
      = min 98 (max 2 d) := by
    unfold toUint8 toUint32 MIN MAX DUTY_MAX_TAIL DUTY_MIN_TAIL
    split_ifs <;> omega
  unfold setPWMTail
  simp only [h, DEFAULT_FREQUENCY_TAIL]
  rfl

/-- A `double` strictly between -1 and 2^32 converts to a `uint32_t`. -/
theorem doubleToUint32_of_range (v : ℚ) (h1 : -1 < v) (h2 : v < 4294967296) :
    doubleToUint32 v = some (Rat.floor v).toNat ∧ (Rat.floor v).toNat < 4294967296 := by
  refine ⟨by unfold doubleToUint32; rw [if_pos ⟨h1, h2⟩], ?_⟩
  have hf : Rat.floor v = ⌊v⌋ := rfl
  have hlt : ⌊v⌋ < 4294967296 := by
    rw [Int.floor_lt]
    exact_mod_cast h2
  rw [hf]
  omega

/-- With the flight-active flag clear `controllerIntHandler` changes nothing. -/
theorem controllerIntHandler_inactive (fp : doubleArith) (s : HeliState)
    (h : s.g_flightModeActive = false) : controllerIntHandler fp s = some s := by
  unfold controllerIntHandler
  rw [h]
  rfl

/-- With the flight-active flag set and a nonzero control period,
`controllerIntHandler` in terms of the two control values. -/
theorem controllerIntHandler_active (fp : doubleArith) (s : HeliState)
    (h : s.g_flightModeActive = true) (hdt : g_deltaT fp ≠ 0) :
    ∃ altControl yawControl : ℚ,
      (pidUpdateDouble fp s.altController (((s.g_targetAlt : Int) - s.g_currentAlt : Int) : ℚ)
          (g_deltaT fp)).1 = some altControl
      ∧ (pidUpdateDouble fp s.yawController
          ((toInt16 (yawDifference s.g_targetYaw s.g_currentYaw) : Int) : ℚ)
          (g_deltaT fp)).1 = some yawControl
      ∧ controllerIntHandler fp s
        = some { s with
            altController := (pidUpdateDouble fp s.altController
              (((s.g_targetAlt : Int) - s.g_currentAlt : Int) : ℚ) (g_deltaT fp)).2
            yawController := (pidUpdateDouble fp s.yawController
              ((toInt16 (yawDifference s.g_targetYaw s.g_currentYaw) : Int) : ℚ)
              (g_deltaT fp)).2
            motors :=
              { s.motors with
                g_mainDC := min 98 (max 2 (doubleToUint32In fp altControl))
                g_tailDC := min 98 (max 2 (doubleToUint32In fp yawControl)) } } := by
  obtain ⟨ca, ha⟩ := pidUpdateDouble_control fp s.altController
    (((s.g_targetAlt : Int) - s.g_currentAlt : Int) : ℚ) (g_deltaT fp) hdt
  obtain ⟨cy, hy⟩ := pidUpdateDouble_control fp s.yawController
    ((toInt16 (yawDifference s.g_targetYaw s.g_currentYaw) : Int) : ℚ) (g_deltaT fp) hdt
  refine ⟨ca, cy, ha, hy, ?_⟩
  unfold controllerIntHandler
  rw [if_pos h]
  dsimp only
  rw [ha, hy, Option.some_bind, Option.some_bind,
    setPWMMain_eq _ _ (doubleToUint32In_lt fp ca), Option.some_bind,
    setPWMTail_eq _ _ (doubleToUint32In_lt fp cy), Option.map_some']

/-- A tick of `updateStateIdle` keeps target yaw, and keeps target altitude or
sets it to 10. -/
theorem updateStateIdle_targets (jcs : Bool) (s : HeliState) :
    (updateStateIdle jcs s).2.g_targetYaw = s.g_targetYaw
    ∧ ((updateStateIdle jcs s).2.g_targetAlt = s.g_targetAlt
        ∨ (updateStateIdle jcs s).2.g_targetAlt = 10) := by
  unfold updateStateIdle
  cases jcs <;> dsimp only <;> simp only [Bool.false_eq_true, if_false, if_true] <;>
    split_ifs <;> first
      | exact ⟨rfl, Or.inl rfl⟩
      | exact ⟨rfl, Or.inr rfl⟩

/-- The statements after the entry block of `updateStateTakingOff` keep target
altitude and keep target yaw in `[0,360)`. -/
theorem updateStateTakingOffBody_targets (e : HeliState) (hy : e.g_targetYaw < 360) :
    (updateStateTakingOffBody e).2.g_targetYaw < 360
    ∧ (updateStateTakingOffBody e).2.g_targetAlt = e.g_targetAlt := by
  unfold updateStateTakingOffBody
  simp only [YAW_REF_INCREMENT]
  split_ifs <;> dsimp only <;> first
    | exact ⟨hy, rfl⟩
    | exact ⟨by decide, rfl⟩
    | (refine ⟨?_, rfl⟩; unfold toUint16; omega)

/-- A tick of `updateStateFlying` keeps target yaw in `[0,360)` and target
altitude in `[0,100]`. -/
theorem updateStateFlying_targets (jcs : Bool) (s : HeliState)
    (hy : s.g_targetYaw < 360) (ha : s.g_targetAlt ≤ 100) :
    (updateStateFlying jcs s).2.g_targetYaw < 360
    ∧ (updateStateFlying jcs s).2.g_targetAlt ≤ 100 := by
  by_cases hsw : (checkButton s.buttons SLIDE_RIGHT).1 = butStates.RELEASED
  · unfold updateStateFlying
    dsimp only
    rw [if_pos hsw]
    exact ⟨hy, ha⟩
  · obtain ⟨_, hta, hty⟩ := updateStateFlying_fields jcs s hsw
    rw [hta, hty]
    constructor
    · have hr : (if (checkButton s.buttons RIGHT).1 = butStates.PUSHED then
          toUint16 (Int.tmod (s.g_targetYaw + INCREMENT_YAW) 360) else s.g_targetYaw) < 360 := by
        split_ifs
        · rw [targetYaw_right _ hy]; omega
        · exact hy
      generalize (if (checkButton s.buttons RIGHT).1 = butStates.PUSHED then
          toUint16 (Int.tmod (s.g_targetYaw + INCREMENT_YAW) 360) else s.g_targetYaw) = y at hr ⊢
      by_cases hl : (checkButton s.buttons LEFT).1 = butStates.PUSHED
      · rw [if_pos hl, targetYaw_left _ hr]; omega
      · rw [if_neg hl]; exact hr
    · have hu : (if (checkButton s.buttons UP).1 = butStates.PUSHED then
          toUint8 (MIN 100 (s.g_targetAlt + INCREMENT_ALT)) else s.g_targetAlt) ≤ 100 := by
        split_ifs
        · rw [targetAlt_up _ ha]; omega
        · exact ha
      generalize (if (checkButton s.buttons UP).1 = butStates.PUSHED then
          toUint8 (MIN 100 (s.g_targetAlt + INCREMENT_ALT)) else s.g_targetAlt) = a at hu ⊢
      by_cases hd : (checkButton s.buttons DOWN).1 = butStates.PUSHED
      · rw [if_pos hd, targetAlt_down _ (by omega)]; omega
      · rw [if_neg hd]; exact hu

/-- A tick of `updateStateLanding` keeps target yaw in `[0,360)` and does not
raise a target altitude that fits a `uint8_t`. -/
theorem updateStateLanding_targets (jcs : Bool) (s : HeliState)
    (hy : s.g_targetYaw < 360) (ha : s.g_targetAlt ≤ 255) :
    (updateStateLanding jcs s).2.g_targetYaw < 360
    ∧ (updateStateLanding jcs s).2.g_targetAlt ≤ s.g_targetAlt := by
  by_cases hsw : (checkButton s.buttons SLIDE_RIGHT).1 = butStates.PUSHED
  · obtain ⟨_, h1, h2⟩ := updateStateLanding_pushed jcs s hsw
    rw [h1, h2]
    exact ⟨hy, le_refl _⟩
  · obtain ⟨e, he, hty, hta, _⟩ := updateStateLanding_not_pushed jcs s hsw
    obtain ⟨hfta, _⟩ := landingYawStep_frame e
    have hstep := landingYawStep_targetYaw e (by rw [hty]; exact hy)
    have halt := (landingDescend_targetAlt (landingYawStep e) (by rw [hfta, hta]; exact ha)).1
    rw [he, (landingDescend_state (landingYawStep e)).2, hstep, halt, hfta, hty, hta]
    constructor
    · split_ifs <;> omega
    · split_ifs <;> omega

/-- A supervisor tick that returns keeps target yaw in `[0,360)` and target
altitude in `[0,100]`. -/
theorem supervisorTick_targets (jcs : Bool) (adc : List (Option Nat)) (s : HeliState)
    (c : Bool × HeliState) (h : supervisorTick jcs adc s = some c)
    (hy : s.g_targetYaw < 360) (ha : s.g_targetAlt ≤ 100) :
    c.2.g_targetYaw < 360 ∧ c.2.g_targetAlt ≤ 100 := by
  have key : ∀ r : heliState_t × HeliState,
      r.2.g_targetYaw < 360 ∧ r.2.g_targetAlt ≤ 100 →
      (if r.1 = r.2.g_state then (false, r.2)
        else (true, { r.2 with g_state := r.1 })).2.g_targetYaw < 360
      ∧ (if r.1 = r.2.g_state then (false, r.2)
        else (true, { r.2 with g_state := r.1 })).2.g_targetAlt ≤ 100 := by
    intro r hr
    split_ifs <;> exact hr
  unfold supervisorTick at h
  dsimp only at h
  rw [Option.map_eq_some'] at h
  obtain ⟨r, hr, rfl⟩ := h
  apply key
  cases hst : s.g_state <;> rw [hst] at hr <;> dsimp only at hr
  · rw [Option.some.injEq] at hr
    subst hr
    obtain ⟨h1, h2⟩ := updateStateIdle_targets jcs s
    rw [h1]
    exact ⟨hy, by rcases h2 with h2 | h2 <;> rw [h2] <;> omega⟩
  · obtain ⟨e, he, rfl⟩ := (updateStateTakingOff_eq_some _ _ _ _).mp hr
    obtain ⟨_, _, hey, _, _, _, hea, _⟩ := updateStateTakingOffEntry_fields _ _ _ _ he
    obtain ⟨h1, h2⟩ := updateStateTakingOffBody_targets e (by rw [hey]; exact hy)
    rw [h2, hea]
    exact ⟨h1, by split_ifs <;> omega⟩
  · rw [Option.some.injEq] at hr
    subst hr
    exact updateStateFlying_targets jcs s hy ha
  · rw [Option.some.injEq] at hr
    subst hr
    obtain ⟨h1, h2⟩ := updateStateLanding_targets jcs s hy (by omega)
    exact ⟨h1, by omega⟩

/-- A run of supervisor ticks that returns keeps target yaw in `[0,360)` and
target altitude in `[0,100]`. -/
theorem supervisorRun_targets (inputs : List (TickInput × List (Option Nat))) :
    ∀ c d : Bool × HeliState, supervisorRun inputs c = some d →
      c.2.g_targetYaw < 360 → c.2.g_targetAlt ≤ 100 →
      d.2.g_targetYaw < 360 ∧ d.2.g_targetAlt ≤ 100 := by
  induction inputs with
  | nil =>
    intro c d h hy ha
    simp only [supervisorRun, Option.some.injEq] at h
    subst h
    exact ⟨hy, ha⟩
  | cons i rest ih =>
    intro c d h hy ha
    simp only [supervisorRun] at h
    cases hc : supervisorTick c.1 i.2 (applyTickInput c.2 i.1) with
    | none => rw [hc] at h; exact absurd h (by simp)
    | some m =>
      rw [hc, Option.some_bind] at h
      obtain ⟨h1, h2⟩ := supervisorTick_targets _ _ _ _ hc hy ha
      exact ih m d h h1 h2

/-- A supervisor tick returns in every state except on a TAKING_OFF entry tick
whose blocking calibration does not return. -/
theorem supervisorTick_returns (jcs : Bool) (adc : List (Option Nat)) (s : HeliState)
    (h : s.g_state ≠ heliState_t.TAKING_OFF ∨ jcs = false
      ∨ (calibrateAltimeter s.altimeter adc).isSome = true) :
    ∃ c, supervisorTick jcs adc s = some c := by
  unfold supervisorTick
  cases hst : s.g_state
  · exact ⟨_, rfl⟩
  · rw [hst] at h
    obtain ⟨r, hr⟩ := updateStateTakingOff_returns jcs adc s
      (by rcases h with h | h | h
          · exact absurd rfl h
          · exact Or.inl h
          · exact Or.inr h)
    dsimp only
    rw [hr]
    exact ⟨_, rfl⟩
  · exact ⟨_, rfl⟩
  · exact ⟨_, rfl⟩

/-- A run over two lists of inputs is the run over the first followed by the
run over the second. -/
theorem supervisorRun_append (xs ys : List (TickInput × List (Option Nat))) :
    ∀ c, supervisorRun (xs ++ ys) c = (supervisorRun xs c).bind (supervisorRun ys) := by
  induction xs with
  | nil => intro c; rfl
  | cons i rest ih =>
    intro c
    simp only [List.cons_append, supervisorRun]
    cases supervisorTick c.1 i.2 (applyTickInput c.2 i.1) with
    | none => rfl
    | some m => simp only [Option.some_bind]; exact ih m

/-- For bearings in `[0,360)`, a target within 15 degrees of the reading is at
least 15 degrees from it after a step of 30 degrees modulo 360. -/
theorem yawDifference_after_step (t y : Nat) (ht : t < 360) (hy : y < 360)
    (h : (yawDifference t y).natAbs < 15) :
    15 ≤ (yawDifference ((t + 30) % 360) y).natAbs
    ∧ yawDifference ((t + 30) % 360) y = yawDifference t y + 30 := by
  unfold yawDifference at h ⊢
  dsimp only at h ⊢
  split_ifs at h ⊢ <;> omega

/-- A tick of `updateStateTakingOff` that is not an entry tick runs the
statements after the entry block. -/
theorem updateStateTakingOff_false (adc : List (Option Nat)) (s : HeliState) :
    updateStateTakingOff false adc s = some (updateStateTakingOffBody s) := by
  simp [updateStateTakingOff, updateStateTakingOffEntry]

/-! ## Lemmas on the altimeter calibration -/

/-- Whatever `circBufMean` returns, its value is a `uint32_t`. -/
theorem circBufMean_fst_lt (b : circBuf_t) (res : Nat × circBuf_t)
    (h : circBufMean b = some res) : res.1 < 4294967296 := by
  have key : ∀ (o : Option Int) (X : circBuf_t),
      (match o with
        | none => none
        | some q => some (toUint32 (toInt32 q), X)) = some res → res.1 < 4294967296 := by
    intro o X hx
    cases o with
    | none => exact absurd hx (by simp)
    | some q =>
      simp only [Option.some.injEq] at hx
      rw [← hx]
      show toUint32 (toInt32 q) < 4294967296
      unfold toUint32
      omega
  exact key (cdiv _ _) _ h

/-- The range offset of `calibrateAltimeter`, `(0.8 * 4096) / 3.3`. -/
theorem rangeOffset_eq :
    (ALTITUDE_RANGE_VOLTS * ((2 ^ ADC_WIDTH_BITS : Nat) : ℚ)) / ADC_RANGE_VOLTS = 32768 / 33 := by
  norm_num [ALTITUDE_RANGE_VOLTS, ADC_WIDTH_BITS, ADC_RANGE_VOLTS]

/-- The conversion to `uint32_t` of a baseline of at least 993 minus the range
offset: the baseline minus 993. -/
theorem doubleToUint32_baseline (low : Nat) (h1 : 993 ≤ low) (h2 : low < 4294967296) :
    doubleToUint32 ((low : ℚ) - 32768 / 33) = some (low - 993) := by
  have hlow : (993 : ℚ) ≤ (low : ℚ) := by exact_mod_cast h1
  have hhi : (low : ℚ) < 4294967296 := by exact_mod_cast h2
  have hf : Rat.floor ((low : ℚ) - 32768 / 33) = (low : Int) - 993 := by
    have e : Rat.floor ((low : ℚ) - 32768 / 33) = ⌊(low : ℚ) - 32768 / 33⌋ := rfl
    rw [e, Int.floor_eq_iff]
    push_cast
    constructor <;> linarith
  have ht : ((low : Int) - 993).toNat = low - 993 := by omega
  rw [(doubleToUint32_of_range _ (by linarith) (by linarith)).1, hf, ht]

/-- The wait loop of `calibrateAltimeter` returns at once when the sample count
has reached `BUF_SIZE`. -/
theorem calibrateAltimeterWait_full (adc : List (Option Nat)) (s : AltimeterState)
    (h : BUF_SIZE ≤ s.g_sampleCount) : calibrateAltimeterWait adc s = some s := by
  cases adc with
  | nil => unfold calibrateAltimeterWait; rw [if_neg (by omega)]
  | cons poll rest => unfold calibrateAltimeterWait; rw [if_neg (by omega)]

/-- When the wait loop of `calibrateAltimeter` returns, the sample count has
reached `BUF_SIZE`. -/
theorem calibrateAltimeterWait_count (adc : List (Option Nat)) :
    ∀ s w : AltimeterState, calibrateAltimeterWait adc s = some w →
      BUF_SIZE ≤ w.g_sampleCount := by
  induction adc with
  | nil =>
    intro s w h
    unfold calibrateAltimeterWait at h
    split_ifs at h with hc
    simp only [Option.some.injEq] at h
    subst h
    omega
  | cons poll rest ih =>
    intro s w h
    unfold calibrateAltimeterWait at h
    split_ifs at h with hc
    · exact ih _ w h
    · simp only [Option.some.injEq] at h
      subst h
      omega

/-- The results of `calibrateAltimeter`: the state after the wait loop with the
buffer after the reads of `circBufMean`, `low` the mean and `high` the
conversion of `low` minus the range offset. -/
theorem calibrateAltimeter_eq_some (s : AltimeterState) (adc : List (Option Nat))
    (a : AltimeterState) :
    calibrateAltimeter s adc = some a
      ↔ ∃ w low b high, calibrateAltimeterWait adc s = some w
          ∧ circBufMean w.g_altitudeBuffer = some (low, b)
          ∧ doubleToUint32 ((low : ℚ) - 32768 / 33) = some high
          ∧ a = { w with
                  g_altitudeBuffer := b
                  g_minAltADCValue := low
                  g_maxAltADCValue := high } := by
  unfold calibrateAltimeter
  simp only [rangeOffset_eq]
  constructor
  · intro h
    cases hw : calibrateAltimeterWait adc s with
    | none => rw [hw] at h; exact absurd h (by simp)
    | some w =>
      rw [hw, Option.some_bind] at h
      cases hm : circBufMean w.g_altitudeBuffer with
      | none => rw [hm] at h; exact absurd h (by simp)
      | some r =>
        rw [hm, Option.some_bind] at h
        cases hd : doubleToUint32 ((r.1 : ℚ) - 32768 / 33) with
        | none => rw [hd] at h; exact absurd h (by simp)
        | some high =>
          rw [hd, Option.map_some', Option.some.injEq] at h
          exact ⟨w, r.1, r.2, high, rfl, hm, hd, h.symm⟩
  · rintro ⟨w, low, b, high, hw, hm, hd, rfl⟩
    rw [hw, Option.some_bind, hm, Option.some_bind]
    dsimp only
    rw [hd, Option.map_some']

/-- The mean of the buffer of `filledAltimeter` is 2000. -/
theorem filledAltimeter_mean :
    circBufMean filledAltimeter.g_altitudeBuffer
      = some (2000, ⟨25, 0, 0, List.replicate 25 2000⟩) := by
  have h := circBufMean_eq ⟨25, 0, 0, List.replicate 25 2000⟩ (by decide) (by decide)
    (by simp) (by decide)
    (by intro x hx; rw [List.eq_of_mem_replicate hx]; decide)
  simp only [List.sum_replicate, smul_eq_mul] at h
  exact h

/-- A control tick that returns changes neither `g_state`, the flight-active
flag nor the yaw decoder. -/
theorem controllerIntHandler_frame (fp : doubleArith) (s u : HeliState)
    (h : controllerIntHandler fp s = some u) :
    u.g_state = s.g_state ∧ u.g_flightModeActive = s.g_flightModeActive
    ∧ u.yawmeter = s.yawmeter := by
  cases hf : s.g_flightModeActive
  · rw [controllerIntHandler_inactive fp s hf, Option.some.injEq] at h
    subst h
    exact ⟨rfl, hf, rfl⟩
  · by_cases hdt : g_deltaT fp = 0
    · unfold controllerIntHandler at h
      rw [if_pos hf] at h
      dsimp only at h
      have hnone : (pidUpdateDouble fp s.altController
          (((s.g_targetAlt : Int) - s.g_currentAlt : Int) : ℚ) (g_deltaT fp)).1 = none := by
        unfold pidUpdateDouble
        simp only [if_pos hdt]
      rw [hnone] at h
      exact absurd h (by simp)
    · obtain ⟨ca, cy, _, _, hact⟩ := controllerIntHandler_active fp s hf hdt
      rw [hact, Option.some.injEq] at h
      subst h
      exact ⟨rfl, hf, rfl⟩

/-! ## Lemmas on the supervisor state and the flight-active flag -/

/-- A tick of `updateStateIdle` returns IDLE or TAKING_OFF, clears the
flight-active flag on an entry tick and leaves it otherwise, and changes
neither `g_state` nor the yaw decoder. -/
theorem updateStateIdle_frame (jcs : Bool) (s : HeliState) :
    ((updateStateIdle jcs s).1 = heliState_t.IDLE
      ∨ (updateStateIdle jcs s).1 = heliState_t.TAKING_OFF)
    ∧ (updateStateIdle jcs s).2.g_state = s.g_state
    ∧ (updateStateIdle jcs s).2.g_flightModeActive
        = (if jcs then false else s.g_flightModeActive)
    ∧ (updateStateIdle jcs s).2.yawmeter = s.yawmeter := by
  unfold updateStateIdle
  cases jcs <;> dsimp only <;> simp only [Bool.false_eq_true, if_false, if_true] <;>
    split_ifs <;> first
      | exact ⟨Or.inl rfl, rfl, rfl, rfl⟩
      | exact ⟨Or.inr rfl, rfl, rfl, rfl⟩

/-- The entry block of `updateStateTakingOff` sets the flight-active flag on an
entry tick and leaves it otherwise; it does not change `g_state`. -/
theorem updateStateTakingOffEntry_flag (jcs : Bool) (adc : List (Option Nat))
    (s e : HeliState) (h : updateStateTakingOffEntry jcs adc s = some e) :
    e.g_state = s.g_state
    ∧ e.g_flightModeActive = (if jcs then true else s.g_flightModeActive) := by
  cases jcs
  · simp only [updateStateTakingOffEntry_false, Option.some.injEq] at h
    subst h
    exact ⟨rfl, rfl⟩
  · simp only [updateStateTakingOffEntry, if_true, Option.map_eq_some'] at h
    obtain ⟨a, _, rfl⟩ := h
    exact ⟨rfl, rfl⟩

/-- The statements after the entry block of `updateStateTakingOff` return
TAKING_OFF, IDLE or FLYING and change neither `g_state`, the flight-active flag
nor the yaw decoder. -/
theorem updateStateTakingOffBody_frame (e : HeliState) :
    ((updateStateTakingOffBody e).1 = heliState_t.TAKING_OFF
      ∨ (updateStateTakingOffBody e).1 = heliState_t.IDLE
      ∨ (updateStateTakingOffBody e).1 = heliState_t.FLYING)
    ∧ (updateStateTakingOffBody e).2.g_state = e.g_state
    ∧ (updateStateTakingOffBody e).2.g_flightModeActive = e.g_flightModeActive
    ∧ (updateStateTakingOffBody e).2.yawmeter = e.yawmeter := by
  unfold updateStateTakingOffBody
  dsimp only
  split_ifs <;> first
    | exact ⟨Or.inl rfl, rfl, rfl, rfl⟩
    | exact ⟨Or.inr (Or.inl rfl), rfl, rfl, rfl⟩
    | exact ⟨Or.inr (Or.inr rfl), rfl, rfl, rfl⟩

/-- The `UP` statement of `updateStateFlying` changes neither `g_state`, the
flight-active flag nor the yaw decoder. -/
theorem flyingCheckUp_frame (s : HeliState) :
    (flyingCheckUp s).g_state = s.g_state
    ∧ (flyingCheckUp s).g_flightModeActive = s.g_flightModeActive
    ∧ (flyingCheckUp s).yawmeter = s.yawmeter := by
  unfold flyingCheckUp
  dsimp only
  split_ifs <;> exact ⟨rfl, rfl, rfl⟩

/-- The `DOWN` statement of `updateStateFlying` changes neither `g_state`, the
flight-active flag nor the yaw decoder. -/
theorem flyingCheckDown_frame (s : HeliState) :
    (flyingCheckDown s).g_state = s.g_state
    ∧ (flyingCheckDown s).g_flightModeActive = s.g_flightModeActive
    ∧ (flyingCheckDown s).yawmeter = s.yawmeter := by
  unfold flyingCheckDown
  dsimp only
  split_ifs <;> exact ⟨rfl, rfl, rfl⟩

/-- The `RIGHT` statement of `updateStateFlying` changes neither `g_state`, the
flight-active flag nor the yaw decoder. -/
theorem flyingCheckRight_frame (s : HeliState) :
    (flyingCheckRight s).g_state = s.g_state
    ∧ (flyingCheckRight s).g_flightModeActive = s.g_flightModeActive
    ∧ (flyingCheckRight s).yawmeter = s.yawmeter := by
  unfold flyingCheckRight
  dsimp only
  split_ifs <;> exact ⟨rfl, rfl, rfl⟩

/-- The `LEFT` statement of `updateStateFlying` changes neither `g_state`, the
flight-active flag nor the yaw decoder. -/
theorem flyingCheckLeft_frame (s : HeliState) :
    (flyingCheckLeft s).g_state = s.g_state
    ∧ (flyingCheckLeft s).g_flightModeActive = s.g_flightModeActive
    ∧ (flyingCheckLeft s).yawmeter = s.yawmeter := by
  unfold flyingCheckLeft
  dsimp only
  split_ifs <;> exact ⟨rfl, rfl, rfl⟩

/-- A tick of `updateStateFlying` returns FLYING or LANDING and changes neither
`g_state`, the flight-active flag nor the yaw decoder. -/
theorem updateStateFlying_frame (jcs : Bool) (s : HeliState) :
    ((updateStateFlying jcs s).1 = heliState_t.FLYING
      ∨ (updateStateFlying jcs s).1 = heliState_t.LANDING)
    ∧ (updateStateFlying jcs s).2.g_state = s.g_state
    ∧ (updateStateFlying jcs s).2.g_flightModeActive = s.g_flightModeActive
    ∧ (updateStateFlying jcs s).2.yawmeter = s.yawmeter := by
  unfold updateStateFlying
  dsimp only
  split_ifs
  · exact ⟨Or.inr rfl, rfl, rfl, rfl⟩
  · obtain ⟨l1, l2, l3⟩ := flyingCheckLeft_frame (flyingCheckRight (flyingCheckDown
      (flyingCheckUp { s with buttons := (checkButton s.buttons SLIDE_RIGHT).2 })))
    obtain ⟨r1, r2, r3⟩ := flyingCheckRight_frame (flyingCheckDown
      (flyingCheckUp { s with buttons := (checkButton s.buttons SLIDE_RIGHT).2 }))
    obtain ⟨d1, d2, d3⟩ := flyingCheckDown_frame
      (flyingCheckUp { s with buttons := (checkButton s.buttons SLIDE_RIGHT).2 })
    obtain ⟨u1, u2, u3⟩ := flyingCheckUp_frame
      { s with buttons := (checkButton s.buttons SLIDE_RIGHT).2 }
    refine ⟨Or.inl rfl, ?_, ?_, ?_⟩
    · show (flyingCheckLeft _).g_state = _
      rw [l1, r1, d1, u1]
    · show (flyingCheckLeft _).g_flightModeActive = _
      rw [l2, r2, d2, u2]
    · show (flyingCheckLeft _).yawmeter = _
      rw [l3, r3, d3, u3]

/-- The yaw step of `updateStateLanding` changes neither `g_state`, the
flight-active flag nor the yaw decoder. -/
theorem landingYawStep_state (e : HeliState) :
    (landingYawStep e).g_state = e.g_state
    ∧ (landingYawStep e).g_flightModeActive = e.g_flightModeActive
    ∧ (landingYawStep e).yawmeter = e.yawmeter := by
  unfold landingYawStep
  dsimp only
  split_ifs <;> exact ⟨rfl, rfl, rfl⟩

/-- The descent block of `updateStateLanding` returns LANDING or IDLE and
changes neither `g_state`, the flight-active flag nor the yaw decoder. -/
theorem landingDescend_frame (e : HeliState) :
    ((landingDescend e).1 = heliState_t.LANDING ∨ (landingDescend e).1 = heliState_t.IDLE)
    ∧ (landingDescend e).2.g_state = e.g_state
    ∧ (landingDescend e).2.g_flightModeActive = e.g_flightModeActive
    ∧ (landingDescend e).2.yawmeter = e.yawmeter := by
  unfold landingDescend
  dsimp only
  split_ifs <;> first
    | exact ⟨Or.inl rfl, rfl, rfl, rfl⟩
    | exact ⟨Or.inr rfl, rfl, rfl, rfl⟩

/-- A tick of `updateStateLanding` returns LANDING, FLYING or IDLE and changes
neither `g_state`, the flight-active flag nor the yaw decoder. -/
theorem updateStateLanding_frame (jcs : Bool) (s : HeliState) :
    ((updateStateLanding jcs s).1 = heliState_t.LANDING
      ∨ (updateStateLanding jcs s).1 = heliState_t.FLYING
      ∨ (updateStateLanding jcs s).1 = heliState_t.IDLE)
    ∧ (updateStateLanding jcs s).2.g_state = s.g_state
    ∧ (updateStateLanding jcs s).2.g_flightModeActive = s.g_flightModeActive
    ∧ (updateStateLanding jcs s).2.yawmeter = s.yawmeter := by
  unfold updateStateLanding
  cases jcs <;> dsimp only <;> simp only [Bool.false_eq_true, if_false, if_true] <;>
    split_ifs
  · exact ⟨Or.inr (Or.inl rfl), rfl, rfl, rfl⟩
  · obtain ⟨d0, d1, d2, d3⟩ := landingDescend_frame
      (landingYawStep { s with buttons := (checkButton s.buttons SLIDE_RIGHT).2 })
    obtain ⟨y1, y2, y3⟩ := landingYawStep_state
      { s with buttons := (checkButton s.buttons SLIDE_RIGHT).2 }
    refine ⟨?_, by rw [d1, y1], by rw [d2, y2], by rw [d3, y3]⟩
    rcases d0 with d0 | d0
    · exact Or.inl d0
    · exact Or.inr (Or.inr d0)
  · exact ⟨Or.inr (Or.inl rfl), rfl, rfl, rfl⟩
  · obtain ⟨d0, d1, d2, d3⟩ := landingDescend_frame
      (landingYawStep { s with
        g_yawDebounce := 0
        g_altDebounce := 0
        buttons := (checkButton s.buttons SLIDE_RIGHT).2 })
    obtain ⟨y1, y2, y3⟩ := landingYawStep_state
      { s with
        g_yawDebounce := 0
        g_altDebounce := 0
        buttons := (checkButton s.buttons SLIDE_RIGHT).2 }
    refine ⟨?_, by rw [d1, y1], by rw [d2, y2], by rw [d3, y3]⟩
    rcases d0 with d0 | d0
    · exact Or.inl d0
    · exact Or.inr (Or.inr d0)

/-- The update of `justChangedState` and `g_state` at the end of a loop
iteration: the new state is the one returned, the entry flag tells whether it
differs from the old one, and nothing else changes. -/
theorem tickResult_fields (r : heliState_t × HeliState) :
    (if r.1 = r.2.g_state then (false, r.2)
      else (true, { r.2 with g_state := r.1 })).2.g_state = r.1
    ∧ (if r.1 = r.2.g_state then (false, r.2)
      else (true, { r.2 with g_state := r.1 })).1 = decide (r.1 ≠ r.2.g_state)
    ∧ (if r.1 = r.2.g_state then (false, r.2)
      else (true, { r.2 with g_state := r.1 })).2.g_flightModeActive = r.2.g_flightModeActive
    ∧ (if r.1 = r.2.g_state then (false, r.2)
      else (true, { r.2 with g_state := r.1 })).2.yawmeter = r.2.yawmeter
    ∧ (if r.1 = r.2.g_state then (false, r.2)
      else (true, { r.2 with g_state := r.1 })).2.g_targetYaw = r.2.g_targetYaw
    ∧ (if r.1 = r.2.g_state then (false, r.2)
      else (true, { r.2 with g_state := r.1 })).2.g_yawDebounce = r.2.g_yawDebounce := by
  split_ifs with h
  · exact ⟨h.symm, by simp [h], rfl, rfl, rfl, rfl⟩
  · exact ⟨rfl, by simp [h], rfl, rfl, rfl, rfl⟩

/-- A supervisor tick in state TAKING_OFF that returns is a tick of
`updateStateTakingOff`. -/
theorem supervisorTick_takingOff (jcs : Bool) (adc : List (Option Nat)) (s : HeliState)
    (c : Bool × HeliState) (hst : s.g_state = heliState_t.TAKING_OFF)
    (h : supervisorTick jcs adc s = some c) :
    ∃ r, updateStateTakingOff jcs adc s = some r
      ∧ c.2.g_state = r.1 ∧ c.1 = decide (r.1 ≠ r.2.g_state)
      ∧ c.2.g_targetYaw = r.2.g_targetYaw ∧ c.2.g_yawDebounce = r.2.g_yawDebounce := by
  unfold supervisorTick at h
  rw [hst] at h
  dsimp only at h
  rw [Option.map_eq_some'] at h
  obtain ⟨r, hr, rfl⟩ := h
  obtain ⟨k1, k2, _, _, k5, k6⟩ := tickResult_fields r
  exact ⟨r, hr, k1, k2, k5, k6⟩

/-- A supervisor tick that returns: the entry flag of the next tick, the yaw
decoder, and per supervisor state the possible next states and the flight-active
flag. -/
theorem supervisorTick_step (jcs : Bool) (adc : List (Option Nat)) (s : HeliState)
    (c : Bool × HeliState) (h : supervisorTick jcs adc s = some c) :
    c.1 = decide (c.2.g_state ≠ s.g_state)
    ∧ c.2.yawmeter = s.yawmeter
    ∧ (s.g_state = heliState_t.IDLE →
        (c.2.g_state = heliState_t.IDLE ∨ c.2.g_state = heliState_t.TAKING_OFF)
        ∧ c.2.g_flightModeActive = (if jcs then false else s.g_flightModeActive))
    ∧ (s.g_state = heliState_t.TAKING_OFF →
        (c.2.g_state = heliState_t.TAKING_OFF ∨ c.2.g_state = heliState_t.IDLE
          ∨ c.2.g_state = heliState_t.FLYING)
        ∧ c.2.g_flightModeActive = (if jcs then true else s.g_flightModeActive))
    ∧ (s.g_state = heliState_t.FLYING →
        (c.2.g_state = heliState_t.FLYING ∨ c.2.g_state = heliState_t.LANDING)
        ∧ c.2.g_flightModeActive = s.g_flightModeActive)
    ∧ (s.g_state = heliState_t.LANDING →
        (c.2.g_state = heliState_t.LANDING ∨ c.2.g_state = heliState_t.FLYING
          ∨ c.2.g_state = heliState_t.IDLE)
        ∧ c.2.g_flightModeActive = s.g_flightModeActive) := by
  unfold supervisorTick at h
  dsimp only at h
  rw [Option.map_eq_some'] at h
  obtain ⟨r, hr, rfl⟩ := h
  obtain ⟨k1, k2, k3, k4, _, _⟩ := tickResult_fields r
  rw [k1, k2, k3, k4]
  cases hst : s.g_state <;> rw [hst] at hr <;> dsimp only at hr
  · rw [Option.some.injEq] at hr
    subst hr
    obtain ⟨f1, f2, f3, f4⟩ := updateStateIdle_frame jcs s
    rw [f2, hst] at *
    exact ⟨rfl, f4, fun _ => ⟨f1, f3⟩, fun hh => absurd hh (by decide),
      fun hh => absurd hh (by decide), fun hh => absurd hh (by decide)⟩
  · obtain ⟨e, he, rfl⟩ := (updateStateTakingOff_eq_some _ _ _ _).mp hr
    obtain ⟨_, hym, _⟩ := updateStateTakingOffEntry_fields _ _ _ _ he
    obtain ⟨g1, g2⟩ := updateStateTakingOffEntry_flag _ _ _ _ he
    obtain ⟨f1, f2, f3, f4⟩ := updateStateTakingOffBody_frame e
    rw [f2, g1, hst] at *
    exact ⟨rfl, by rw [f4, hym], fun hh => absurd hh (by decide),
      fun _ => ⟨f1, by rw [f3, g2]⟩,
      fun hh => absurd hh (by decide), fun hh => absurd hh (by decide)⟩
  · rw [Option.some.injEq] at hr
    subst hr
    obtain ⟨f1, f2, f3, f4⟩ := updateStateFlying_frame jcs s
    rw [f2, hst] at *
    exact ⟨rfl, f4, fun hh => absurd hh (by decide), fun hh => absurd hh (by decide),
      fun _ => ⟨f1, f3⟩, fun hh => absurd hh (by decide)⟩
  · rw [Option.some.injEq] at hr
    subst hr
    obtain ⟨f1, f2, f3, f4⟩ := updateStateLanding_frame jcs s
    rw [f2, hst] at *
    exact ⟨rfl, f4, fun hh => absurd hh (by decide), fun hh => absurd hh (by decide),
      fun hh => absurd hh (by decide), fun _ => ⟨f1, f3⟩⟩

/-- One supervisor tick preserves the relation between the supervisor state,
the entry flag and the flight-active flag. -/
theorem supervisorTick_flag_inv (jcs : Bool) (adc : List (Option Nat)) (s : HeliState)
    (c : Bool × HeliState) (h : supervisorTick jcs adc s = some c)
    (h1 : jcs = false → (s.g_flightModeActive = true ↔ s.g_state ≠ heliState_t.IDLE))
    (h2 : s.g_state = heliState_t.FLYING ∨ s.g_state = heliState_t.LANDING →
      s.g_flightModeActive = true) :
    (c.1 = false → (c.2.g_flightModeActive = true ↔ c.2.g_state ≠ heliState_t.IDLE))
    ∧ (c.2.g_state = heliState_t.FLYING ∨ c.2.g_state = heliState_t.LANDING →
        c.2.g_flightModeActive = true) := by
  obtain ⟨hj, _, hI, hT, hF, hL⟩ := supervisorTick_step jcs adc s c h
  clear h
  revert hj hI hT hF hL h1 h2
  generalize c.1 = cj
  generalize c.2.g_state = cs
  generalize c.2.g_flightModeActive = cf
  generalize s.g_state = ss
  generalize s.g_flightModeActive = sf
  cases ss <;> cases cs <;> cases jcs <;> cases sf <;> cases cf <;> cases cj <;> simp

/-- A run of supervisor ticks preserves the relation between the supervisor
state, the entry flag and the flight-active flag. -/
theorem supervisorRun_flag_inv (inputs : List (TickInput × List (Option Nat))) :
    ∀ c d : Bool × HeliState, supervisorRun inputs c = some d →
      (c.1 = false → (c.2.g_flightModeActive = true ↔ c.2.g_state ≠ heliState_t.IDLE)) →
      (c.2.g_state = heliState_t.FLYING ∨ c.2.g_state = heliState_t.LANDING →
        c.2.g_flightModeActive = true) →
      (d.1 = false → (d.2.g_flightModeActive = true ↔ d.2.g_state ≠ heliState_t.IDLE))
      ∧ (d.2.g_state = heliState_t.FLYING ∨ d.2.g_state = heliState_t.LANDING →
          d.2.g_flightModeActive = true) := by
  induction inputs with
  | nil =>
    intro c d h h1 h2
    simp only [supervisorRun, Option.some.injEq] at h
    subst h
    exact ⟨h1, h2⟩
  | cons i rest ih =>
    intro c d h h1 h2
    simp only [supervisorRun] at h
    cases hc : supervisorTick c.1 i.2 (applyTickInput c.2 i.1) with
    | none => rw [hc] at h; exact absurd h (by simp)
    | some m =>
      rw [hc, Option.some_bind] at h
      obtain ⟨k1, k2⟩ := supervisorTick_flag_inv _ _ _ _ hc h1 h2
      exact ih m d h k1 k2

/-- With the yaw decoder calibrated and no release reported, the statements
after the entry block of `updateStateTakingOff` leave the yaw debounce counter
as it is. -/
theorem updateStateTakingOffBody_calibrated_debounce (e : HeliState)
    (hsw : (checkButton e.buttons SLIDE_RIGHT).1 ≠ butStates.RELEASED)
    (hcal : yawCalibrated_p e.yawmeter = true) :
    (updateStateTakingOffBody e).2.g_yawDebounce = e.g_yawDebounce := by
  simp [updateStateTakingOffBody, hsw, hcal]

/-- An edge event leaves the calibrated flag of the yaw decoder as it is. -/
theorem pinChangeIntHandler_calibrated (y : YawState) (newStateA newStateB : Bool) :
    (pinChangeIntHandler y newStateA newStateB).g_yawCalibrated = y.g_yawCalibrated := rfl

/-- One event keeps a set calibrated flag set. -/
theorem eventStep_calibrated (c d : Bool × HeliState) (ev : heliEvent)
    (h : eventStep c ev = some d) (hcal : yawCalibrated_p c.2.yawmeter = true) :
    yawCalibrated_p d.2.yawmeter = true := by
  cases ev with
  | edge a b =>
    simp only [eventStep, Option.some.injEq] at h
    subst h
    exact hcal
  | reference =>
    simp only [eventStep, Option.some.injEq] at h
    subst h
    dsimp only
    split_ifs
    · rfl
    · exact hcal
  | tick buttons alt adc =>
    simp only [eventStep] at h
    obtain ⟨_, hy, _⟩ := supervisorTick_step _ _ _ _ h
    rw [hy]
    exact hcal

/-- A run of events keeps a set calibrated flag set. -/
theorem eventRun_calibrated (events : List heliEvent) :
    ∀ c d : Bool × HeliState, eventRun events c = some d →
      yawCalibrated_p c.2.yawmeter = true → yawCalibrated_p d.2.yawmeter = true := by
  induction events with
  | nil =>
    intro c d h hcal
    simp only [eventRun, Option.some.injEq] at h
    subst h
    exact hcal
  | cons ev rest ih =>
    intro c d h hcal
    simp only [eventRun] at h
    cases hc : eventStep c ev with
    | none => rw [hc] at h; exact absurd h (by simp)
    | some m =>
      rw [hc, Option.some_bind] at h
      exact ih m d h (eventStep_calibrated c m ev hc hcal)

/-- A run of in-tolerance TAKING_OFF ticks (no release reported, decoder not
calibrated, both errors within tolerance of the targets `t` and `a`) that keeps
the debounce counter at or below 15 returns, leaves both targets unchanged and
raises the counter by one per tick. -/
theorem takingOffRun_in_tolerance (t a : Nat) (ht : t < 360) (inputs : List TickInput) :
    ∀ s : HeliState, s.g_targetYaw = t → s.g_targetAlt = a →
      s.g_yawDebounce + inputs.length ≤ 15 →
      (∀ i ∈ inputs, (checkButton i.buttons SLIDE_RIGHT).1 ≠ butStates.RELEASED
        ∧ yawCalibrated_p i.yawmeter = false
        ∧ (yawDifference t i.currentYaw).natAbs < 15
        ∧ ((a : Int) - i.currentAlt).natAbs < 8) →
      ∃ u, takingOffRun inputs s = some u ∧ u.g_targetYaw = t ∧ u.g_targetAlt = a
        ∧ u.g_yawDebounce = s.g_yawDebounce + inputs.length := by
  induction inputs with
  | nil =>
    intro s hy ha _ _
    exact ⟨s, rfl, hy, ha, rfl⟩
  | cons i rest ih =>
    intro s hy ha hlen htol
    simp only [List.length_cons] at hlen
    obtain ⟨hsw, hcal, hyaw, halt⟩ := htol i (List.mem_cons_self i rest)
    have e1 : (applyTickInput s i).g_targetYaw = t := hy
    have e2 : (applyTickInput s i).g_targetAlt = a := ha
    have e3 : (applyTickInput s i).g_yawDebounce = s.g_yawDebounce := rfl
    obtain ⟨b1, b2, _⟩ := updateStateTakingOffBody_search (applyTickInput s i) hsw hcal
      (by rw [e1]; exact ht)
    obtain ⟨c1, _, c3⟩ := b2 ⟨by rw [e1]; exact hyaw, by rw [e2]; exact halt⟩
    obtain ⟨_, d2⟩ := updateStateTakingOffBody_targets (applyTickInput s i)
      (by rw [e1]; exact ht)
    rw [e3] at c1 c3
    have hmod : (s.g_yawDebounce + 1) % 256 = s.g_yawDebounce + 1 := by omega
    obtain ⟨u, hu, u1, u2, u3⟩ := ih (updateStateTakingOffBody (applyTickInput s i)).2
      (by rw [c3 (by omega), e1]) (by rw [d2, e2]) (by rw [c1, hmod]; omega)
      (fun j hj => htol j (List.mem_cons_of_mem i hj))
    refine ⟨u, ?_, u1, u2, ?_⟩
    · simp only [takingOffRun, updateStateTakingOff_false, Option.some_bind]
      rw [if_pos b1]
      exact hu
    · rw [u3, c1, hmod, List.length_cons]
      omega

/-- A run of in-tolerance TAKING_OFF ticks that brings the debounce counter
from at most 15 to exactly 16 returns and advances target yaw once, on its last
tick. -/
theorem takingOffRun_reaches_threshold (t a : Nat) (ht : t < 360) (inputs : List TickInput) :
    ∀ s : HeliState, s.g_targetYaw = t → s.g_targetAlt = a →
      s.g_yawDebounce + inputs.length = 16 → s.g_yawDebounce ≤ 15 →
      (∀ i ∈ inputs, (checkButton i.buttons SLIDE_RIGHT).1 ≠ butStates.RELEASED
        ∧ yawCalibrated_p i.yawmeter = false
        ∧ (yawDifference t i.currentYaw).natAbs < 15
        ∧ ((a : Int) - i.currentAlt).natAbs < 8) →
      ∃ u, takingOffRun inputs s = some u ∧ u.g_targetYaw = (t + 30) % 360
        ∧ u.g_yawDebounce = 16 := by
  induction inputs with
  | nil =>
    intro s _ _ hlen hd _
    simp only [List.length_nil] at hlen
    omega
  | cons i rest ih =>
    intro s hy ha hlen hd htol
    simp only [List.length_cons] at hlen
    obtain ⟨hsw, hcal, hyaw, halt⟩ := htol i (List.mem_cons_self i rest)
    have e1 : (applyTickInput s i).g_targetYaw = t := hy
    have e2 : (applyTickInput s i).g_targetAlt = a := ha
    have e3 : (applyTickInput s i).g_yawDebounce = s.g_yawDebounce := rfl
    obtain ⟨b1, b2, _⟩ := updateStateTakingOffBody_search (applyTickInput s i) hsw hcal
      (by rw [e1]; exact ht)
    obtain ⟨c1, c2, c3⟩ := b2 ⟨by rw [e1]; exact hyaw, by rw [e2]; exact halt⟩
    obtain ⟨_, d2⟩ := updateStateTakingOffBody_targets (applyTickInput s i)
      (by rw [e1]; exact ht)
    rw [e3] at c1 c2 c3
    have hmod : (s.g_yawDebounce + 1) % 256 = s.g_yawDebounce + 1 := by omega
    simp only [takingOffRun, updateStateTakingOff_false, Option.some_bind]
    rw [if_pos b1]
    by_cases hlast : s.g_yawDebounce = 15
    · have hrest : rest = [] := List.eq_nil_of_length_eq_zero (by omega)
      subst hrest
      refine ⟨_, rfl, ?_, ?_⟩
      · rw [c2 (by omega), e1]
      · rw [c1, hmod, hlast]
    · exact ih (updateStateTakingOffBody (applyTickInput s i)).2
        (by rw [c3 (by omega), e1]) (by rw [d2, e2]) (by rw [c1, hmod]; omega)
        (by rw [c1, hmod]; omega)
        (fun j hj => htol j (List.mem_cons_of_mem i hj))

/-! ## Verified properties: circular buffer mean -/

/-- C1: for a buffer of capacity `N ≥ 1` (allocatable on the 32-bit target, so
`N < 2^30`) whose `N` slots hold `uint32_t` values and whose read cursor is
below `N`, `circBufMean` returns `(2*S + N) / (2*N)` with floor division,
where `S` is the sum of all slots; this value `m` is the mean rounded to the
nearest integer with halves rounded up (`S/N - 1/2 < m ≤ S/N + 1/2`); and for
capacity 4 holding `[1,2,3,4]` the result is 3. -/
theorem circBufMean_round_half_up (b : circBuf_t) (hN : 1 ≤ b.size)
    (hcap : b.size < 2 ^ 30) (hlen : b.data.length = b.size)
    (hr : b.rindex < b.size) (hd : ∀ x ∈ b.data, x < 2 ^ 32) :
    (circBufMean b).map Prod.fst = some ((2 * b.data.sum + b.size) / (2 * b.size))
    ∧ (∀ m, (circBufMean b).map Prod.fst = some m →
        2 * b.data.sum < 2 * b.size * m + b.size ∧ 2 * b.size * m ≤ 2 * b.data.sum + b.size)
    ∧ (circBufMean ⟨4, 0, 0, [1, 2, 3, 4]⟩).map Prod.fst = some 3 := by
  have hmean := circBufMean_eq b hN (by norm_num at hcap; exact hcap) hlen hr
    (by norm_num at hd; exact hd)
  refine ⟨by rw [hmean]; rfl, ?_, ?_⟩
  · intro m hm
    rw [hmean] at hm
    simp only [Option.map_some', Option.some.injEq] at hm
    have hpos : 0 < 2 * b.size := by omega
    have h1 := Nat.div_add_mod (2 * b.data.sum + b.size) (2 * b.size)
    have h2 := Nat.mod_lt (2 * b.data.sum + b.size) hpos
    rw [hm] at h1
    constructor <;> omega
  · rw [circBufMean_eq ⟨4, 0, 0, [1, 2, 3, 4]⟩ (by decide) (by decide) (by decide)
      (by decide) (by decide)]
    rfl

/-- Witness for C1: a capacity-3 buffer holding `[4095, 0, 2]`, read cursor 2. -/
theorem circBufMean_round_half_up_witness :
    (circBufMean ⟨3, 1, 2, [4095, 0, 2]⟩).map Prod.fst = some 1366 :=
  (circBufMean_round_half_up ⟨3, 1, 2, [4095, 0, 2]⟩ (by decide) (by decide) (by decide)
    (by decide) (by decide)).1

/-! ## Verified properties: yaw decoder -/

theorem INTERRUPTS_PER_REV_eq : INTERRUPTS_PER_REV = 448 := by
  norm_num [INTERRUPTS_PER_REV]

/-- C2: for bearings `reference`, `current` in `[0,360)`, with
`d = reference - current`, `yawDifference` returns `d + 360` if `d < -180`,
`d - 360` if `d > 180` and `d` otherwise; the result is congruent to `d`
modulo 360, lies in `[-180,180]`, and its magnitude is
`min(|d|, 360 - |d|)`. -/
theorem yawDifference_shortest_angle (reference current : Nat)
    (hr : reference < 360) (hc : current < 360) :
    ((reference : Int) - current < -180 →
        yawDifference reference current = (reference : Int) - current + 360)
    ∧ ((reference : Int) - current > 180 →
        yawDifference reference current = (reference : Int) - current - 360)
    ∧ (-180 ≤ (reference : Int) - current → (reference : Int) - current ≤ 180 →
        yawDifference reference current = (reference : Int) - current)
    ∧ (yawDifference reference current - ((reference : Int) - current)) % 360 = 0
    ∧ -180 ≤ yawDifference reference current
    ∧ yawDifference reference current ≤ 180
    ∧ |yawDifference reference current|
        = min |(reference : Int) - current| (360 - |(reference : Int) - current|) := by
  unfold yawDifference
  simp only
  rcases abs_cases ((reference : Int) - current) with ⟨h1, _⟩ | ⟨h1, _⟩ <;> rw [h1] <;>
    split_ifs <;>
    refine ⟨by omega, by omega, by omega, by omega, by omega, by omega, ?_⟩
  all_goals first
    | (rcases abs_cases ((reference : Int) - current + 360) with ⟨h4, _⟩ | ⟨h4, _⟩ <;>
        rw [h4] <;> omega)
    | (rcases abs_cases ((reference : Int) - current - 360) with ⟨h4, _⟩ | ⟨h4, _⟩ <;>
        rw [h4] <;> omega)
    | (rcases abs_cases ((reference : Int) - current) with ⟨h4, _⟩ | ⟨h4, _⟩ <;>
        rw [h4] <;> omega)

/-- Witness for C2: reference bearing 10, current bearing 350. -/
theorem yawDifference_shortest_angle_witness :
    yawDifference 10 350 = ((10 : Nat) : Int) - (350 : Nat) + 360
    ∧ |yawDifference 10 350|
        = min |((10 : Nat) : Int) - (350 : Nat)| (360 - |((10 : Nat) : Int) - (350 : Nat)|) :=
  ⟨(yawDifference_shortest_angle 10 350 (by decide) (by decide)).1 (by decide),
   (yawDifference_shortest_angle 10 350 (by decide) (by decide)).2.2.2.2.2.2⟩

/-- C3: starting from a counter in `[0, 448)`, every quadrature edge event
(for every combination of stored and new phase levels) and every reference
event leaves the counter in `[0, 448)`. -/
theorem yaw_counter_stays_in_range (s : YawState)
    (h0 : 0 ≤ s.g_pinChangeInterruptCount)
    (h1 : s.g_pinChangeInterruptCount < INTERRUPTS_PER_REV) :
    (∀ newStateA newStateB : Bool,
        0 ≤ (pinChangeIntHandler s newStateA newStateB).g_pinChangeInterruptCount
        ∧ (pinChangeIntHandler s newStateA newStateB).g_pinChangeInterruptCount
            < INTERRUPTS_PER_REV)
    ∧ 0 ≤ (yawRefIntHandler s).g_pinChangeInterruptCount
    ∧ (yawRefIntHandler s).g_pinChangeInterruptCount < INTERRUPTS_PER_REV
    ∧ INTERRUPTS_PER_REV = 448 := by
  rw [INTERRUPTS_PER_REV_eq] at h1 ⊢
  refine ⟨?_, by simp [yawRefIntHandler], by simp [yawRefIntHandler], rfl⟩
  intro newStateA newStateB
  obtain ⟨A, B, c, d, cal⟩ := s
  simp only at h0 h1
  simp only [pinChangeIntHandler, INTERRUPTS_PER_REV_eq, toInt16]
  cases A <;> cases B <;> cases newStateA <;> cases newStateB <;> simp <;>
    split_ifs <;> omega

/-- Witness for C3: stored levels (low, high), counter 447. -/
theorem yaw_counter_stays_in_range_witness :
    0 ≤ (pinChangeIntHandler ⟨false, true, 447, yawDirection_t.DIRECTION_CW, false⟩
          false false).g_pinChangeInterruptCount
    ∧ (pinChangeIntHandler ⟨false, true, 447, yawDirection_t.DIRECTION_CW, false⟩
          false false).g_pinChangeInterruptCount < INTERRUPTS_PER_REV :=
  (yaw_counter_stays_in_range ⟨false, true, 447, yawDirection_t.DIRECTION_CW, false⟩
    (by decide) (by decide)).1 false false

/-- C4: for an edge event with stored levels `(A,B)`, new levels `(newA,newB)`
and counter `c` in `[0,448)`: the decoded direction is CW iff `newA = newB`
when phase A changed, CW iff `newA ≠ newB` when only phase B changed, and CW
when neither changed; the counter becomes `(c+1) mod 448` for CW and
`(c-1) mod 448` for ANTI_CW (so a spurious event still advances it, a CW edge
at 447 gives 0 and an ANTI_CW edge at 0 gives 447); the stored levels become
`(newA,newB)`. -/
theorem pinChangeIntHandler_step (s : YawState) (newStateA newStateB : Bool)
    (h0 : 0 ≤ s.g_pinChangeInterruptCount)
    (h1 : s.g_pinChangeInterruptCount < INTERRUPTS_PER_REV) :
    (newStateA ≠ s.g_stateA →
        ((pinChangeIntHandler s newStateA newStateB).g_currentDirection
            = yawDirection_t.DIRECTION_CW ↔ newStateA = newStateB))
    ∧ (newStateA = s.g_stateA → newStateB ≠ s.g_stateB →
        ((pinChangeIntHandler s newStateA newStateB).g_currentDirection
            = yawDirection_t.DIRECTION_CW ↔ newStateA ≠ newStateB))
    ∧ (newStateA = s.g_stateA → newStateB = s.g_stateB →
        (pinChangeIntHandler s newStateA newStateB).g_currentDirection
            = yawDirection_t.DIRECTION_CW
        ∧ (pinChangeIntHandler s newStateA newStateB).g_pinChangeInterruptCount
            = (s.g_pinChangeInterruptCount + 1) % 448)
    ∧ ((pinChangeIntHandler s newStateA newStateB).g_currentDirection
          = yawDirection_t.DIRECTION_CW →
        (pinChangeIntHandler s newStateA newStateB).g_pinChangeInterruptCount
          = (s.g_pinChangeInterruptCount + 1) % 448)
    ∧ ((pinChangeIntHandler s newStateA newStateB).g_currentDirection
          = yawDirection_t.DIRECTION_ANTI_CW →
        (pinChangeIntHandler s newStateA newStateB).g_pinChangeInterruptCount
          = (s.g_pinChangeInterruptCount - 1) % 448)
    ∧ ((pinChangeIntHandler s newStateA newStateB).g_currentDirection
          = yawDirection_t.DIRECTION_CW → s.g_pinChangeInterruptCount = 447 →
        (pinChangeIntHandler s newStateA newStateB).g_pinChangeInterruptCount = 0)
    ∧ ((pinChangeIntHandler s newStateA newStateB).g_currentDirection
          = yawDirection_t.DIRECTION_ANTI_CW → s.g_pinChangeInterruptCount = 0 →
        (pinChangeIntHandler s newStateA newStateB).g_pinChangeInterruptCount = 447)
    ∧ (pinChangeIntHandler s newStateA newStateB).g_stateA = newStateA
    ∧ (pinChangeIntHandler s newStateA newStateB).g_stateB = newStateB := by
  rw [INTERRUPTS_PER_REV_eq] at h1
  obtain ⟨A, B, c, d, cal⟩ := s
  simp only at h0 h1
  simp only [pinChangeIntHandler, INTERRUPTS_PER_REV_eq, toInt16]
  cases A <;> cases B <;> cases newStateA <;> cases newStateB <;> simp <;>
    split_ifs <;> omega

/-- Witness for C4: stored levels (low, low), counter 0, new levels (high, low):
phase A changed and the levels differ, an ANTI_CW edge wrapping to 447. -/
theorem pinChangeIntHandler_step_witness :
    (pinChangeIntHandler ⟨false, false, 0, yawDirection_t.DIRECTION_CW, false⟩
        true false).g_pinChangeInterruptCount = 447 :=
  (pinChangeIntHandler_step ⟨false, false, 0, yawDirection_t.DIRECTION_CW, false⟩
    true false (by decide) (by decide)).2.2.2.2.2.2.1 (by decide) rfl

/-- C5: for every counter value `c` in `[0, 448)`, `getCurrentYaw` returns
`floor(c * 360 / 448)`, an integer in `[0,360)`: 0 at `c = 0` and 359 at
`c = 447`. -/
theorem getCurrentYaw_bearing (s : YawState)
    (h0 : 0 ≤ s.g_pinChangeInterruptCount)
    (h1 : s.g_pinChangeInterruptCount < INTERRUPTS_PER_REV) :
    (getCurrentYaw s : Int) = s.g_pinChangeInterruptCount * 360 / 448
    ∧ getCurrentYaw s = s.g_pinChangeInterruptCount.toNat * 360 / 448
    ∧ getCurrentYaw s < 360
    ∧ (s.g_pinChangeInterruptCount = 0 → getCurrentYaw s = 0)
    ∧ (s.g_pinChangeInterruptCount = 447 → getCurrentYaw s = 359) := by
  rw [INTERRUPTS_PER_REV_eq] at h1
  obtain ⟨n, hn⟩ := Int.eq_ofNat_of_zero_le h0
  have hw : toInt32 (s.g_pinChangeInterruptCount * 360) = s.g_pinChangeInterruptCount * 360 :=
    toInt32_of_range _ (by omega) (by omega)
  have hdiv : Int.tdiv (s.g_pinChangeInterruptCount * 360) 448
      = s.g_pinChangeInterruptCount * 360 / 448 :=
    Int.tdiv_eq_ediv (by omega) (by norm_num)
  have hcast : (n : Int) * 360 / 448 = ((n * 360 / 448 : Nat) : Int) := by
    push_cast; rfl
  have hlt : n * 360 / 448 < 360 := by omega
  have hyaw : getCurrentYaw s = n * 360 / 448 := by
    unfold getCurrentYaw
    rw [hw, INTERRUPTS_PER_REV_eq, hdiv, hn, hcast]
    unfold toUint16
    omega
  rw [hyaw, hn, hcast, Int.toNat_ofNat]
  refine ⟨rfl, rfl, hlt, ?_, ?_⟩
  · intro h
    have : n = 0 := by omega
    rw [this]
  · intro h
    have : n = 447 := by omega
    rw [this]

/-- Witness for C5: counter value 447. -/
theorem getCurrentYaw_bearing_witness :
    getCurrentYaw ⟨false, false, 447, yawDirection_t.DIRECTION_CW, false⟩ < 360 :=
  (getCurrentYaw_bearing ⟨false, false, 447, yawDirection_t.DIRECTION_CW, false⟩
    (by decide) (by decide)).2.2.1

/-! ## Lemmas on the debouncer -/

theorem updateButtonsBody_other (v : Fin NUM_BUTS → Bool) (s : ButtonsState)
    (i j : Fin NUM_BUTS) (h : j ≠ i) :
    recordAt (updateButtonsBody v s i) j = recordAt s j := by
  unfold updateButtonsBody recordAt
  dsimp only
  split_ifs <;> simp [Function.update_noteq h]

theorem updateButtonsBody_congr (v : Fin NUM_BUTS → Bool) (s t : ButtonsState)
    (j : Fin NUM_BUTS) (h : recordAt s j = recordAt t j) :
    recordAt (updateButtonsBody v s j) j = recordAt (updateButtonsBody v t j) j := by
  unfold recordAt at h
  simp only [Prod.mk.injEq] at h
  obtain ⟨h1, h2, h3, h4⟩ := h
  unfold updateButtonsBody recordAt
  simp only [h1, h2, Function.update_same]
  split_ifs <;> simp [h1, h2, h3, h4]

theorem foldl_updateButtonsBody_other (v : Fin NUM_BUTS → Bool) (j : Fin NUM_BUTS) :
    ∀ (l : List (Fin NUM_BUTS)) (s : ButtonsState), j ∉ l →
      recordAt (l.foldl (updateButtonsBody v) s) j = recordAt s j := by
  intro l
  induction l with
  | nil => intro s _; rfl
  | cons a t ih =>
    intro s hj
    have hja : j ≠ a := fun h => hj (h ▸ List.mem_cons_self _ _)
    have hjt : j ∉ t := fun h => hj (List.mem_cons_of_mem _ h)
    rw [List.foldl_cons, ih _ hjt, updateButtonsBody_other v s a j hja]

theorem foldl_updateButtonsBody_at (v : Fin NUM_BUTS → Bool) (j : Fin NUM_BUTS) :
    ∀ (l : List (Fin NUM_BUTS)) (s : ButtonsState), l.Nodup → j ∈ l →
      recordAt (l.foldl (updateButtonsBody v) s) j
        = recordAt (updateButtonsBody v s j) j := by
  intro l
  induction l with
  | nil => intro s _ hj; simp at hj
  | cons a t ih =>
    intro s hnd hj
    rw [List.nodup_cons] at hnd
    rw [List.foldl_cons]
    by_cases hja : j = a
    · subst hja
      exact foldl_updateButtonsBody_other v j t _ hnd.1
    · have hjt : j ∈ t := by
        rcases List.mem_cons.mp hj with h | h
        · exact absurd h hja
        · exact h
      rw [ih _ hnd.2 hjt]
      exact updateButtonsBody_congr v _ _ j (updateButtonsBody_other v s a j hja)

/-- One poll acts on the record of input `j` as the loop body for index `j`. -/
theorem updateButtons_at (s : ButtonsState) (v : Fin NUM_BUTS → Bool) (j : Fin NUM_BUTS) :
    recordAt (updateButtons s v) j = recordAt (updateButtonsBody v s j) j :=
  foldl_updateButtonsBody_at v j _ s (List.nodup_finRange _) (List.mem_finRange j)

/-- A poll reading the level opposite to the stable state, run counter below
`NUM_BUT_POLLS - 1`: the counter is incremented, nothing else changes. -/
theorem updateButtons_opposite_count (s : ButtonsState) (v : Fin NUM_BUTS → Bool)
    (j : Fin NUM_BUTS) (hv : v j = !s.but_state j) (hc : s.but_count j < 2) :
    (updateButtons s v).but_state j = s.but_state j
    ∧ (updateButtons s v).but_count j = s.but_count j + 1
    ∧ (updateButtons s v).but_flag j = s.but_flag j := by
  have h := updateButtons_at s v j
  have hu : toUint8 ((s.but_count j : Int) + 1) = s.but_count j + 1 := by
    unfold toUint8; omega
  have hnot : ¬ (s.but_count j + 1 ≥ NUM_BUT_POLLS) := by
    unfold NUM_BUT_POLLS; omega
  unfold recordAt updateButtonsBody at h
  simp only [hv, hu, Function.update_same, hnot] at h
  simp only [Prod.mk.injEq] at h
  cases hs : s.but_state j <;> simp [hs] at h <;> exact ⟨h.1, h.2.1, h.2.2.1⟩

/-- A poll reading the level opposite to the stable state with run counter
`NUM_BUT_POLLS - 1`: the state flips, the flag is raised, the counter is reset. -/
theorem updateButtons_opposite_flip (s : ButtonsState) (v : Fin NUM_BUTS → Bool)
    (j : Fin NUM_BUTS) (hv : v j = !s.but_state j) (hc : s.but_count j = 2) :
    (updateButtons s v).but_state j = (!s.but_state j)
    ∧ (updateButtons s v).but_count j = 0
    ∧ (updateButtons s v).but_flag j = true := by
  have h := updateButtons_at s v j
  have hu : toUint8 ((s.but_count j : Int) + 1) = 3 := by
    unfold toUint8; omega
  unfold recordAt updateButtonsBody at h
  simp only [hv, hu, Function.update_same] at h
  simp only [Prod.mk.injEq] at h
  cases hs : s.but_state j <;> simp [hs, NUM_BUT_POLLS] at h <;> simp [h]

/-- A poll reading the stable level: the counter is reset, nothing else changes. -/
theorem updateButtons_matching (s : ButtonsState) (v : Fin NUM_BUTS → Bool)
    (j : Fin NUM_BUTS) (hv : v j = s.but_state j) :
    (updateButtons s v).but_state j = s.but_state j
    ∧ (updateButtons s v).but_count j = 0
    ∧ (updateButtons s v).but_flag j = s.but_flag j := by
  have h := updateButtons_at s v j
  unfold recordAt updateButtonsBody at h
  simp only [hv, bne_self_eq_false, Bool.false_eq_true, if_false, Function.update_same,
    Prod.mk.injEq] at h
  exact ⟨h.1, h.2.1, h.2.2.1⟩

/-- A poll never changes a normal level. -/
theorem updateButtons_normal (s : ButtonsState) (v : Fin NUM_BUTS → Bool) (j : Fin NUM_BUTS) :
    (updateButtons s v).but_normal j = s.but_normal j := by
  have h := updateButtons_at s v j
  unfold recordAt updateButtonsBody at h
  simp only [Prod.mk.injEq] at h
  rw [h.2.2.2]
  split_ifs <;> rfl

/-- Two levels that differ are opposite. -/
theorem bool_eq_not_of_ne (a b : Bool) (h : a ≠ b) : a = !b := by
  cases a <;> cases b <;> simp at h ⊢

/-- A poll on a run counter below `NUM_BUT_POLLS - 1` changes neither the stable
state nor the flag, and increases the counter by at most one. -/
theorem updateButtons_short (s : ButtonsState) (v : Fin NUM_BUTS → Bool) (j : Fin NUM_BUTS)
    (hc : s.but_count j < 2) :
    (updateButtons s v).but_state j = s.but_state j
    ∧ (updateButtons s v).but_flag j = s.but_flag j
    ∧ (updateButtons s v).but_count j ≤ s.but_count j + 1 := by
  by_cases hv : v j = s.but_state j
  · obtain ⟨a, b, c⟩ := updateButtons_matching s v j hv
    exact ⟨a, c, by omega⟩
  · obtain ⟨a, b, c⟩ := updateButtons_opposite_count s v j (bool_eq_not_of_ne _ _ hv) hc
    exact ⟨a, c, by omega⟩

/-- Along a run of polls that starts with run counter 0, the counter of an
input stays below `NUM_BUT_POLLS`, and a counter of at least 1 means that the
last poll read the level opposite to the stable state and left state and flag
as they were, after a counter one lower. -/
theorem pollRun_counter (s0 : ButtonsState) (j : Fin NUM_BUTS) (h0 : s0.but_count j = 0)
    (pre : List (Fin NUM_BUTS → Bool)) :
    (pre.foldl updateButtons s0).but_count j ≤ 2
    ∧ (1 ≤ (pre.foldl updateButtons s0).but_count j →
        ∃ pre2 b, pre = pre2 ++ [b]
          ∧ b j = (!(pre.foldl updateButtons s0).but_state j)
          ∧ (pre2.foldl updateButtons s0).but_state j
              = (pre.foldl updateButtons s0).but_state j
          ∧ (pre2.foldl updateButtons s0).but_flag j
              = (pre.foldl updateButtons s0).but_flag j
          ∧ (pre2.foldl updateButtons s0).but_count j + 1
              = (pre.foldl updateButtons s0).but_count j) := by
  induction pre using List.reverseRecOn with
  | nil =>
    simp only [List.foldl_nil]
    exact ⟨by omega, fun h => by omega⟩
  | append_singleton l a ih =>
    obtain ⟨ih1, _⟩ := ih
    simp only [List.foldl_append, List.foldl_cons, List.foldl_nil]
    by_cases hv : a j = (l.foldl updateButtons s0).but_state j
    · obtain ⟨m1, m2, m3⟩ := updateButtons_matching (l.foldl updateButtons s0) a j hv
      rw [m2]
      exact ⟨by omega, fun h => by omega⟩
    · have hv2 := bool_eq_not_of_ne _ _ hv
      by_cases hc : (l.foldl updateButtons s0).but_count j < 2
      · obtain ⟨m1, m2, m3⟩ := updateButtons_opposite_count (l.foldl updateButtons s0) a j hv2 hc
        rw [m1, m2, m3]
        exact ⟨by omega, fun _ => ⟨l, a, rfl, hv2, rfl, rfl, rfl⟩⟩
      · obtain ⟨m1, m2, m3⟩ := updateButtons_opposite_flip (l.foldl updateButtons s0) a j hv2
          (by omega)
        rw [m2]
        exact ⟨by omega, fun h => by omega⟩

/-- Three polls reading the level opposite to the stable state, from run
counter 0: the state is flipped, the flag is raised, the counter is 0 again and
the normal level is unchanged. -/
theorem updateButtons_three_flip (s : ButtonsState) (i : Fin NUM_BUTS)
    (v1 v2 v3 : Fin NUM_BUTS → Bool) (hc : s.but_count i = 0)
    (h1 : v1 i = !s.but_state i) (h2 : v2 i = !s.but_state i) (h3 : v3 i = !s.but_state i) :
    (updateButtons (updateButtons (updateButtons s v1) v2) v3).but_state i = (!s.but_state i)
    ∧ (updateButtons (updateButtons (updateButtons s v1) v2) v3).but_count i = 0
    ∧ (updateButtons (updateButtons (updateButtons s v1) v2) v3).but_flag i = true
    ∧ (updateButtons (updateButtons (updateButtons s v1) v2) v3).but_normal i
        = s.but_normal i := by
  obtain ⟨a1, a2, _⟩ := updateButtons_opposite_count s v1 i h1 (by omega)
  obtain ⟨b1, b2, _⟩ := updateButtons_opposite_count (updateButtons s v1) v2 i
    (by rw [a1]; exact h2) (by omega)
  obtain ⟨c1, c2, c3⟩ := updateButtons_opposite_flip
    (updateButtons (updateButtons s v1) v2) v3 i (by rw [b1, a1]; exact h3) (by omega)
  refine ⟨by rw [c1, b1, a1], c2, c3, ?_⟩
  rw [updateButtons_normal, updateButtons_normal, updateButtons_normal]

/-! ## Verified properties: debouncer -/

/-- C6: with threshold `NUM_BUT_POLLS = 3`, for an input `i` with stable state
`s`, no pending change and run counter 0, three consecutive polls reading the
level opposite to `s` leave state and flag unchanged after the first and the
second poll and, on the third, flip the stable state, raise the change flag and
reset the run counter to 0. -/
theorem updateButtons_three_opposite_polls (s : ButtonsState) (i : Fin NUM_BUTS)
    (v1 v2 v3 : Fin NUM_BUTS → Bool)
    (hc : s.but_count i = 0) (hf : s.but_flag i = false)
    (h1 : v1 i = !s.but_state i) (h2 : v2 i = !s.but_state i)
    (h3 : v3 i = !s.but_state i) :
    NUM_BUT_POLLS = 3
    ∧ (updateButtons s v1).but_state i = s.but_state i
    ∧ (updateButtons s v1).but_flag i = false
    ∧ (updateButtons (updateButtons s v1) v2).but_state i = s.but_state i
    ∧ (updateButtons (updateButtons s v1) v2).but_flag i = false
    ∧ (updateButtons (updateButtons (updateButtons s v1) v2) v3).but_state i
        = (!s.but_state i)
    ∧ (updateButtons (updateButtons (updateButtons s v1) v2) v3).but_flag i = true
    ∧ (updateButtons (updateButtons (updateButtons s v1) v2) v3).but_count i = 0 := by
  obtain ⟨a1, a2, a3⟩ := updateButtons_opposite_count s v1 i h1 (by omega)
  obtain ⟨b1, b2, b3⟩ := updateButtons_opposite_count (updateButtons s v1) v2 i
    (by rw [a1]; exact h2) (by omega)
  obtain ⟨c1, c2, c3⟩ := updateButtons_opposite_flip
    (updateButtons (updateButtons s v1) v2) v3 i (by rw [b1, a1]; exact h3) (by omega)
  refine ⟨rfl, a1, by rw [a3, hf], by rw [b1, a1], by rw [b3, a3, hf], ?_, c3, c2⟩
  rw [c1, b1, a1]

/-- Witness for C6: all inputs low, idle, active high; input `UP` reads high
on three polls. -/
theorem updateButtons_three_opposite_polls_witness :
    (updateButtons (updateButtons (updateButtons
        ⟨fun _ => false, fun _ => 0, fun _ => false, fun _ => false⟩
        (fun _ => true)) (fun _ => true)) (fun _ => true)).but_flag UP = true :=
  (updateButtons_three_opposite_polls
    ⟨fun _ => false, fun _ => 0, fun _ => false, fun _ => false⟩ UP
    (fun _ => true) (fun _ => true) (fun _ => true) rfl rfl rfl rfl rfl).2.2.2.2.2.2.1

/-- C7: for every input and every run-counter value, a poll whose raw level
equals the stable state resets the run counter to 0 and leaves the stable state
and the change flag unchanged; so, from run counter 0, two opposite polls
followed by one matching poll change neither the stable state nor the flag
(after any of the three polls) and leave the run counter at 0. -/
theorem updateButtons_matching_poll_resets (s : ButtonsState) (i : Fin NUM_BUTS)
    (v1 v2 v3 : Fin NUM_BUTS → Bool) :
    (v1 i = s.but_state i →
        (updateButtons s v1).but_count i = 0
        ∧ (updateButtons s v1).but_state i = s.but_state i
        ∧ (updateButtons s v1).but_flag i = s.but_flag i)
    ∧ (s.but_count i = 0 → v1 i = (!s.but_state i) → v2 i = (!s.but_state i) →
        v3 i = s.but_state i →
        (updateButtons s v1).but_state i = s.but_state i
        ∧ (updateButtons s v1).but_flag i = s.but_flag i
        ∧ (updateButtons (updateButtons s v1) v2).but_state i = s.but_state i
        ∧ (updateButtons (updateButtons s v1) v2).but_flag i = s.but_flag i
        ∧ (updateButtons (updateButtons (updateButtons s v1) v2) v3).but_state i
            = s.but_state i
        ∧ (updateButtons (updateButtons (updateButtons s v1) v2) v3).but_flag i
            = s.but_flag i
        ∧ (updateButtons (updateButtons (updateButtons s v1) v2) v3).but_count i = 0) := by
  constructor
  · intro hv
    obtain ⟨a1, a2, a3⟩ := updateButtons_matching s v1 i hv
    exact ⟨a2, a1, a3⟩
  · intro hc h1 h2 h3
    obtain ⟨a1, a2, a3⟩ := updateButtons_opposite_count s v1 i h1 (by omega)
    obtain ⟨b1, b2, b3⟩ := updateButtons_opposite_count (updateButtons s v1) v2 i
      (by rw [a1]; exact h2) (by omega)
    obtain ⟨c1, c2, c3⟩ := updateButtons_matching
      (updateButtons (updateButtons s v1) v2) v3 i (by rw [b1, a1]; exact h3)
    exact ⟨a1, a3, by rw [b1, a1], by rw [b3, a3], by rw [c1, b1, a1],
      by rw [c3, b3, a3], c2⟩

/-- Witness for C7: input `LEFT` (stable high) with run counter 2 reads high. -/
theorem updateButtons_matching_poll_resets_witness :
    (updateButtons ⟨fun _ => true, fun _ => 2, fun _ => false, fun _ => true⟩
        (fun _ => true)).but_count LEFT = 0
    ∧ (updateButtons ⟨fun _ => true, fun _ => 2, fun _ => false, fun _ => true⟩
        (fun _ => true)).but_state LEFT = true
    ∧ (updateButtons ⟨fun _ => true, fun _ => 2, fun _ => false, fun _ => true⟩
        (fun _ => true)).but_flag LEFT = false :=
  (updateButtons_matching_poll_resets
    ⟨fun _ => true, fun _ => 2, fun _ => false, fun _ => true⟩ LEFT
    (fun _ => true) (fun _ => true) (fun _ => true)).1 rfl

/-- C8: `checkButton` consumes the change flag of input `i`: with a pending
flag it clears the flag and returns PUSHED exactly when the stable state equals
the active polarity (the negation of the normal level, i.e. differs from the
normal level) and RELEASED otherwise; with no pending flag it returns
NO_CHANGE and leaves the state as it is. A second call right after the first
returns NO_CHANGE. The call never changes any stable state, run counter or
normal level, nor the flag of any other input. -/
theorem checkButton_consumes_flag (s : ButtonsState) (i : Fin NUM_BUTS) :
    (s.but_flag i = true →
        (checkButton s i).2.but_flag i = false
        ∧ ((checkButton s i).1 = butStates.PUSHED ↔ s.but_state i = (!s.but_normal i))
        ∧ ((checkButton s i).1 = butStates.PUSHED ↔ s.but_state i ≠ s.but_normal i)
        ∧ ((checkButton s i).1 = butStates.RELEASED ↔ s.but_state i = s.but_normal i)
        ∧ (checkButton s i).1 ≠ butStates.NO_CHANGE)
    ∧ (s.but_flag i = false →
        (checkButton s i).1 = butStates.NO_CHANGE
        ∧ (checkButton s i).2.but_flag = s.but_flag)
    ∧ (checkButton (checkButton s i).2 i).1 = butStates.NO_CHANGE
    ∧ (checkButton s i).2.but_state = s.but_state
    ∧ (checkButton s i).2.but_count = s.but_count
    ∧ (checkButton s i).2.but_normal = s.but_normal
    ∧ (∀ j, j ≠ i → (checkButton s i).2.but_flag j = s.but_flag j) := by
  unfold checkButton
  cases hf : s.but_flag i <;> cases hs : s.but_state i <;> cases hn : s.but_normal i <;>
    simp [hf, hs, hn, Function.update_same] <;>
    intro j hj <;> exact Function.update_noteq hj _ _

/-- Witness for C8: input `UP` (normal level low) is stably high with a pending
flag: the call reports PUSHED. -/
theorem checkButton_consumes_flag_witness :
    (checkButton ⟨fun _ => true, fun _ => 0, fun _ => true, fun _ => false⟩ UP).1
      = butStates.PUSHED :=
  ((checkButton_consumes_flag
    ⟨fun _ => true, fun _ => 0, fun _ => true, fun _ => false⟩ UP).1 rfl).2.1.mpr rfl

/-! ## Verified properties: altitude estimator -/

/-- C9: for 12-bit values `rawMean` (the buffer mean), `low` and `high` with
`den = high - low ≠ 0` and a result below `2^16`, `getCurrentAltitude` returns
`max(0, q + 100)` where `num = (rawMean - high) * 100` as a signed value and `q`
is `(2*num - den) / (2*den)` truncated toward zero; the result is not clamped
above 100: with `den = -993` and `rawMean = high - 20` it is 101. -/
theorem getCurrentAltitude_formula (s : AltimeterState) (rawMean : Nat) (buffer : circBuf_t)
    (hmean : circBufMean s.g_altitudeBuffer = some (rawMean, buffer))
    (hraw : rawMean < 2 ^ ADC_WIDTH_BITS)
    (hlow : s.g_minAltADCValue < 2 ^ ADC_WIDTH_BITS)
    (hhigh : s.g_maxAltADCValue < 2 ^ ADC_WIDTH_BITS)
    (hden : (s.g_maxAltADCValue : Int) - s.g_minAltADCValue ≠ 0)
    (hres : max 0 (Int.tdiv
        (2 * (((rawMean : Int) - s.g_maxAltADCValue) * 100)
          - ((s.g_maxAltADCValue : Int) - s.g_minAltADCValue))
        (2 * ((s.g_maxAltADCValue : Int) - s.g_minAltADCValue)) + 100) < 2 ^ 16) :
    (getCurrentAltitude s).map Prod.fst
      = some (max 0 (Int.tdiv
          (2 * (((rawMean : Int) - s.g_maxAltADCValue) * 100)
            - ((s.g_maxAltADCValue : Int) - s.g_minAltADCValue))
          (2 * ((s.g_maxAltADCValue : Int) - s.g_minAltADCValue)) + 100)).toNat
    ∧ ((s.g_maxAltADCValue : Int) - s.g_minAltADCValue = -993 →
        (rawMean : Int) = s.g_maxAltADCValue - 20 →
        (getCurrentAltitude s).map Prod.fst = some 101) := by
  have h12 : 2 ^ ADC_WIDTH_BITS = 4096 := by norm_num [ADC_WIDTH_BITS]
  rw [h12] at hraw hlow hhigh
  have heq := getCurrentAltitude_eq s rawMean buffer hmean hraw hlow hhigh hden
    (by norm_num at hres ⊢; exact hres)
  rw [heq]
  refine ⟨rfl, ?_⟩
  intro hd hr
  have hnum : (rawMean : Int) - s.g_maxAltADCValue = -20 := by omega
  rw [hd, hnum]
  rfl

/-- Witness for C9: calibration `low = 2000`, `high = 1007` (`den = -993`),
buffer mean 987 (`high - 20`): the altitude is 101. -/
theorem getCurrentAltitude_formula_witness :
    (getCurrentAltitude ⟨⟨1, 0, 0, [987]⟩, 1, 2000, 1007⟩).map Prod.fst = some 101 :=
  (getCurrentAltitude_formula ⟨⟨1, 0, 0, [987]⟩, 1, 2000, 1007⟩ 987 ⟨1, 0, 0, [987]⟩
    (by decide) (by decide) (by decide) (by decide) (by decide) (by decide)).2
    (by decide) (by decide)

/-- C10: for every calibration of 12-bit values `low`, `high` with
`den = high - low ≠ 0`, `getCurrentAltitude` returns exactly 0 when the buffer
mean equals `low` (the ground baseline, 0%) and exactly 100 when the buffer mean
equals `high` (the top of the expected range, 100%). -/
theorem getCurrentAltitude_endpoints (s : AltimeterState) (rawMean : Nat)
    (buffer : circBuf_t)
    (hmean : circBufMean s.g_altitudeBuffer = some (rawMean, buffer))
    (hlow : s.g_minAltADCValue < 2 ^ ADC_WIDTH_BITS)
    (hhigh : s.g_maxAltADCValue < 2 ^ ADC_WIDTH_BITS)
    (hden : (s.g_maxAltADCValue : Int) - s.g_minAltADCValue ≠ 0) :
    (rawMean = s.g_minAltADCValue → (getCurrentAltitude s).map Prod.fst = some 0)
    ∧ (rawMean = s.g_maxAltADCValue → (getCurrentAltitude s).map Prod.fst = some 100) := by
  have h12 : 2 ^ ADC_WIDTH_BITS = 4096 := by norm_num [ADC_WIDTH_BITS]
  rw [h12] at hlow hhigh
  constructor
  · intro hr
    have harg : 2 * (((rawMean : Int) - s.g_maxAltADCValue) * 100)
        - ((s.g_maxAltADCValue : Int) - s.g_minAltADCValue)
        = -(201 * ((s.g_maxAltADCValue : Int) - s.g_minAltADCValue)) := by
      rw [hr]; ring
    have hq := tdiv_neg201 _ hden
    rw [getCurrentAltitude_eq s rawMean buffer hmean (by omega) hlow hhigh hden
      (by rw [harg, hq]; decide)]
    rw [harg, hq]
    rfl
  · intro hr
    have harg : 2 * (((rawMean : Int) - s.g_maxAltADCValue) * 100)
        - ((s.g_maxAltADCValue : Int) - s.g_minAltADCValue)
        = -((s.g_maxAltADCValue : Int) - s.g_minAltADCValue) := by
      rw [hr]; ring
    have hq := tdiv_negself _ hden
    rw [getCurrentAltitude_eq s rawMean buffer hmean (by omega) hlow hhigh hden
      (by rw [harg, hq]; decide)]
    rw [harg, hq]
    rfl

/-- Witness for C10: calibration `low = 2000`, `high = 1007`, buffer mean 2000:
the altitude is 0. -/
theorem getCurrentAltitude_endpoints_witness :
    (getCurrentAltitude ⟨⟨1, 0, 0, [2000]⟩, 1, 2000, 1007⟩).map Prod.fst = some 0 :=
  (getCurrentAltitude_endpoints ⟨⟨1, 0, 0, [2000]⟩, 1, 2000, 1007⟩ 2000 ⟨1, 0, 0, [2000]⟩
    (by decide) (by decide) (by decide) (by decide)).1 rfl

/-! ## Verified properties: PID controller -/

/-- C11: over exact rational arithmetic with `dt ≠ 0`, `pidUpdate` sets
`integral' = integral + error*dt` and `prevError' = error`, returns
`Kp*error + Ki*integral' + Kd*(error - prevError)/dt` (with the updated
integral and the old previous error) and leaves the three gains unchanged; no
clamping of the integral or of the output is applied. -/
theorem pidUpdate_law (controller : pidController_t) (error deltaT : ℚ)
    (hdt : deltaT ≠ 0) :
    (pidUpdate controller error deltaT).2.errorIntegrated
        = controller.errorIntegrated + error * deltaT
    ∧ (pidUpdate controller error deltaT).2.errorPrevious = error
    ∧ (pidUpdate controller error deltaT).1
        = some (controller.gainProportional * error
            + controller.gainIntegral * (controller.errorIntegrated + error * deltaT)
            + controller.gainDerivative * (error - controller.errorPrevious) / deltaT)
    ∧ (pidUpdate controller error deltaT).2.gainProportional = controller.gainProportional
    ∧ (pidUpdate controller error deltaT).2.gainIntegral = controller.gainIntegral
    ∧ (pidUpdate controller error deltaT).2.gainDerivative = controller.gainDerivative := by
  refine ⟨rfl, rfl, ?_, rfl, rfl, rfl⟩
  simp only [pidUpdate, if_neg hdt, Option.some.injEq]
  ring

/-- Witness for C11: the altitude gains, integral 3, previous error 2, error 4
and `dt = 1/100`. -/
theorem pidUpdate_law_witness :
    (pidUpdate ⟨3, 2, 1, 1 / 2, 1 / 5⟩ 4 (1 / 100)).1
      = some (1 * 4 + 1 / 2 * (3 + 4 * (1 / 100)) + 1 / 5 * (4 - 2) / (1 / 100)) :=
  (pidUpdate_law ⟨3, 2, 1, 1 / 2, 1 / 5⟩ 4 (1 / 100) (by norm_num)).2.2.1

/-- C12 as stated fails: with `dt = 0` the update of a freshly initialised
controller with error 0 does not return 0; the derivative term is the quotient
`0/0`, which has no value. -/
theorem pidUpdate_zero_dt_counterexample :
    (pidUpdate (initPidController ⟨0, 0, 0, 0, 0⟩ 1 (1 / 2) (1 / 5)) 0 0).1 ≠ some 0 := by
  decide

/-- C12 amended: for every choice of finite gains and every finite `dt ≠ 0`,
`pidUpdate` with error 0 on a controller freshly initialised by
`initPidController` returns 0; for every finite `dt`, zero or not, it leaves
integral and previous error at 0. The gains and `dt` range over the rationals,
which are the finite values of a `double`; an infinite or NaN gain or `dt` is
excluded, as is `dt = 0` for the returned value. The same holds with the
rounding of every `double` operation explicit, for every rounding that leaves
zero unchanged: with error 0 on a fresh controller every product and quotient
is an exact zero. -/
theorem pidUpdate_fresh_zero_error (controller : pidController_t) (Kp Ki Kd deltaT : ℚ) :
    (deltaT ≠ 0 →
        (pidUpdate (initPidController controller Kp Ki Kd) 0 deltaT).1 = some 0)
    ∧ (pidUpdate (initPidController controller Kp Ki Kd) 0 deltaT).2.errorIntegrated = 0
    ∧ (pidUpdate (initPidController controller Kp Ki Kd) 0 deltaT).2.errorPrevious = 0
    ∧ (∀ fp : doubleArith, fp.round 0 = 0 →
        (deltaT ≠ 0 →
          (pidUpdateDouble fp (initPidController controller Kp Ki Kd) 0 deltaT).1 = some 0)
        ∧ (pidUpdateDouble fp (initPidController controller Kp Ki Kd) 0 deltaT).2.errorIntegrated
            = 0
        ∧ (pidUpdateDouble fp (initPidController controller Kp Ki Kd) 0 deltaT).2.errorPrevious
            = 0) := by
  refine ⟨?_, ?_, rfl, ?_⟩
  · intro hdt
    simp [pidUpdate, initPidController, hdt]
  · simp [pidUpdate, initPidController]
  · intro fp h0
    refine ⟨?_, ?_, rfl⟩
    · intro hdt
      simp [pidUpdateDouble, initPidController, hdt, h0]
    · simp [pidUpdateDouble, initPidController, h0]

/-- Witness for C12 amended: the yaw gains and `dt = 1/100`. -/
theorem pidUpdate_fresh_zero_error_witness :
    (pidUpdate (initPidController ⟨7, 7, 7, 7, 7⟩ 1 (1 / 5) (1 / 5)) 0 (1 / 100)).1 = some 0 :=
  (pidUpdate_fresh_zero_error ⟨7, 7, 7, 7, 7⟩ 1 (1 / 5) (1 / 5) (1 / 100)).1 (by norm_num)

/-! ## Verified properties: flight supervisor, IDLE and TAKING_OFF -/

/-- C13: on a supervisor tick in state IDLE, if the flight switch reports
ACTIVATED (`checkButton(SLIDE_RIGHT) == PUSHED`) the next state is TAKING_OFF,
both PID controllers have integral 0 and previous error 0 with their configured
gains, and target altitude is `YAW_CORRECTION_ALT = 10`; for any other switch
result the state stays IDLE and target altitude, target yaw and both PID states
are unchanged. On an entry tick the flight-active flag is cleared and both
motors are disabled, whatever the switch reports. -/
theorem updateStateIdle_step (justChangedState : Bool) (s : HeliState) :
    ((checkButton s.buttons SLIDE_RIGHT).1 = butStates.PUSHED →
        (updateStateIdle justChangedState s).1 = heliState_t.TAKING_OFF
        ∧ (updateStateIdle justChangedState s).2.altController
            = ⟨0, 0, KP_ALT, KI_ALT, KD_ALT⟩
        ∧ (updateStateIdle justChangedState s).2.yawController
            = ⟨0, 0, KP_YAW, KI_YAW, KD_YAW⟩
        ∧ (updateStateIdle justChangedState s).2.g_targetAlt = 10)
    ∧ ((checkButton s.buttons SLIDE_RIGHT).1 ≠ butStates.PUSHED →
        (updateStateIdle justChangedState s).1 = heliState_t.IDLE
        ∧ (updateStateIdle justChangedState s).2.g_targetAlt = s.g_targetAlt
        ∧ (updateStateIdle justChangedState s).2.g_targetYaw = s.g_targetYaw
        ∧ (updateStateIdle justChangedState s).2.altController = s.altController
        ∧ (updateStateIdle justChangedState s).2.yawController = s.yawController)
    ∧ (justChangedState = true →
        (updateStateIdle justChangedState s).2.g_flightModeActive = false
        ∧ (updateStateIdle justChangedState s).2.motors.g_mainEnabled = false
        ∧ (updateStateIdle justChangedState s).2.motors.g_tailEnabled = false)
    ∧ YAW_CORRECTION_ALT = 10
    ∧ (KP_ALT, KI_ALT, KD_ALT) = (1, 1 / 2, 1 / 5)
    ∧ (KP_YAW, KI_YAW, KD_YAW) = (1, 1 / 5, 1 / 5) := by
  have h10 : toUint8 YAW_CORRECTION_ALT = 10 := by decide
  refine ⟨?_, ?_, ?_, rfl, rfl, rfl⟩
  · intro hsw
    cases justChangedState <;>
      simp [updateStateIdle, hsw, h10, initPidController]
  · intro hsw
    cases justChangedState <;>
      simp [updateStateIdle, hsw]
  · intro hj
    subst hj
    by_cases hsw : (checkButton s.buttons SLIDE_RIGHT).1 = butStates.PUSHED <;>
      simp [updateStateIdle, hsw, disableTailMotor, disableMainMotor]

/-- Witness for C13: an entry tick with the flight switch just activated. -/
theorem updateStateIdle_step_witness :
    (updateStateIdle true { groundState with buttons := buttonsPushed SLIDE_RIGHT }).1
      = heliState_t.TAKING_OFF :=
  ((updateStateIdle_step true { groundState with buttons := buttonsPushed SLIDE_RIGHT }).1
    (by decide)).1

/-- C14: on a supervisor tick in state TAKING_OFF on which the flight switch
reports DEACTIVATED (`checkButton(SLIDE_RIGHT) == RELEASED`), the next state is
IDLE and target yaw is unchanged, whatever the sensor readings and whether or
not the yaw decoder is calibrated. The tick returns on every tick that is not
an entry tick, and on an entry tick as soon as the blocking calibration
returns. -/
theorem updateStateTakingOff_switch_off (justChangedState : Bool)
    (adc : List (Option Nat)) (s : HeliState)
    (hsw : (checkButton s.buttons SLIDE_RIGHT).1 = butStates.RELEASED) :
    ((justChangedState = false ∨ (calibrateAltimeter s.altimeter adc).isSome = true) →
        ∃ r, updateStateTakingOff justChangedState adc s = some r)
    ∧ (∀ r, updateStateTakingOff justChangedState adc s = some r →
        r.1 = heliState_t.IDLE ∧ r.2.g_targetYaw = s.g_targetYaw) := by
  refine ⟨updateStateTakingOff_returns justChangedState adc s, ?_⟩
  intro r hr
  obtain ⟨e, he, rfl⟩ := (updateStateTakingOff_eq_some _ _ _ _).mp hr
  obtain ⟨hb, _, hy, _⟩ := updateStateTakingOffEntry_fields _ _ _ _ he
  obtain ⟨h1, h2⟩ := updateStateTakingOffBody_released e (by rw [hb]; exact hsw)
  exact ⟨h1, by rw [h2, hy]⟩

/-- Witness for C14: the flight switch is released while the yaw decoder is
already calibrated. -/
theorem updateStateTakingOff_switch_off_witness :
    ∃ r, updateStateTakingOff false []
        { groundState with
          buttons := buttonsReleased SLIDE_RIGHT
          yawmeter := ⟨false, false, 0, yawDirection_t.DIRECTION_CW, true⟩
          g_targetYaw := 90 } = some r :=
  (updateStateTakingOff_switch_off false []
    { groundState with
      buttons := buttonsReleased SLIDE_RIGHT
      yawmeter := ⟨false, false, 0, yawDirection_t.DIRECTION_CW, true⟩
      g_targetYaw := 90 } (by decide)).1 (Or.inl rfl)

/-- C15: on a supervisor tick in state TAKING_OFF on which the flight switch
does not report DEACTIVATED and the yaw decoder is calibrated, the next state
is FLYING, target yaw is set to 0 and the yaw reference interrupt is disabled,
whatever the yaw and altitude errors and the debounce counter. The tick
returns on every tick that is not an entry tick, and on an entry tick as soon
as the blocking calibration returns. -/
theorem updateStateTakingOff_calibrated (justChangedState : Bool)
    (adc : List (Option Nat)) (s : HeliState)
    (hsw : (checkButton s.buttons SLIDE_RIGHT).1 ≠ butStates.RELEASED)
    (hcal : yawCalibrated_p s.yawmeter = true) :
    ((justChangedState = false ∨ (calibrateAltimeter s.altimeter adc).isSome = true) →
        ∃ r, updateStateTakingOff justChangedState adc s = some r)
    ∧ (∀ r, updateStateTakingOff justChangedState adc s = some r →
        r.1 = heliState_t.FLYING ∧ r.2.g_targetYaw = 0 ∧ r.2.yawRefIntEnabled = false) := by
  refine ⟨updateStateTakingOff_returns justChangedState adc s, ?_⟩
  intro r hr
  obtain ⟨e, he, rfl⟩ := (updateStateTakingOff_eq_some _ _ _ _).mp hr
  obtain ⟨hb, hm, _⟩ := updateStateTakingOffEntry_fields _ _ _ _ he
  exact updateStateTakingOffBody_calibrated e (by rw [hb]; exact hsw) (by rw [hm]; exact hcal)

/-- Witness for C15: calibrated decoder, target yaw 90, yaw error 90, debounce
counter 7. -/
theorem updateStateTakingOff_calibrated_witness :
    ∃ r, updateStateTakingOff false []
        { groundState with
          yawmeter := ⟨false, false, 0, yawDirection_t.DIRECTION_CW, true⟩
          g_targetYaw := 90
          g_yawDebounce := 7 } = some r :=
  (updateStateTakingOff_calibrated false []
    { groundState with
      yawmeter := ⟨false, false, 0, yawDirection_t.DIRECTION_CW, true⟩
      g_targetYaw := 90
      g_yawDebounce := 7 } (by decide) (by decide)).1 (Or.inl rfl)

/-- C16: on a supervisor tick in state TAKING_OFF with no DEACTIVATED event and
the yaw decoder not calibrated, with target yaw in `[0,360)`, the state stays
TAKING_OFF and: if `|yawDifference(targetYaw, currentYaw)| < 15` and
`|targetAlt - currentAlt| < 8`, the yaw-search debounce counter is incremented
by one (as a `uint8_t`) and target yaw becomes `(targetYaw + 30) mod 360`
exactly when the incremented counter exceeds `YAW_MIN_POLLS = 15`, otherwise
target yaw is unchanged; if either error is out of tolerance the counter is
reset to 0 and target yaw is unchanged. On an entry tick the counter and the
target altitude are the values the entry action has just set (0 and 10). -/
theorem updateStateTakingOff_yaw_search (justChangedState : Bool)
    (adc : List (Option Nat)) (s : HeliState)
    (hsw : (checkButton s.buttons SLIDE_RIGHT).1 ≠ butStates.RELEASED)
    (hcal : yawCalibrated_p s.yawmeter = false) (hyaw : s.g_targetYaw < 360) :
    ((justChangedState = false ∨ (calibrateAltimeter s.altimeter adc).isSome = true) →
        ∃ r, updateStateTakingOff justChangedState adc s = some r)
    ∧ (∀ r, updateStateTakingOff justChangedState adc s = some r →
        r.1 = heliState_t.TAKING_OFF
        ∧ ((yawDifference s.g_targetYaw s.g_currentYaw).natAbs < 15
            ∧ (((if justChangedState then 10 else s.g_targetAlt : Nat) : Int)
                - s.g_currentAlt).natAbs < 8 →
            r.2.g_yawDebounce
              = ((if justChangedState then 0 else s.g_yawDebounce) + 1) % 256
            ∧ ((if justChangedState then 0 else s.g_yawDebounce) < 255 →
                r.2.g_yawDebounce = (if justChangedState then 0 else s.g_yawDebounce) + 1)
            ∧ (15 < r.2.g_yawDebounce → r.2.g_targetYaw = (s.g_targetYaw + 30) % 360)
            ∧ (r.2.g_yawDebounce ≤ 15 → r.2.g_targetYaw = s.g_targetYaw))
        ∧ (¬ ((yawDifference s.g_targetYaw s.g_currentYaw).natAbs < 15
            ∧ (((if justChangedState then 10 else s.g_targetAlt : Nat) : Int)
                - s.g_currentAlt).natAbs < 8) →
            r.2.g_yawDebounce = 0 ∧ r.2.g_targetYaw = s.g_targetYaw))
    ∧ YAW_TAKEOFF_TOLERANCE = 15 ∧ ALT_TOLERANCE = 8 ∧ YAW_MIN_POLLS = 15
    ∧ YAW_REF_INCREMENT = 30 := by
  refine ⟨updateStateTakingOff_returns justChangedState adc s, ?_, rfl, rfl, rfl, rfl⟩
  intro r hr
  obtain ⟨e, he, rfl⟩ := (updateStateTakingOff_eq_some _ _ _ _).mp hr
  obtain ⟨hb, hm, hy, hcy, hca, _, hta, hdb⟩ := updateStateTakingOffEntry_fields _ _ _ _ he
  obtain ⟨h1, h2, h3⟩ := updateStateTakingOffBody_search e (by rw [hb]; exact hsw)
    (by rw [hm]; exact hcal) (by rw [hy]; exact hyaw)
  rw [hy, hcy, hca, hta, hdb] at h2
  rw [hy, hcy, hca, hta] at h3
  refine ⟨h1, ?_, h3⟩
  intro htol
  obtain ⟨a1, a2, a3⟩ := h2 htol
  refine ⟨a1, ?_, ?_, ?_⟩
  · intro hlt
    rw [a1]
    exact Nat.mod_eq_of_lt (by omega)
  · intro h15
    exact a2 (by rw [← a1]; exact h15)
  · intro h15
    exact a3 (by rw [← a1]; exact h15)

/-- Witness for C16: a tick in tolerance with debounce counter 15: the counter
becomes 16 and target yaw steps from 0 to 30. -/
theorem updateStateTakingOff_yaw_search_witness :
    ∃ r, updateStateTakingOff false []
        { groundState with g_targetAlt := 10, g_currentAlt := 10, g_yawDebounce := 15 }
      = some r :=
  (updateStateTakingOff_yaw_search false []
    { groundState with g_targetAlt := 10, g_currentAlt := 10, g_yawDebounce := 15 }
    (by decide) (by decide) (by decide)).1 (Or.inl rfl)

/-- C17 as stated fails: from debounce counter 15 the tick with yaw reading 0
advances target yaw from 0 to 30 (counter 16), and the very next tick, with yaw
reading 30, advances it again to 60 (counter 17): the counter has not counted up
from zero in between. -/
theorem takingOff_advances_on_consecutive_ticks_counterexample :
    (takingOffRun [searchInput 0]
        { groundState with g_targetAlt := 10, g_yawDebounce := 15 }).map
      (fun u => (u.g_targetYaw, u.g_yawDebounce)) = some (30, 16)
    ∧ (takingOffRun [searchInput 0, searchInput 30]
        { groundState with g_targetAlt := 10, g_yawDebounce := 15 }).map
      (fun u => (u.g_targetYaw, u.g_yawDebounce)) = some (60, 17) := by
  decide

/-- C17 amended: in state TAKING_OFF an advance of target yaw does not reset
the yaw debounce counter. On a tick after the entry tick with no DEACTIVATED
event and the decoder not calibrated (target yaw in `[0,360)`): if both errors
are within tolerance the counter, a `uint8_t`, becomes `(counter + 1) mod 256`
and target yaw advances to `(targetYaw + 30) mod 360` exactly when that value
exceeds `YAW_MIN_POLLS = 15`, the counter keeping that value, so the tick right
after an advance can advance again; otherwise the counter is reset to 0 and
target yaw is unchanged. A tick that stays in TAKING_OFF raises the counter by
at most one and does not advance target yaw from a counter below 15. Hence, for
every sequence of sensor readings, from counter 0 target yaw does not advance
during the next 15 ticks; and every run of 16 consecutive in-tolerance ticks
from counter 0 returns with target yaw advanced once, to
`(targetYaw + 30) mod 360`, and the counter at 16. -/
theorem takingOff_advance_needs_recount (inputs : List TickInput) (s u : HeliState)
    (hzero : s.g_yawDebounce = 0) (hlen : inputs.length ≤ 15)
    (hrun : takingOffRun inputs s = some u) :
    u.g_targetYaw = s.g_targetYaw
    ∧ u.g_yawDebounce ≤ inputs.length
    ∧ (∀ e : HeliState, (checkButton e.buttons SLIDE_RIGHT).1 ≠ butStates.RELEASED →
        yawCalibrated_p e.yawmeter = false → e.g_targetYaw < 360 →
        ((yawDifference e.g_targetYaw e.g_currentYaw).natAbs < 15
            ∧ ((e.g_targetAlt : Int) - e.g_currentAlt).natAbs < 8 →
          (updateStateTakingOffBody e).2.g_yawDebounce = (e.g_yawDebounce + 1) % 256
          ∧ (15 < (e.g_yawDebounce + 1) % 256 →
              (updateStateTakingOffBody e).2.g_targetYaw = (e.g_targetYaw + 30) % 360)
          ∧ ((e.g_yawDebounce + 1) % 256 ≤ 15 →
              (updateStateTakingOffBody e).2.g_targetYaw = e.g_targetYaw))
        ∧ (¬ ((yawDifference e.g_targetYaw e.g_currentYaw).natAbs < 15
            ∧ ((e.g_targetAlt : Int) - e.g_currentAlt).natAbs < 8) →
          (updateStateTakingOffBody e).2.g_yawDebounce = 0
          ∧ (updateStateTakingOffBody e).2.g_targetYaw = e.g_targetYaw))
    ∧ (∀ e : HeliState, (updateStateTakingOffBody e).1 = heliState_t.TAKING_OFF →
        (updateStateTakingOffBody e).2.g_yawDebounce ≤ e.g_yawDebounce + 1
        ∧ (e.g_yawDebounce < 15 → (updateStateTakingOffBody e).2.g_targetYaw = e.g_targetYaw))
    ∧ (∀ (run : List TickInput) (s0 : HeliState), s0.g_yawDebounce = 0 →
        s0.g_targetYaw < 360 → run.length = 16 →
        (∀ i ∈ run, (checkButton i.buttons SLIDE_RIGHT).1 ≠ butStates.RELEASED
          ∧ yawCalibrated_p i.yawmeter = false
          ∧ (yawDifference s0.g_targetYaw i.currentYaw).natAbs < 15
          ∧ ((s0.g_targetAlt : Int) - i.currentAlt).natAbs < 8) →
        ∃ v, takingOffRun run s0 = some v
          ∧ v.g_targetYaw = (s0.g_targetYaw + 30) % 360 ∧ v.g_yawDebounce = 16) := by
  obtain ⟨h1, h2⟩ := takingOffRun_keeps_targetYaw inputs s u (by omega) hrun
  refine ⟨h1, by omega, ?_, updateStateTakingOffBody_counter, ?_⟩
  · intro e hsw hcal hyaw
    exact (updateStateTakingOffBody_search e hsw hcal hyaw).2
  · intro run s0 hz ht hl htol
    exact takingOffRun_reaches_threshold s0.g_targetYaw s0.g_targetAlt ht run s0 rfl rfl
      (by omega) (by omega) htol

/-- Witness for C17 amended: fifteen in-tolerance ticks from counter 0 leave
target yaw at 0. -/
theorem takingOff_advance_needs_recount_witness :
    takingOffRun (List.replicate 15 (searchInput 0)) { groundState with g_targetAlt := 10 }
      = some { groundState with g_targetAlt := 10, g_yawDebounce := 15, g_currentAlt := 10 }
    ∧ ({ groundState with g_targetAlt := 10, g_yawDebounce := 15, g_currentAlt := 10 }
      : HeliState).g_targetYaw
      = ({ groundState with g_targetAlt := 10 } : HeliState).g_targetYaw :=
  ⟨rfl, (takingOff_advance_needs_recount (List.replicate 15 (searchInput 0))
    { groundState with g_targetAlt := 10 }
    { groundState with g_targetAlt := 10, g_yawDebounce := 15, g_currentAlt := 10 }
    rfl (by decide) rfl).1⟩

/-! ## Verified properties: flight supervisor, FLYING and LANDING -/

/-- C18: the flight switch toggles between manual flight and landing: a FLYING
tick with a DEACTIVATED switch event yields LANDING and leaves target altitude
and target yaw unchanged, whatever directional inputs are pending; a LANDING
tick with an ACTIVATED switch event yields FLYING and leaves target altitude
and target yaw unchanged, whatever the sensor readings. -/
theorem flight_switch_toggles (justChangedState : Bool) (s : HeliState) :
    ((checkButton s.buttons SLIDE_RIGHT).1 = butStates.RELEASED →
        (updateStateFlying justChangedState s).1 = heliState_t.LANDING
        ∧ (updateStateFlying justChangedState s).2.g_targetAlt = s.g_targetAlt
        ∧ (updateStateFlying justChangedState s).2.g_targetYaw = s.g_targetYaw)
    ∧ ((checkButton s.buttons SLIDE_RIGHT).1 = butStates.PUSHED →
        (updateStateLanding justChangedState s).1 = heliState_t.FLYING
        ∧ (updateStateLanding justChangedState s).2.g_targetAlt = s.g_targetAlt
        ∧ (updateStateLanding justChangedState s).2.g_targetYaw = s.g_targetYaw) := by
  constructor
  · intro hsw
    unfold updateStateFlying
    dsimp only
    rw [if_pos hsw]
    exact ⟨rfl, rfl, rfl⟩
  · intro hsw
    unfold updateStateLanding
    cases justChangedState <;> dsimp only <;> simp only [Bool.false_eq_true, if_false, if_true] <;>
      rw [if_pos hsw] <;> exact ⟨rfl, rfl, rfl⟩

/-- Witness for C18: a FLYING tick with the flight switch just released while
`UP` is pending. -/
theorem flight_switch_toggles_witness :
    (updateStateFlying false
        { groundState with
          g_targetAlt := 50
          buttons :=
            { buttonsReleased SLIDE_RIGHT with
              but_flag := Function.update (Function.update (fun _ => false) SLIDE_RIGHT true)
                UP true
              but_state := Function.update butNormalLevels UP true } }).1
      = heliState_t.LANDING :=
  ((flight_switch_toggles false
    { groundState with
      g_targetAlt := 50
      buttons :=
        { buttonsReleased SLIDE_RIGHT with
          but_flag := Function.update (Function.update (fun _ => false) SLIDE_RIGHT true)
            UP true
          but_state := Function.update butNormalLevels UP true } }).1 (by decide)).1

/-- C19: on a FLYING tick without a DEACTIVATED switch event and with target
altitude `t` in `[0,100]`, an `UP` event sets target altitude to
`min(100, t + 10)` and a `DOWN` event sets it to `max(0, t - 10)`, `UP` first
when both occur on the same tick; without `UP` or `DOWN` events the target
altitude is unchanged. -/
theorem updateStateFlying_altitude (justChangedState : Bool) (s : HeliState)
    (hsw : (checkButton s.buttons SLIDE_RIGHT).1 ≠ butStates.RELEASED)
    (ht : s.g_targetAlt ≤ 100) :
    ((checkButton s.buttons UP).1 = butStates.PUSHED →
      (checkButton s.buttons DOWN).1 ≠ butStates.PUSHED →
        (updateStateFlying justChangedState s).2.g_targetAlt = min 100 (s.g_targetAlt + 10))
    ∧ ((checkButton s.buttons UP).1 ≠ butStates.PUSHED →
      (checkButton s.buttons DOWN).1 = butStates.PUSHED →
        ((updateStateFlying justChangedState s).2.g_targetAlt : Int)
          = max 0 ((s.g_targetAlt : Int) - 10))
    ∧ ((checkButton s.buttons UP).1 = butStates.PUSHED →
      (checkButton s.buttons DOWN).1 = butStates.PUSHED →
        ((updateStateFlying justChangedState s).2.g_targetAlt : Int)
          = max 0 (((min 100 (s.g_targetAlt + 10) : Nat) : Int) - 10))
    ∧ ((checkButton s.buttons UP).1 ≠ butStates.PUSHED →
      (checkButton s.buttons DOWN).1 ≠ butStates.PUSHED →
        (updateStateFlying justChangedState s).2.g_targetAlt = s.g_targetAlt)
    ∧ (updateStateFlying justChangedState s).1 = heliState_t.FLYING
    ∧ INCREMENT_ALT = 10 := by
  obtain ⟨h1, h2, _⟩ := updateStateFlying_fields justChangedState s hsw
  refine ⟨?_, ?_, ?_, ?_, h1, rfl⟩
  · intro hu hd
    rw [h2, if_neg hd, if_pos hu, targetAlt_up _ ht]
  · intro hu hd
    rw [h2, if_pos hd, if_neg hu, targetAlt_down _ (by omega)]
    omega
  · intro hu hd
    rw [h2, if_pos hd, if_pos hu, targetAlt_up _ ht, targetAlt_down _ (by omega)]
    omega
  · intro hu hd
    rw [h2, if_neg hd, if_neg hu]

/-- Witness for C19: target altitude 95 and an `UP` event give 100. -/
theorem updateStateFlying_altitude_witness :
    (updateStateFlying false
        { groundState with g_targetAlt := 95, buttons := buttonsPushed UP }).2.g_targetAlt
      = min 100 (95 + 10) :=
  (updateStateFlying_altitude false
    { groundState with g_targetAlt := 95, buttons := buttonsPushed UP }
    (by decide) (by decide)).1 (by decide) (by decide)

/-- C20: on a FLYING tick without a DEACTIVATED switch event and with target yaw
`t` in `[0,360)`, a `RIGHT` event sets target yaw to `(t + 15) mod 360` and a
`LEFT` event sets it to `(t - 15) mod 360`, both again in `[0,360)`; so a tick
with a `LEFT` event exactly undoes an earlier tick with a `RIGHT` event, and a
tick with a `RIGHT` event exactly undoes an earlier tick with a `LEFT` event. -/
theorem updateStateFlying_yaw (justChangedState : Bool) (s s2 : HeliState)
    (hsw : (checkButton s.buttons SLIDE_RIGHT).1 ≠ butStates.RELEASED)
    (hsw2 : (checkButton s2.buttons SLIDE_RIGHT).1 ≠ butStates.RELEASED)
    (hy : s.g_targetYaw < 360)
    (hnext : s2.g_targetYaw = (updateStateFlying justChangedState s).2.g_targetYaw) :
    ((checkButton s.buttons RIGHT).1 = butStates.PUSHED →
      (checkButton s.buttons LEFT).1 ≠ butStates.PUSHED →
        (updateStateFlying justChangedState s).2.g_targetYaw = (s.g_targetYaw + 15) % 360)
    ∧ ((checkButton s.buttons RIGHT).1 ≠ butStates.PUSHED →
      (checkButton s.buttons LEFT).1 = butStates.PUSHED →
        ((updateStateFlying justChangedState s).2.g_targetYaw : Int)
          = ((s.g_targetYaw : Int) - 15) % 360)
    ∧ (updateStateFlying justChangedState s).2.g_targetYaw < 360
    ∧ ((checkButton s.buttons RIGHT).1 = butStates.PUSHED →
      (checkButton s.buttons LEFT).1 ≠ butStates.PUSHED →
      (checkButton s2.buttons RIGHT).1 ≠ butStates.PUSHED →
      (checkButton s2.buttons LEFT).1 = butStates.PUSHED →
        (updateStateFlying false s2).2.g_targetYaw = s.g_targetYaw)
    ∧ ((checkButton s.buttons RIGHT).1 ≠ butStates.PUSHED →
      (checkButton s.buttons LEFT).1 = butStates.PUSHED →
      (checkButton s2.buttons RIGHT).1 = butStates.PUSHED →
      (checkButton s2.buttons LEFT).1 ≠ butStates.PUSHED →
        (updateStateFlying false s2).2.g_targetYaw = s.g_targetYaw)
    ∧ INCREMENT_YAW = 15 := by
  obtain ⟨_, _, h3⟩ := updateStateFlying_fields justChangedState s hsw
  obtain ⟨_, _, k3⟩ := updateStateFlying_fields false s2 hsw2
  have hR : (checkButton s.buttons RIGHT).1 = butStates.PUSHED →
      (checkButton s.buttons LEFT).1 ≠ butStates.PUSHED →
      (updateStateFlying justChangedState s).2.g_targetYaw = (s.g_targetYaw + 15) % 360 := by
    intro hr hl
    rw [h3, if_neg hl, if_pos hr, targetYaw_right _ hy]
  have hL : (checkButton s.buttons RIGHT).1 ≠ butStates.PUSHED →
      (checkButton s.buttons LEFT).1 = butStates.PUSHED →
      (updateStateFlying justChangedState s).2.g_targetYaw = (s.g_targetYaw + 345) % 360 := by
    intro hr hl
    rw [h3, if_pos hl, if_neg hr, targetYaw_left _ hy]
  have hrange : (updateStateFlying justChangedState s).2.g_targetYaw < 360 := by
    rw [h3]
    by_cases hr : (checkButton s.buttons RIGHT).1 = butStates.PUSHED <;>
      by_cases hl : (checkButton s.buttons LEFT).1 = butStates.PUSHED
    · rw [if_pos hl, if_pos hr, targetYaw_right _ hy, targetYaw_left _ (by omega)]
      omega
    · rw [if_neg hl, if_pos hr, targetYaw_right _ hy]
      omega
    · rw [if_pos hl, if_neg hr, targetYaw_left _ hy]
      omega
    · rw [if_neg hl, if_neg hr]
      exact hy
  refine ⟨hR, ?_, hrange, ?_, ?_, rfl⟩
  · intro hr hl
    rw [hL hr hl]
    omega
  · intro hr hl hr2 hl2
    rw [k3, if_pos hl2, if_neg hr2, targetYaw_left _ (by rw [hnext]; exact hrange), hnext,
      hR hr hl]
    omega
  · intro hr hl hr2 hl2
    rw [k3, if_neg hl2, if_pos hr2, targetYaw_right _ (by rw [hnext]; exact hrange), hnext,
      hL hr hl]
    omega

/-- Witness for C20: target yaw 350, a `RIGHT` event gives 5; the next tick, with
a `LEFT` event, gives 350 again. -/
theorem updateStateFlying_yaw_witness :
    (updateStateFlying false
        { groundState with g_targetYaw := 5, buttons := buttonsPushed LEFT }).2.g_targetYaw
      = 350 :=
  (updateStateFlying_yaw false
    { groundState with g_targetYaw := 350, buttons := buttonsPushed RIGHT }
    { groundState with g_targetYaw := 5, buttons := buttonsPushed LEFT }
    (by decide) (by decide) (by decide) (by decide)).2.2.2.1
    (by decide) (by decide) (by decide) (by decide)

/-! ## Verified properties: yaw reference event and `yawDifference` on its whole domain -/

/-- C28: for every decoder state, the reference event `yawRefIntHandler` sets
the counter to 0 and the calibrated flag to true and leaves the stored phase
levels (and the stored direction) unchanged; `yawCalibrated_p` returns true
afterwards. -/
theorem yawRefIntHandler_calibrates (s : YawState) :
    (yawRefIntHandler s).g_pinChangeInterruptCount = 0
    ∧ (yawRefIntHandler s).g_yawCalibrated = true
    ∧ (yawRefIntHandler s).g_stateA = s.g_stateA
    ∧ (yawRefIntHandler s).g_stateB = s.g_stateB
    ∧ (yawRefIntHandler s).g_currentDirection = s.g_currentDirection
    ∧ yawCalibrated_p (yawRefIntHandler s) = true :=
  ⟨rfl, rfl, rfl, rfl, rfl, rfl⟩

/-- C29 as stated fails: `yawDifference(1000, 0)` is 640, outside
`[-180,180]`; both arguments are unsigned 16-bit values. -/
theorem yawDifference_out_of_range_counterexample :
    (1000 : Nat) < 65536 ∧ (0 : Nat) < 65536 ∧ yawDifference 1000 0 = 640
    ∧ ¬ (-180 ≤ yawDifference 1000 0 ∧ yawDifference 1000 0 ≤ 180) := by
  decide

/-- C29 amended: for every pair of unsigned 16-bit values the result of
`yawDifference` lies in `[-180,180]` exactly when `|reference - current| ≤ 540`;
in particular it does for all bearings in `[0,360)`. -/
theorem yawDifference_range_iff (reference current : Nat)
    (hr : reference < 65536) (hc : current < 65536) :
    ((-180 ≤ yawDifference reference current ∧ yawDifference reference current ≤ 180)
        ↔ ((reference : Int) - current).natAbs ≤ 540)
    ∧ (reference < 360 → current < 360 →
        -180 ≤ yawDifference reference current ∧ yawDifference reference current ≤ 180) := by
  unfold yawDifference
  simp only
  constructor
  · split_ifs <;> omega
  · intro h1 h2
    split_ifs <;> omega

/-- Witness for C29 amended: reference 700 and current 200 differ by 500. -/
theorem yawDifference_range_iff_witness :
    -180 ≤ yawDifference 700 200 ∧ yawDifference 700 200 ≤ 180 :=
  (yawDifference_range_iff 700 200 (by decide) (by decide)).1.mpr (by decide)

/-- C30 as stated fails: there are no bearings in `[0,360)` at distance 180 (nor
at any other distance) for which `yawDifference(reference, current)` differs
from `-yawDifference(current, reference)`. -/
theorem yawDifference_antisymmetric_counterexample :
    ¬ ∃ reference current : Nat, reference < 360 ∧ current < 360
        ∧ ((reference : Int) - current).natAbs = 180
        ∧ yawDifference reference current ≠ -yawDifference current reference := by
  rintro ⟨r, c, _, _, _, h⟩
  apply h
  unfold yawDifference
  simp only
  split_ifs <;> omega

/-- C30 amended: `yawDifference` is antisymmetric for all arguments:
`yawDifference(reference, current) = -yawDifference(current, reference)`. At the
boundary `|reference - current| = 180` the result is not normalised to one
sign: it is `+180` for one order of the arguments and `-180` for the other
(180 for bearings 180 and 0, -180 for bearings 0 and 180). -/
theorem yawDifference_antisymmetric (reference current : Nat) :
    yawDifference reference current = -yawDifference current reference
    ∧ ((reference : Int) - current = 180 →
        yawDifference reference current = 180 ∧ yawDifference current reference = -180)
    ∧ yawDifference 180 0 = 180 ∧ yawDifference 0 180 = -180 := by
  refine ⟨?_, ?_, by decide, by decide⟩
  · unfold yawDifference
    simp only
    split_ifs <;> omega
  · intro h
    unfold yawDifference
    simp only
    constructor <;> split_ifs <;> omega

/-- Witness for C30 amended: bearings 270 and 90. -/
theorem yawDifference_antisymmetric_witness :
    yawDifference 270 90 = 180 ∧ yawDifference 90 270 = -180 :=
  (yawDifference_antisymmetric 270 90).2.1 (by decide)

/-! ## Verified properties: circular buffer frame and writes -/

/-- C26: for a buffer of capacity `N ≥ 1` (a `uint32_t`) whose read cursor is
below `N`, the loop of `circBufMean` advances the read cursor by one per read,
modulo `N`, and changes nothing else, so after its `N` reads the buffer is
exactly as before: `circBufMean` leaves the read cursor where it started and
changes neither the stored data, the write cursor nor the capacity. A result
exists unless `2*N` is zero as a `uint32_t` (`N = 2^31`). For a well-formed
buffer the `N` entries consumed are those at the cursor and the `N-1`
positions after it, cyclically. -/
theorem circBufMean_frame (b : circBuf_t) (hN : 1 ≤ b.size) (hs : b.size < 2 ^ 32)
    (hr : b.rindex < b.size) :
    (∀ (k : Nat) (acc : Int),
        (circBufMeanLoop k b acc).2 = { b with rindex := (b.rindex + k) % b.size })
    ∧ (circBufMeanLoop b.size b 0).2 = b
    ∧ (∀ res, circBufMean b = some res → res.2 = b)
    ∧ (b.size ≠ 2 ^ 31 → ∃ res, circBufMean b = some res)
    ∧ (b.size < 2 ^ 30 → b.data.length = b.size → (∀ x ∈ b.data, x < 2 ^ 32) →
        (circBufMeanLoop b.size b 0).1
          = (((List.range b.size).map
              (fun j => b.data.getD ((b.rindex + j) % b.size) 0)).sum : Nat)) := by
  have hs' : b.size < 4294967296 := by norm_num at hs; exact hs
  refine ⟨fun k acc => circBufMeanLoop_snd k b acc hs' hr,
    circBufMeanLoop_full_cycle b 0 hs' hr, ?_, ?_, ?_⟩
  · intro res h
    rw [circBufMean_snd b res h, circBufMeanLoop_full_cycle b 0 hs' hr]
  · intro hne
    apply circBufMean_isSome
    norm_num at hne
    unfold toUint32
    omega
  · intro hcap hlen hd
    norm_num at hcap hd
    rw [circBufMeanLoop_eq b.size b 0 hs' hr hd (le_refl _) (by omega)]
    simp

/-- Witness for C26: capacity 4, read cursor 2, write cursor 1. -/
theorem circBufMean_frame_witness :
    (circBufMeanLoop 4 ⟨4, 1, 2, [1, 2, 3, 4]⟩ 0).2 = ⟨4, 1, 2, [1, 2, 3, 4]⟩ :=
  (circBufMean_frame ⟨4, 1, 2, [1, 2, 3, 4]⟩ (by decide) (by decide) (by decide)).2.1

/-- C27: on a buffer of capacity `N ≥ 1` with write cursor below `N`,
`writeCircBuf` stores the value at the write cursor and advances the cursor
modulo `N`, leaving every other slot, the read cursor and the capacity
unchanged; the slot it overwrites is the oldest one. After any sequence of
`k ≥ N` writes of `uint32_t` values the `N` slots hold exactly the `N` most
recently written values (in writing order when read from the write cursor),
and `circBufMean` returns the round-half-up mean `(2*S + N) / (2*N)` of those
last `N` values. -/
theorem writeCircBuf_keeps_last_values (b : circBuf_t) (vs : List Nat) (v : Nat)
    (hN : 1 ≤ b.size) (hcap : b.size < 2 ^ 30) (hlen : b.data.length = b.size)
    (hw : b.windex < b.size) (hr : b.rindex < b.size)
    (hv : ∀ x ∈ vs, x < 2 ^ 32) (hk : b.size ≤ vs.length) :
    ((writeCircBuf b v).data.getD b.windex 0 = v
      ∧ (∀ i, i ≠ b.windex → (writeCircBuf b v).data.getD i 0 = b.data.getD i 0)
      ∧ (writeCircBuf b v).windex = (b.windex + 1) % b.size
      ∧ (writeCircBuf b v).rindex = b.rindex
      ∧ (writeCircBuf b v).size = b.size
      ∧ slotsOldestFirst (writeCircBuf b v) = (slotsOldestFirst b).tail ++ [v])
    ∧ slotsOldestFirst (vs.foldl writeCircBuf b) = vs.drop (vs.length - b.size)
    ∧ (vs.foldl writeCircBuf b).data.Perm (vs.drop (vs.length - b.size))
    ∧ circBufMean (vs.foldl writeCircBuf b)
        = some ((2 * (vs.drop (vs.length - b.size)).sum + b.size) / (2 * b.size),
            vs.foldl writeCircBuf b) := by
  have hcap' : b.size < 1073741824 := by norm_num at hcap; exact hcap
  have hs : b.size < 4294967296 := by omega
  have hwl : b.windex < b.data.length := by omega
  obtain ⟨a1, a2, a3, a4, a5⟩ := slotsOldestFirst_writes vs b hs hw hlen
  have hold : (slotsOldestFirst b).length = b.size := by
    unfold slotsOldestFirst
    simp only [List.length_append, List.length_drop, List.length_take]
    omega
  have hlast : slotsOldestFirst (vs.foldl writeCircBuf b) = vs.drop (vs.length - b.size) := by
    rw [a1, List.drop_append_eq_append_drop, List.drop_eq_nil_of_le (by omega), hold]
    simp
  have hperm : (vs.foldl writeCircBuf b).data.Perm (slotsOldestFirst (vs.foldl writeCircBuf b)) := by
    unfold slotsOldestFirst
    have h := List.take_append_drop (vs.foldl writeCircBuf b).windex (vs.foldl writeCircBuf b).data
    exact (List.Perm.of_eq h.symm).trans List.perm_append_comm
  have hd : ∀ x ∈ (vs.foldl writeCircBuf b).data, x < 4294967296 := by
    intro x hx
    have hx2 := mem_slotsOldestFirst _ x hx
    rw [hlast] at hx2
    have := hv x (List.mem_of_mem_drop hx2)
    norm_num at this
    exact this
  refine ⟨⟨?_, ?_, ?_, ?_, ?_, slotsOldestFirst_write b v hs hw hlen⟩, hlast, ?_, ?_⟩
  · rw [writeCircBuf_eq b v hs hw]
    simp [List.getD_eq_getElem?_getD, List.getElem?_set, hwl]
  · intro i hi
    rw [writeCircBuf_eq b v hs hw]
    simp [List.getD_eq_getElem?_getD, List.getElem?_set, Ne.symm hi]
  · rw [writeCircBuf_eq b v hs hw]
  · rw [writeCircBuf_eq b v hs hw]
  · rw [writeCircBuf_eq b v hs hw]
  · rw [← hlast]
    exact hperm
  · rw [circBufMean_eq (vs.foldl writeCircBuf b) (by rw [a2]; exact hN)
      (by rw [a2]; exact hcap') (by rw [a4, a2]) (by rw [a3, a2]; exact hr) hd]
    rw [a2, ← slotsOldestFirst_sum, hlast]

/-- Witness for C27: capacity 3, write cursor 1, five writes: the slots hold
3, 4, 5. -/
theorem writeCircBuf_keeps_last_values_witness :
    slotsOldestFirst ([1, 2, 3, 4, 5].foldl writeCircBuf ⟨3, 1, 0, [9, 9, 9]⟩)
      = [1, 2, 3, 4, 5].drop (5 - 3) :=
  (writeCircBuf_keeps_last_values ⟨3, 1, 0, [9, 9, 9]⟩ [1, 2, 3, 4, 5] 7 (by decide)
    (by decide) (by decide) (by decide) (by decide) (by decide) (by decide)).2.1

/-! ## Verified properties: flight supervisor, LANDING -/

/-- C21: on a supervisor tick in state LANDING on which the flight switch does
not report ACTIVATED, if `|yawDifference(0, currentYaw)| < 3`
(`YAW_LANDING_TOLERANCE`) and `currentAlt <= 3` (`LANDING_MAX_ALT`), the next
state is IDLE, for every value of target altitude, of target yaw, of both
debounce counters and of the entry flag. -/
theorem updateStateLanding_touchdown (justChangedState : Bool) (s : HeliState)
    (hsw : (checkButton s.buttons SLIDE_RIGHT).1 ≠ butStates.PUSHED)
    (hyaw : ((yawDifference 0 s.g_currentYaw).natAbs : Int) < YAW_LANDING_TOLERANCE)
    (halt : s.g_currentAlt ≤ LANDING_MAX_ALT) :
    (updateStateLanding justChangedState s).1 = heliState_t.IDLE := by
  obtain ⟨e, he, _, _, hcy, hca, _, _⟩ := updateStateLanding_not_pushed justChangedState s hsw
  obtain ⟨_, hfy, hfa, _⟩ := landingYawStep_frame e
  rw [he, (landingDescend_state (landingYawStep e)).1, hfy, hfa, hcy, hca]
  unfold YAW_LANDING_TOLERANCE at hyaw
  unfold LANDING_MAX_ALT at halt
  rw [if_pos ⟨by omega, halt⟩]

/-- Witness for C21: yaw reading 359 (one degree from the reference), altitude
reading 3, target altitude still 50, target yaw 40 and both counters at 7. -/
theorem updateStateLanding_touchdown_witness :
    (updateStateLanding false
      { groundState with
        g_state := heliState_t.LANDING
        g_flightModeActive := true
        g_targetAlt := 50
        g_targetYaw := 40
        g_yawDebounce := 7
        g_altDebounce := 7
        g_currentYaw := 359
        g_currentAlt := 3 }).1 = heliState_t.IDLE :=
  updateStateLanding_touchdown false
    { groundState with
      g_state := heliState_t.LANDING
      g_flightModeActive := true
      g_targetAlt := 50
      g_targetYaw := 40
      g_yawDebounce := 7
      g_altDebounce := 7
      g_currentYaw := 359
      g_currentAlt := 3 } (by decide) (by decide) (by decide)

/-- C22: a tick of `updateStateLanding` on a target yaw `t` in `[0,360)` leaves
a target yaw in `[0,360)`; when the tick changes it, `t` is not 0, the new value
is `max(0, t - 30)` for `0 < t <= 180` and `t + 30`, replaced by 0 when that
reaches 360, for `t > 180`, the angular distance of the new value to 0 is
strictly smaller than that of `t`, and the new value lies on the same side of 0
as `t` or at 0. A target yaw of 0 is left at 0. -/
theorem updateStateLanding_targetYaw (justChangedState : Bool) (s : HeliState)
    (ht : s.g_targetYaw < 360) :
    (updateStateLanding justChangedState s).2.g_targetYaw < 360
    ∧ ((updateStateLanding justChangedState s).2.g_targetYaw ≠ s.g_targetYaw →
        s.g_targetYaw ≠ 0
        ∧ (s.g_targetYaw ≤ 180 →
            ((updateStateLanding justChangedState s).2.g_targetYaw : Int)
              = max 0 ((s.g_targetYaw : Int) - 30))
        ∧ (180 < s.g_targetYaw →
            (updateStateLanding justChangedState s).2.g_targetYaw
              = (if 360 ≤ s.g_targetYaw + 30 then 0 else s.g_targetYaw + 30))
        ∧ (yawDifference 0 (updateStateLanding justChangedState s).2.g_targetYaw).natAbs
            < (yawDifference 0 s.g_targetYaw).natAbs
        ∧ (yawDifference 0 s.g_targetYaw < 0 →
            yawDifference 0 (updateStateLanding justChangedState s).2.g_targetYaw ≤ 0)
        ∧ (0 < yawDifference 0 s.g_targetYaw →
            0 ≤ yawDifference 0 (updateStateLanding justChangedState s).2.g_targetYaw))
    ∧ (s.g_targetYaw = 0 → (updateStateLanding justChangedState s).2.g_targetYaw = 0) := by
  by_cases hsw : (checkButton s.buttons SLIDE_RIGHT).1 = butStates.PUSHED
  · obtain ⟨_, _, h⟩ := updateStateLanding_pushed justChangedState s hsw
    rw [h]
    exact ⟨ht, fun hne => absurd rfl hne, fun h0 => h0⟩
  · obtain ⟨e, he, hty, _⟩ := updateStateLanding_not_pushed justChangedState s hsw
    have hstep := landingYawStep_targetYaw e (by rw [hty]; exact ht)
    rw [he, (landingDescend_state (landingYawStep e)).2, hstep, hty]
    generalize (yawDifference s.g_targetYaw e.g_currentYaw).natAbs = a
    generalize (e.g_yawDebounce + 1) % 256 = d
    generalize s.g_targetYaw = t at ht ⊢
    unfold yawDifference
    dsimp only
    split_ifs <;> omega

/-- Witness for C22: from target yaw 200 with the yaw error within tolerance
and the debounce counter at 15, the tick steps target yaw to 230, which is
nearer to 0 than 200. -/
theorem updateStateLanding_targetYaw_witness :
    (yawDifference 0 (updateStateLanding false
        { groundState with
          g_state := heliState_t.LANDING
          g_flightModeActive := true
          g_targetYaw := 200
          g_currentYaw := 201
          g_yawDebounce := 15
          g_targetAlt := 50
          g_currentAlt := 50 }).2.g_targetYaw).natAbs
      < (yawDifference 0 200).natAbs :=
  ((updateStateLanding_targetYaw false
    { groundState with
      g_state := heliState_t.LANDING
      g_flightModeActive := true
      g_targetYaw := 200
      g_currentYaw := 201
      g_yawDebounce := 15
      g_targetAlt := 50
      g_currentAlt := 50 } (by decide)).2.1 (by decide)).2.2.2.1

/-- C23: on a tick of `updateStateLanding`, target altitude `t` (a `uint8_t`)
becomes `max(0, t - 10)` when the flight switch reports no ACTIVATED event,
`|yawDifference(0, currentYaw)| < 3`, `currentAlt > 3`, `|t - currentAlt| < 8`
and the altitude debounce counter, incremented on this tick (as a `uint8_t`,
from 0 on an entry tick), exceeds 10; in every other case it is unchanged. So
target altitude never increases. With yaw within tolerance and `currentAlt > 3`
but the altitude error out of tolerance the counter is reset to 0. -/
theorem updateStateLanding_targetAlt (justChangedState : Bool) (s : HeliState)
    (ht : s.g_targetAlt ≤ 255) :
    (((checkButton s.buttons SLIDE_RIGHT).1 ≠ butStates.PUSHED
        ∧ (yawDifference 0 s.g_currentYaw).natAbs < 3 ∧ 3 < s.g_currentAlt
        ∧ ((s.g_targetAlt : Int) - s.g_currentAlt).natAbs < 8
        ∧ 10 < ((if justChangedState then 0 else s.g_altDebounce) + 1) % 256) →
      ((updateStateLanding justChangedState s).2.g_targetAlt : Int)
        = max 0 ((s.g_targetAlt : Int) - 10))
    ∧ (¬ ((checkButton s.buttons SLIDE_RIGHT).1 ≠ butStates.PUSHED
        ∧ (yawDifference 0 s.g_currentYaw).natAbs < 3 ∧ 3 < s.g_currentAlt
        ∧ ((s.g_targetAlt : Int) - s.g_currentAlt).natAbs < 8
        ∧ 10 < ((if justChangedState then 0 else s.g_altDebounce) + 1) % 256) →
      (updateStateLanding justChangedState s).2.g_targetAlt = s.g_targetAlt)
    ∧ (updateStateLanding justChangedState s).2.g_targetAlt ≤ s.g_targetAlt
    ∧ ((checkButton s.buttons SLIDE_RIGHT).1 ≠ butStates.PUSHED →
        (yawDifference 0 s.g_currentYaw).natAbs < 3 → 3 < s.g_currentAlt →
        ¬ ((s.g_targetAlt : Int) - s.g_currentAlt).natAbs < 8 →
        (updateStateLanding justChangedState s).2.g_altDebounce = 0) := by
  by_cases hsw : (checkButton s.buttons SLIDE_RIGHT).1 = butStates.PUSHED
  · obtain ⟨_, h, _⟩ := updateStateLanding_pushed justChangedState s hsw
    rw [h]
    exact ⟨fun hc => absurd hsw hc.1, fun _ => rfl, le_refl _, fun hc => absurd hsw hc⟩
  · obtain ⟨e, he, _, hta, hcy, hca, _, had⟩ :=
      updateStateLanding_not_pushed justChangedState s hsw
    obtain ⟨hfta, hfy, hfa, hfd⟩ := landingYawStep_frame e
    obtain ⟨hstep, hreset⟩ := landingDescend_targetAlt (landingYawStep e)
      (by rw [hfta, hta]; exact ht)
    rw [hfta, hfy, hfa, hfd, hta, hcy, hca, had] at hstep
    rw [hfta, hfy, hfa, hta, hcy, hca] at hreset
    rw [he, hstep]
    refine ⟨?_, ?_, ?_, fun _ => hreset⟩
    · intro hc
      rw [if_pos hc.2]
      omega
    · intro hc
      rw [if_neg (fun h => hc ⟨hsw, h⟩)]
    · split_ifs <;> omega

/-- Witness for C23: target altitude 50, altitude reading 52, yaw reading 1 and
the altitude debounce counter at 10: the tick steps target altitude to 40. -/
theorem updateStateLanding_targetAlt_witness :
    ((updateStateLanding false
        { groundState with
          g_state := heliState_t.LANDING
          g_flightModeActive := true
          g_currentYaw := 1
          g_altDebounce := 10
          g_targetAlt := 50
          g_currentAlt := 52 }).2.g_targetAlt : Int) = max 0 (50 - 10) :=
  (updateStateLanding_targetAlt false
    { groundState with
      g_state := heliState_t.LANDING
      g_flightModeActive := true
      g_currentYaw := 1
      g_altDebounce := 10
      g_targetAlt := 50
      g_currentAlt := 52 } (by decide)).1 (by decide)

/-! ## Verified properties: control interrupt -/

/-- C24 as stated fails in both directions, on states left by a supervisor
tick (on the platform `binary64`). After the IDLE tick that sees the flight
switch pushed, the supervisor state is TAKING_OFF and the altitude error is 10,
yet `controllerIntHandler` changes nothing (the flag is set only by the entry
action of the next tick). After the LANDING tick that touches down, the
supervisor state is IDLE, yet `controllerIntHandler` runs the update (the flag
is still set): the previous error of the altitude controller goes from 0 to 7. -/
theorem controllerIntHandler_state_counterexample :
    (∃ c, supervisorTick true [] switchOnState = some c
      ∧ c.2.g_state = heliState_t.TAKING_OFF
      ∧ ((c.2.g_targetAlt : Int) - c.2.g_currentAlt) = 10
      ∧ controllerIntHandler binary64 c.2 = some c.2
      ∧ c.2.altController.errorPrevious = 0)
    ∧ (∃ c u, supervisorTick false [] touchdownState = some c
      ∧ c.2.g_state = heliState_t.IDLE
      ∧ controllerIntHandler binary64 c.2 = some u
      ∧ c.2.altController.errorPrevious = 0
      ∧ u.altController.errorPrevious = 7
      ∧ u.altController ≠ c.2.altController) := by
  refine ⟨⟨_, rfl, rfl, rfl, rfl, rfl⟩, ?_⟩
  obtain ⟨ca, cy, _, _, hact⟩ := controllerIntHandler_active binary64
    { (updateStateLanding false touchdownState).2 with g_state := heliState_t.IDLE } rfl
    g_deltaT_binary64.2
  have h7 : (({ (updateStateLanding false touchdownState).2 with
      g_state := heliState_t.IDLE } : HeliState).g_targetAlt : Int)
      - ({ (updateStateLanding false touchdownState).2 with
      g_state := heliState_t.IDLE } : HeliState).g_currentAlt = 7 := rfl
  refine ⟨_, _, rfl, rfl, hact, rfl, ?_, ?_⟩
  · show ((((({ (updateStateLanding false touchdownState).2 with
        g_state := heliState_t.IDLE } : HeliState).g_targetAlt : Int)
        - ({ (updateStateLanding false touchdownState).2 with
        g_state := heliState_t.IDLE } : HeliState).g_currentAlt : Int) : ℚ)) = 7
    rw [h7]
    norm_num
  · intro hcon
    have h := congrArg pidController_t.errorPrevious hcon
    have h2 : ((((({ (updateStateLanding false touchdownState).2 with
        g_state := heliState_t.IDLE } : HeliState).g_targetAlt : Int)
        - ({ (updateStateLanding false touchdownState).2 with
        g_state := heliState_t.IDLE } : HeliState).g_currentAlt : Int) : ℚ)) = (0 : ℚ) := h
    rw [h7] at h2
    norm_num at h2

/-- C24 amended: `controllerIntHandler` decides from the flight-active flag,
whatever the supervisor state. With the flag clear it changes nothing: neither
controller is updated and no duty cycle is stored. With the flag set it calls
`pidUpdate` on the altitude controller with error `targetAlt - currentAlt` and
on the yaw controller with `yawDifference(targetYaw, currentYaw)` stored in an
`int16_t` (for bearings in `[0,360)` that is `yawDifference` itself), both with
`dt` the `double` quotient `1.0 / 100`; both controllers are then the updated
ones (previous error the new error, integrated error the rounded sum of the old
one and the rounded product of error and `dt`) and the main and tail duty
cycles are the two control values converted to `uint32_t` and limited to
`[2,98]`. This holds for finite `double` values, for every rounding of the
`double` operations under which the quotient `1.0 / 100` is not zero, and
whatever the platform stores for a conversion that C leaves undefined (a control
value of -1 or less, or of 2^32 or more); inside that range the conversion is
the truncation. -/
theorem controllerIntHandler_by_flag (fp : doubleArith) (s : HeliState) :
    (s.g_flightModeActive = false → controllerIntHandler fp s = some s)
    ∧ (s.g_flightModeActive = true → fp.round (1 / 100) ≠ 0 →
        ∃ altControl yawControl : ℚ,
          (pidUpdateDouble fp s.altController
              (((s.g_targetAlt : Int) - s.g_currentAlt : Int) : ℚ)
              (fp.round (1 / 100))).1 = some altControl
          ∧ (pidUpdateDouble fp s.yawController
              ((toInt16 (yawDifference s.g_targetYaw s.g_currentYaw) : Int) : ℚ)
              (fp.round (1 / 100))).1 = some yawControl
          ∧ controllerIntHandler fp s
            = some { s with
                altController := (pidUpdateDouble fp s.altController
                  (((s.g_targetAlt : Int) - s.g_currentAlt : Int) : ℚ)
                  (fp.round (1 / 100))).2
                yawController := (pidUpdateDouble fp s.yawController
                  ((toInt16 (yawDifference s.g_targetYaw s.g_currentYaw) : Int) : ℚ)
                  (fp.round (1 / 100))).2
                motors :=
                  { s.motors with
                    g_mainDC := min 98 (max 2 (doubleToUint32In fp altControl))
                    g_tailDC := min 98 (max 2 (doubleToUint32In fp yawControl)) } })
    ∧ (s.g_targetYaw < 360 → s.g_currentYaw < 360 →
        toInt16 (yawDifference s.g_targetYaw s.g_currentYaw)
          = yawDifference s.g_targetYaw s.g_currentYaw)
    ∧ (∀ (c : pidController_t) (e dt : ℚ),
        (pidUpdateDouble fp c e dt).2.errorPrevious = e
        ∧ (pidUpdateDouble fp c e dt).2.errorIntegrated
            = fp.round (fp.round c.errorIntegrated + fp.round (e * dt)))
    ∧ (∀ v : ℚ, -1 < v → v < 4294967296 →
        doubleToUint32In fp v = (Rat.floor v).toNat) := by
  refine ⟨controllerIntHandler_inactive fp s, ?_, ?_, fun c e dt => ⟨rfl, rfl⟩, ?_⟩
  · intro h hdt
    have hact := controllerIntHandler_active fp s h (by rw [g_deltaT_eq]; exact hdt)
    rw [g_deltaT_eq] at hact
    exact hact
  · intro ht hc
    unfold toInt16 yawDifference
    dsimp only
    split_ifs <;> omega
  · intro v h1 h2
    unfold doubleToUint32In
    rw [if_pos ⟨h1, h2⟩]

/-- Witness for C24 (amended): on the platform `binary64`, in `descendingState`
(flag set, altitude error -20 on a fresh controller, yaw error 0 with integrated
error `15 - 2^-49`), the handler stores the updated controllers: the altitude
one with integrated error the `double` `-0.2` and previous error -20, the yaw
one unchanged. The altitude control value, about -420.1, is outside the range
of `uint32_t`; it is converted through -420 to `2^32 - 420` and the main duty
cycle is 98. The yaw control value is the `double` product of the integrated
error and the gain `0.2`, which is exactly 3, and the tail duty cycle is 3. -/
theorem controllerIntHandler_by_flag_witness :
    ∃ u, controllerIntHandler binary64 descendingState = some u
      ∧ u.altController = ⟨-3602879701896397 / 18014398509481984, -20, 1, 1 / 2, 1 / 5⟩
      ∧ u.yawController = ⟨8444249301319679 / 562949953421312, 0, 1, 1 / 5, 1 / 5⟩
      ∧ u.motors.g_mainDC = 98 ∧ u.motors.g_tailDC = 3 := by
  obtain ⟨ca, cy, ha, hy, h⟩ := (controllerIntHandler_by_flag binary64 descendingState).2.1 rfl
    (by rw [← g_deltaT_eq]; exact g_deltaT_binary64.2)
  rw [pidUpdateDouble_descending_alt] at ha h
  rw [pidUpdateDouble_descending_yaw] at hy h
  have hca : ca = -3695238678629581 / 8796093022208 := (Option.some.inj ha).symm
  have hcy : cy = 3 := (Option.some.inj hy).symm
  rw [hca, hcy, doubleToUint32In_descending_alt, doubleToUint32In_three] at h
  exact ⟨_, h, rfl, rfl, rfl, rfl⟩

/-! ## Verified properties: range of the targets -/

/-- C25: from a state with target yaw 0 and target altitude 0, such as the
initial one (supervisor state IDLE, first iteration), every state reached by a
run of supervisor ticks has target yaw in `[0,360)` and target altitude in
`[0,100]`, for every choice, before each tick, of the button and switch records,
of the yaw decoder state (calibrated or not) and of the yaw and altitude
readings. Every state so reached has a successor for every further tick input,
except on a TAKING_OFF entry tick whose blocking calibration does not return. -/
theorem supervisorRun_targets_in_range (inputs : List (TickInput × List (Option Nat)))
    (jcs : Bool) (s : HeliState) (hy : s.g_targetYaw = 0) (ha : s.g_targetAlt = 0) :
    (∀ d, supervisorRun inputs (jcs, s) = some d →
        d.2.g_targetYaw < 360 ∧ d.2.g_targetAlt ≤ 100)
    ∧ (∀ d, supervisorRun inputs (jcs, s) = some d →
        ∀ i : TickInput × List (Option Nat),
          (d.2.g_state ≠ heliState_t.TAKING_OFF ∨ d.1 = false
            ∨ (calibrateAltimeter d.2.altimeter i.2).isSome = true) →
          ∃ d2, supervisorRun (inputs ++ [i]) (jcs, s) = some d2) := by
  constructor
  · intro d hd
    exact supervisorRun_targets inputs (jcs, s) d hd (by rw [hy]; decide) (by rw [ha]; decide)
  · intro d hd i hi
    obtain ⟨d2, hd2⟩ := supervisorTick_returns d.1 i.2 (applyTickInput d.2 i.1) hi
    refine ⟨d2, ?_⟩
    rw [supervisorRun_append, hd, Option.some_bind]
    simp only [supervisorRun, hd2, Option.some_bind]

/-- Witness for C25: from `groundState` on the first iteration, a tick with
every input at rest and then a tick with the flight switch pushed reach
TAKING_OFF with target altitude 10. -/
theorem supervisorRun_targets_in_range_witness :
    ∃ d, supervisorRun [(searchInput 0, []), (switchOnInput, [])] (true, groundState) = some d
      ∧ d.2.g_state = heliState_t.TAKING_OFF ∧ d.2.g_targetAlt = 10
      ∧ d.2.g_targetYaw < 360 ∧ d.2.g_targetAlt ≤ 100 :=
  ⟨_, rfl, rfl, rfl,
    (supervisorRun_targets_in_range [(searchInput 0, []), (switchOnInput, [])] true groundState
      rfl rfl).1 _ rfl⟩

/-! ## Verified properties: pending flag after two changes of state -/

/-- C39: `checkButton` reports the stable state held when it is called, not the
changes since the last call. For every input with run counter 0 (with or
without a pending flag), three polls reading the level opposite to the stable state followed by
three polls reading the original level flip the state twice; between them the
state is the opposite one with the flag raised, and afterwards the state is the
original one with the flag still raised. A `checkButton` call then reports a
single event, the one naming the original state (RELEASED when it is the normal
level, PUSHED otherwise), and an immediate second call reports NO_CHANGE. So
for an initially inactive input the first call returns RELEASED and the PUSHED
event is never reported. -/
theorem checkButton_after_double_flip (s : ButtonsState) (i : Fin NUM_BUTS)
    (v1 v2 v3 v4 v5 v6 : Fin NUM_BUTS → Bool)
    (hc : s.but_count i = 0)
    (h1 : v1 i = !s.but_state i) (h2 : v2 i = !s.but_state i) (h3 : v3 i = !s.but_state i)
    (h4 : v4 i = s.but_state i) (h5 : v5 i = s.but_state i) (h6 : v6 i = s.but_state i) :
    ([v1, v2, v3].foldl updateButtons s).but_state i = (!s.but_state i)
    ∧ ([v1, v2, v3].foldl updateButtons s).but_flag i = true
    ∧ ([v1, v2, v3, v4, v5, v6].foldl updateButtons s).but_state i = s.but_state i
    ∧ ([v1, v2, v3, v4, v5, v6].foldl updateButtons s).but_flag i = true
    ∧ (checkButton ([v1, v2, v3, v4, v5, v6].foldl updateButtons s) i).1
        = (if s.but_state i = s.but_normal i then butStates.RELEASED else butStates.PUSHED)
    ∧ (checkButton (checkButton ([v1, v2, v3, v4, v5, v6].foldl updateButtons s) i).2 i).1
        = butStates.NO_CHANGE
    ∧ (s.but_state i = s.but_normal i →
        (checkButton ([v1, v2, v3, v4, v5, v6].foldl updateButtons s) i).1
          = butStates.RELEASED
        ∧ (checkButton ([v1, v2, v3, v4, v5, v6].foldl updateButtons s) i).1
          ≠ butStates.PUSHED) := by
  simp only [List.foldl_cons, List.foldl_nil]
  obtain ⟨a1, a2, a3, a4⟩ := updateButtons_three_flip s i v1 v2 v3 hc h1 h2 h3
  obtain ⟨b1, _, b3, b4⟩ := updateButtons_three_flip
    (updateButtons (updateButtons (updateButtons s v1) v2) v3) i v4 v5 v6 a2
    (by rw [a1, Bool.not_not]; exact h4) (by rw [a1, Bool.not_not]; exact h5)
    (by rw [a1, Bool.not_not]; exact h6)
  rw [a1, Bool.not_not] at b1
  rw [a4] at b4
  have hcheck : (checkButton (updateButtons (updateButtons (updateButtons
      (updateButtons (updateButtons (updateButtons s v1) v2) v3) v4) v5) v6) i).1
      = (if s.but_state i = s.but_normal i then butStates.RELEASED else butStates.PUSHED) := by
    unfold checkButton
    rw [if_pos b3]
    dsimp only
    rw [b1, b4]
    cases s.but_state i <;> cases s.but_normal i <;> rfl
  refine ⟨a1, a3, b1, b3, hcheck, checkButton_twice _ i, ?_⟩
  intro hn
  rw [hcheck, if_pos hn]
  exact ⟨rfl, by decide⟩

/-- Witness for C39: input `UP` (normal level low) at rest; the polls read
high, high, high, low, low, low; `checkButton` then reports RELEASED. -/
theorem checkButton_after_double_flip_witness :
    (checkButton ([fun _ => true, fun _ => true, fun _ => true,
        fun _ => false, fun _ => false, fun _ => false].foldl updateButtons buttonsAtRest)
      UP).1 = butStates.RELEASED :=
  ((checkButton_after_double_flip buttonsAtRest UP (fun _ => true) (fun _ => true)
    (fun _ => true) (fun _ => false) (fun _ => false) (fun _ => false)
    rfl (by decide) (by decide) (by decide) (by decide) (by decide) (by decide)).2.2.2.2.2.2
    (by decide)).1

/-! ## Verified properties: quadrature decoding is reversible -/

/-- C38: for every stored level pair `(A,B)` and counter `c` in `[0,448)`, an
edge event that changes exactly one phase, followed by the edge event that
changes the same phase back, restores the counter to `c` and the stored levels
to `(A,B)`; the two events are decoded with opposite directions (one CW, one
ANTI_CW). This includes the wrap: from 447 a CW event gives 0 and the event
back gives 447, from 0 an ANTI_CW event gives 447 and the event back gives 0. -/
theorem pinChangeIntHandler_reversible (s : YawState) (newStateA newStateB : Bool)
    (h0 : 0 ≤ s.g_pinChangeInterruptCount)
    (h1 : s.g_pinChangeInterruptCount < INTERRUPTS_PER_REV)
    (hone : (newStateA ≠ s.g_stateA ∧ newStateB = s.g_stateB)
      ∨ (newStateA = s.g_stateA ∧ newStateB ≠ s.g_stateB)) :
    (pinChangeIntHandler (pinChangeIntHandler s newStateA newStateB)
        s.g_stateA s.g_stateB).g_pinChangeInterruptCount = s.g_pinChangeInterruptCount
    ∧ (pinChangeIntHandler (pinChangeIntHandler s newStateA newStateB)
        s.g_stateA s.g_stateB).g_stateA = s.g_stateA
    ∧ (pinChangeIntHandler (pinChangeIntHandler s newStateA newStateB)
        s.g_stateA s.g_stateB).g_stateB = s.g_stateB
    ∧ (pinChangeIntHandler (pinChangeIntHandler s newStateA newStateB)
        s.g_stateA s.g_stateB).g_currentDirection
        ≠ (pinChangeIntHandler s newStateA newStateB).g_currentDirection
    ∧ ((pinChangeIntHandler s newStateA newStateB).g_currentDirection
          = yawDirection_t.DIRECTION_CW →
        (pinChangeIntHandler s newStateA newStateB).g_pinChangeInterruptCount
          = (s.g_pinChangeInterruptCount + 1) % 448)
    ∧ ((pinChangeIntHandler s newStateA newStateB).g_currentDirection
          = yawDirection_t.DIRECTION_ANTI_CW →
        (pinChangeIntHandler s newStateA newStateB).g_pinChangeInterruptCount
          = (s.g_pinChangeInterruptCount - 1) % 448) := by
  rw [INTERRUPTS_PER_REV_eq] at h1
  obtain ⟨A, B, c, d, cal⟩ := s
  simp only at h0 h1 hone
  simp only [pinChangeIntHandler, INTERRUPTS_PER_REV_eq, toInt16]
  cases A <;> cases B <;> cases newStateA <;> cases newStateB <;> simp at hone <;> simp <;>
    split_ifs <;> omega

/-- Witness for C38: stored levels (low, low), counter 447; phase B rises (a CW
event, counter 0) and falls again (counter 447). -/
theorem pinChangeIntHandler_reversible_witness :
    (pinChangeIntHandler
      (pinChangeIntHandler ⟨false, false, 447, yawDirection_t.DIRECTION_CW, false⟩ false true)
      false false).g_pinChangeInterruptCount = 447 :=
  (pinChangeIntHandler_reversible ⟨false, false, 447, yawDirection_t.DIRECTION_CW, false⟩
    false true (by decide) (by decide) (by decide)).1

/-! ## Verified properties: a take-off yaw step leaves the tolerance band -/

/-- C40: for all bearings `t` (target yaw) and `y` (current yaw) in `[0,360)`
with `|yawDifference(t, y)| < 15` (`YAW_TAKEOFF_TOLERANCE`), the stepped target
`(t + 30) mod 360` satisfies `|yawDifference(t', y)| >= 15`. Hence, when a
TAKING_OFF tick steps target yaw (no DEACTIVATED switch event, yaw decoder not
calibrated, both errors within tolerance, incremented counter above 15), the
new target is `(t + 30) mod 360`, and the TAKING_OFF tick that follows with the
same yaw reading, no DEACTIVATED switch event and the decoder still not
calibrated stays in TAKING_OFF, resets the debounce counter to 0 and leaves
target yaw as it is, for every altitude reading and every other input. -/
theorem takingOff_step_leaves_tolerance (s : HeliState) (i : TickInput)
    (adc1 adc2 : List (Option Nat))
    (ht : s.g_targetYaw < 360) (hy : s.g_currentYaw < 360)
    (hsw : (checkButton s.buttons SLIDE_RIGHT).1 ≠ butStates.RELEASED)
    (hcal : yawCalibrated_p s.yawmeter = false)
    (hyaw : ((yawDifference s.g_targetYaw s.g_currentYaw).natAbs : Int) < YAW_TAKEOFF_TOLERANCE)
    (halt : (((s.g_targetAlt : Int) - s.g_currentAlt).natAbs : Int) < ALT_TOLERANCE)
    (hd : YAW_MIN_POLLS < (((s.g_yawDebounce + 1) % 256 : Nat) : Int))
    (hi : i.currentYaw = s.g_currentYaw)
    (hisw : (checkButton i.buttons SLIDE_RIGHT).1 ≠ butStates.RELEASED)
    (hical : yawCalibrated_p i.yawmeter = false) :
    15 ≤ (yawDifference ((s.g_targetYaw + 30) % 360) s.g_currentYaw).natAbs
    ∧ ∃ r1, updateStateTakingOff false adc1 s = some r1
      ∧ r1.1 = heliState_t.TAKING_OFF
      ∧ r1.2.g_targetYaw = (s.g_targetYaw + 30) % 360
      ∧ ∃ r2, updateStateTakingOff false adc2 (applyTickInput r1.2 i) = some r2
        ∧ r2.1 = heliState_t.TAKING_OFF
        ∧ r2.2.g_yawDebounce = 0
        ∧ r2.2.g_targetYaw = (s.g_targetYaw + 30) % 360 := by
  unfold YAW_TAKEOFF_TOLERANCE at hyaw
  unfold ALT_TOLERANCE at halt
  unfold YAW_MIN_POLLS at hd
  have hstep := yawDifference_after_step s.g_targetYaw s.g_currentYaw ht hy (by omega)
  obtain ⟨a1, a2, _⟩ := updateStateTakingOffBody_search s hsw hcal ht
  obtain ⟨_, a3, _⟩ := a2 ⟨by omega, by omega⟩
  have a4 := a3 (by omega)
  have hty : (applyTickInput (updateStateTakingOffBody s).2 i).g_targetYaw
      = (s.g_targetYaw + 30) % 360 := a4
  have hcy : (applyTickInput (updateStateTakingOffBody s).2 i).g_currentYaw
      = s.g_currentYaw := hi
  obtain ⟨b1, _, b3⟩ := updateStateTakingOffBody_search
    (applyTickInput (updateStateTakingOffBody s).2 i) hisw hical
    (by rw [hty]; exact Nat.mod_lt _ (by decide))
  obtain ⟨b4, b5⟩ := b3 (by rw [hty, hcy]; omega)
  exact ⟨hstep.1, _, updateStateTakingOff_false adc1 s, a1, a4,
    _, updateStateTakingOff_false adc2 _, b1, b4, by rw [b5, hty]⟩

/-- Witness for C40: target yaw 350, yaw reading 355, counter at 15: the tick
steps target yaw to 20, which is 25 degrees from the reading. -/
theorem takingOff_step_leaves_tolerance_witness :
    15 ≤ (yawDifference ((350 + 30) % 360) 355).natAbs :=
  (takingOff_step_leaves_tolerance
    { groundState with
      g_state := heliState_t.TAKING_OFF
      g_flightModeActive := true
      g_targetYaw := 350
      g_currentYaw := 355
      g_targetAlt := 10
      g_currentAlt := 10
      g_yawDebounce := 15 }
    (searchInput 355) [] [] (by decide) (by decide) (by decide) (by decide) (by decide)
    (by decide) (by decide) rfl (by decide) (by decide)).1

/-! ## Verified properties: altitude floor -/

/-- C33: for every calibration with `high < low` and every 12-bit buffer mean
`rawMean >= low` (a reading at or below the ground baseline),
`getCurrentAltitude` returns exactly 0: the rounded quotient is at most `-100`,
so the percentage before the `MAX` is zero or negative and the `MAX` yields 0,
which is stored unchanged in the `uint16_t` result. -/
theorem getCurrentAltitude_floor (s : AltimeterState) (rawMean : Nat) (buffer : circBuf_t)
    (hmean : circBufMean s.g_altitudeBuffer = some (rawMean, buffer))
    (hraw : rawMean < 2 ^ ADC_WIDTH_BITS)
    (hcal : s.g_maxAltADCValue < s.g_minAltADCValue)
    (hge : s.g_minAltADCValue ≤ rawMean) :
    getCurrentAltitude s = some (0, { s with g_altitudeBuffer := buffer })
    ∧ Int.tdiv
        (2 * (((rawMean : Int) - s.g_maxAltADCValue) * 100)
          - ((s.g_maxAltADCValue : Int) - s.g_minAltADCValue))
        (2 * ((s.g_maxAltADCValue : Int) - s.g_minAltADCValue)) + 100 ≤ 0 := by
  have h12 : 2 ^ ADC_WIDTH_BITS = 4096 := by norm_num [ADC_WIDTH_BITS]
  rw [h12] at hraw
  have hq := tdiv_at_most_neg100 (((rawMean : Int) - s.g_maxAltADCValue) * 100)
    ((s.g_maxAltADCValue : Int) - s.g_minAltADCValue) (by omega) (by omega)
  have hmax : max 0 (Int.tdiv
      (2 * (((rawMean : Int) - s.g_maxAltADCValue) * 100)
        - ((s.g_maxAltADCValue : Int) - s.g_minAltADCValue))
      (2 * ((s.g_maxAltADCValue : Int) - s.g_minAltADCValue)) + 100) = 0 := by
    omega
  refine ⟨?_, by omega⟩
  rw [getCurrentAltitude_eq s rawMean buffer hmean hraw (by omega) (by omega) (by omega)
    (by rw [hmax]; decide), hmax]
  rfl

/-- Witness for C33: calibration `low = 2000`, `high = 1007`, buffer mean 2500
(below the ground baseline): the altitude is 0. -/
theorem getCurrentAltitude_floor_witness :
    getCurrentAltitude ⟨⟨1, 0, 0, [2500]⟩, 1, 2000, 1007⟩
      = some (0, ⟨⟨1, 0, 0, [2500]⟩, 1, 2000, 1007⟩) :=
  (getCurrentAltitude_floor ⟨⟨1, 0, 0, [2500]⟩, 1, 2000, 1007⟩ 2500 ⟨1, 0, 0, [2500]⟩
    (by decide) (by decide) (by decide) (by decide)).1

/-! ## Verified properties: altimeter calibration -/

/-- C31 as stated fails: with the buffer filled with 25 samples of value 2000,
`calibrateAltimeter` sets `low = 2000` and `high = 1007`, which is `low - 993`
and not `low - 992`. -/
theorem calibrateAltimeter_offset_counterexample :
    ∃ a, calibrateAltimeter filledAltimeter [] = some a
      ∧ a.g_minAltADCValue = 2000 ∧ a.g_maxAltADCValue = 1007
      ∧ a.g_maxAltADCValue ≠ a.g_minAltADCValue - 992 :=
  ⟨_, (calibrateAltimeter_eq_some filledAltimeter [] _).mpr
      ⟨filledAltimeter, 2000, ⟨25, 0, 0, List.replicate 25 2000⟩, 1007,
        calibrateAltimeterWait_full [] filledAltimeter (by decide), filledAltimeter_mean,
        doubleToUint32_baseline 2000 (by decide) (by decide), rfl⟩,
    rfl, rfl, by decide⟩

/-- C31 amended: when the wait loop of `calibrateAltimeter` has returned (the
sample count has reached `BUF_SIZE = 25`; at once when it already had),
`calibrateAltimeter` sets `low` to the value of `circBufMean` of the buffer and
`high` to `low` minus the offset `(0.8 * 4096) / 3.3 = 32768/33` evaluated in
`double` arithmetic, the difference being truncated on assignment to the
`uint32_t`: `high = low - 993` for every baseline `low >= 993`. The offset
truncated on its own would be 992. -/
theorem calibrateAltimeter_sets_range (s : AltimeterState) (adc : List (Option Nat))
    (w : AltimeterState) (low : Nat) (b : circBuf_t)
    (hw : calibrateAltimeterWait adc s = some w)
    (hm : circBufMean w.g_altitudeBuffer = some (low, b))
    (hlow : 993 ≤ low) :
    calibrateAltimeter s adc
      = some { w with
          g_altitudeBuffer := b
          g_minAltADCValue := low
          g_maxAltADCValue := low - 993 }
    ∧ BUF_SIZE ≤ w.g_sampleCount
    ∧ (BUF_SIZE ≤ s.g_sampleCount → w = s)
    ∧ (ALTITUDE_RANGE_VOLTS * ((2 ^ ADC_WIDTH_BITS : Nat) : ℚ)) / ADC_RANGE_VOLTS = 32768 / 33
    ∧ Rat.floor (32768 / 33) = 992 := by
  refine ⟨?_, calibrateAltimeterWait_count adc s w hw, ?_, rangeOffset_eq, ?_⟩
  · exact (calibrateAltimeter_eq_some s adc _).mpr
      ⟨w, low, b, low - 993, hw, hm,
        doubleToUint32_baseline low hlow (circBufMean_fst_lt _ _ hm), rfl⟩
  · intro hfull
    rw [calibrateAltimeterWait_full adc s hfull, Option.some.injEq] at hw
    exact hw.symm
  · have e : Rat.floor (32768 / 33) = ⌊(32768 / 33 : ℚ)⌋ := rfl
    rw [e, Int.floor_eq_iff]
    norm_num

/-- Witness for C31 amended: the buffer filled with 25 samples of value 2000
gives `low = 2000`, `high = 1007`. -/
theorem calibrateAltimeter_sets_range_witness :
    calibrateAltimeter filledAltimeter []
      = some { filledAltimeter with
          g_altitudeBuffer := ⟨25, 0, 0, List.replicate 25 2000⟩
          g_minAltADCValue := 2000
          g_maxAltADCValue := 2000 - 993 } :=
  (calibrateAltimeter_sets_range filledAltimeter [] filledAltimeter 2000
    ⟨25, 0, 0, List.replicate 25 2000⟩
    (calibrateAltimeterWait_full [] filledAltimeter (by decide)) filledAltimeter_mean
    (by decide)).1

/-- C32: after `calibrateAltimeter`, for every baseline mean `low >= 993`,
`high` is strictly smaller than `low`: the range `den = high - low` is `-993`,
the divisor `2 * den` computed by `getCurrentAltitude` in `int32_t` is `-1986`,
not zero, and `getCurrentAltitude` has a result in every later module state
with these calibration values whenever `circBufMean` of its buffer has one. -/
theorem calibrateAltimeter_range_nonzero (s : AltimeterState) (adc : List (Option Nat))
    (a : AltimeterState) (h : calibrateAltimeter s adc = some a)
    (hlow : 993 ≤ a.g_minAltADCValue) :
    a.g_maxAltADCValue < a.g_minAltADCValue
    ∧ (a.g_maxAltADCValue : Int) - a.g_minAltADCValue = -993
    ∧ toInt32 (2 * toInt32 (toUint32 ((a.g_maxAltADCValue : Int) - a.g_minAltADCValue)))
        = -1986
    ∧ ∀ c : AltimeterState, c.g_minAltADCValue = a.g_minAltADCValue →
        c.g_maxAltADCValue = a.g_maxAltADCValue →
        (circBufMean c.g_altitudeBuffer).isSome = true →
        (getCurrentAltitude c).isSome = true := by
  obtain ⟨w, low, b, high, _, hm, hd, ha⟩ := (calibrateAltimeter_eq_some s adc a).mp h
  have hamin : a.g_minAltADCValue = low := by rw [ha]
  have hamax : a.g_maxAltADCValue = high := by rw [ha]
  rw [hamin] at hlow
  have hhigh : high = low - 993 := by
    have := doubleToUint32_baseline low hlow (circBufMean_fst_lt _ _ hm)
    rw [hd, Option.some.injEq] at this
    exact this
  have hden : (high : Int) - (low : Int) = -993 := by omega
  have hdiv : toInt32 (2 * toInt32 (toUint32 ((high : Int) - (low : Int)))) = -1986 := by
    rw [hden]
    decide
  rw [hamin, hamax]
  refine ⟨by omega, hden, hdiv, ?_⟩
  intro c hmin hmax hsome
  obtain ⟨r, hr⟩ := Option.isSome_iff_exists.mp hsome
  have hc : ∀ X : Int,
      cdiv X (toInt32 (2 * toInt32 (toUint32 ((c.g_maxAltADCValue : Int) - c.g_minAltADCValue))))
        = some (Int.tdiv X (-1986)) := by
    intro X
    rw [hmin, hmax, hdiv]
    unfold cdiv
    rw [if_neg (by decide)]
  unfold getCurrentAltitude
  rw [hr, Option.some_bind]
  simp only [hc, Option.map_some', Option.isSome_some]

/-- Witness for C32: after the calibration of the buffer filled with the value
2000 (`low = 2000`, `high = 1007`), `getCurrentAltitude` has a result. -/
theorem calibrateAltimeter_range_nonzero_witness :
    (getCurrentAltitude
      { filledAltimeter with g_minAltADCValue := 2000, g_maxAltADCValue := 1007 }).isSome
      = true :=
  (calibrateAltimeter_range_nonzero filledAltimeter []
    { filledAltimeter with
      g_altitudeBuffer := ⟨25, 0, 0, List.replicate 25 2000⟩
      g_minAltADCValue := 2000
      g_maxAltADCValue := 1007 }
    ((calibrateAltimeter_eq_some filledAltimeter [] _).mpr
      ⟨filledAltimeter, 2000, ⟨25, 0, 0, List.replicate 25 2000⟩, 1007,
        calibrateAltimeterWait_full [] filledAltimeter (by decide), filledAltimeter_mean,
        doubleToUint32_baseline 2000 (by decide) (by decide), rfl⟩)
    (by decide)).2.2.2
    { filledAltimeter with g_minAltADCValue := 2000, g_maxAltADCValue := 1007 } rfl rfl
    ((congrArg Option.isSome filledAltimeter_mean).trans rfl)

/-! ## Verified properties: supervisor transitions and the flight-active flag -/

/-- C35: a single supervisor tick only takes one of these transitions:
IDLE to IDLE or TAKING_OFF; TAKING_OFF to TAKING_OFF, IDLE or FLYING; FLYING to
FLYING or LANDING; LANDING to LANDING, FLYING or IDLE. In particular, for every
input, no tick goes from FLYING to IDLE, nor from IDLE to FLYING or LANDING.
The tick returns in every state except on a TAKING_OFF entry tick whose
blocking calibration does not return. -/
theorem supervisorTick_transitions (justChangedState : Bool) (adc : List (Option Nat))
    (s : HeliState) :
    (∀ c, supervisorTick justChangedState adc s = some c →
        (s.g_state = heliState_t.IDLE →
          c.2.g_state = heliState_t.IDLE ∨ c.2.g_state = heliState_t.TAKING_OFF)
        ∧ (s.g_state = heliState_t.TAKING_OFF →
          c.2.g_state = heliState_t.TAKING_OFF ∨ c.2.g_state = heliState_t.IDLE
            ∨ c.2.g_state = heliState_t.FLYING)
        ∧ (s.g_state = heliState_t.FLYING →
          c.2.g_state = heliState_t.FLYING ∨ c.2.g_state = heliState_t.LANDING)
        ∧ (s.g_state = heliState_t.LANDING →
          c.2.g_state = heliState_t.LANDING ∨ c.2.g_state = heliState_t.FLYING
            ∨ c.2.g_state = heliState_t.IDLE)
        ∧ ¬ (s.g_state = heliState_t.FLYING ∧ c.2.g_state = heliState_t.IDLE)
        ∧ ¬ (s.g_state = heliState_t.IDLE
            ∧ (c.2.g_state = heliState_t.FLYING ∨ c.2.g_state = heliState_t.LANDING))
        ∧ c.1 = decide (c.2.g_state ≠ s.g_state))
    ∧ ((s.g_state ≠ heliState_t.TAKING_OFF ∨ justChangedState = false
          ∨ (calibrateAltimeter s.altimeter adc).isSome = true) →
        ∃ c, supervisorTick justChangedState adc s = some c) := by
  refine ⟨?_, supervisorTick_returns justChangedState adc s⟩
  intro c h
  obtain ⟨hj, _, hI, hT, hF, hL⟩ := supervisorTick_step justChangedState adc s c h
  refine ⟨fun hh => (hI hh).1, fun hh => (hT hh).1, fun hh => (hF hh).1,
    fun hh => (hL hh).1, ?_, ?_, hj⟩
  · rintro ⟨hs, hc⟩
    rcases (hF hs).1 with k | k <;> rw [hc] at k <;> exact absurd k (by decide)
  · rintro ⟨hs, hc⟩
    rcases (hI hs).1 with k | k <;> rcases hc with hc | hc <;> rw [hc] at k <;>
      exact absurd k (by decide)

/-- Witness for C35: in FLYING with the flight switch just released the tick
goes to LANDING. -/
theorem supervisorTick_transitions_witness :
    ∃ c, supervisorTick false []
        { groundState with
          g_state := heliState_t.FLYING
          g_flightModeActive := true
          buttons := buttonsReleased SLIDE_RIGHT } = some c
      ∧ (c.2.g_state = heliState_t.FLYING ∨ c.2.g_state = heliState_t.LANDING) :=
  ⟨_, rfl,
    ((supervisorTick_transitions false []
      { groundState with
        g_state := heliState_t.FLYING
        g_flightModeActive := true
        buttons := buttonsReleased SLIDE_RIGHT }).1 _ rfl).2.2.1 rfl⟩

/-- C36: in every configuration reached by a run of supervisor ticks from an
initial one with supervisor state IDLE and `justChangedState` true (the
flight-active flag is clear initially, which the proof does not need, since the
IDLE entry action clears it): if the state is FLYING or LANDING the
flight-active flag is set; whenever `justChangedState` is false the flag is set if and only
if the state is not IDLE; so the flag disagrees with the state only when
`justChangedState` is true and the state is IDLE or TAKING_OFF, that is between
a transition into one of them and the entry action of the following tick. A
control tick changes neither the state nor the flag, on any platform. -/
theorem supervisorRun_flag_follows_state (inputs : List (TickInput × List (Option Nat)))
    (s d : HeliState) (justChangedState : Bool)
    (hst : s.g_state = heliState_t.IDLE)
    (hrun : supervisorRun inputs (true, s) = some (justChangedState, d)) :
    ((d.g_state = heliState_t.FLYING ∨ d.g_state = heliState_t.LANDING) →
        d.g_flightModeActive = true)
    ∧ (justChangedState = false →
        (d.g_flightModeActive = true ↔ d.g_state ≠ heliState_t.IDLE))
    ∧ (¬ (d.g_flightModeActive = true ↔ d.g_state ≠ heliState_t.IDLE) →
        justChangedState = true
        ∧ (d.g_state = heliState_t.IDLE ∨ d.g_state = heliState_t.TAKING_OFF))
    ∧ (∀ (fp : doubleArith) (u : HeliState), controllerIntHandler fp d = some u →
        u.g_state = d.g_state ∧ u.g_flightModeActive = d.g_flightModeActive) := by
  obtain ⟨k1, k2⟩ := supervisorRun_flag_inv inputs (true, s) (justChangedState, d) hrun
    (fun h => Bool.noConfusion h)
    (fun h => by rcases h with h | h <;> rw [hst] at h <;> exact absurd h (by decide))
  refine ⟨k2, k1, ?_, fun fp u hu =>
    ⟨(controllerIntHandler_frame fp d u hu).1, (controllerIntHandler_frame fp d u hu).2.1⟩⟩
  intro hne
  have hj : justChangedState = true := by
    cases justChangedState
    · exact absurd (k1 rfl) hne
    · rfl
  refine ⟨hj, ?_⟩
  cases hd : d.g_state
  · exact Or.inl rfl
  · exact Or.inr rfl
  · exact absurd (by rw [k2 (Or.inl hd), hd]; simp) hne
  · exact absurd (by rw [k2 (Or.inr hd), hd]; simp) hne

/-- Witness for C36: from `groundState`, a tick with every input at rest and
then a tick with the flight switch pushed reach TAKING_OFF with
`justChangedState` true and the flag still clear. -/
theorem supervisorRun_flag_follows_state_witness :
    ∃ d, supervisorRun [(searchInput 0, []), (switchOnInput, [])] (true, groundState)
        = some (true, d)
      ∧ d.g_state = heliState_t.TAKING_OFF ∧ d.g_flightModeActive = false
      ∧ ((d.g_state = heliState_t.FLYING ∨ d.g_state = heliState_t.LANDING) →
          d.g_flightModeActive = true) :=
  ⟨_, rfl, rfl, rfl,
    (supervisorRun_flag_follows_state [(searchInput 0, []), (switchOnInput, [])]
      groundState _ true rfl rfl).1⟩

/-! ## Verified properties: the yaw calibrated flag is monotone -/

/-- C37: a reference event (with the reference interrupt enabled) sets the yaw
calibrated flag, and once the flag is set it stays set along every run of edge
events, reference events and loop iterations. Consequently, in every
configuration reached from a calibrated one with supervisor state TAKING_OFF,
a loop iteration on which the flight switch reports no DEACTIVATED event goes
to FLYING with target yaw 0 and without touching the yaw debounce counter (0
after the entry action on an entry tick): no yaw search is performed. That
iteration returns when it is not an entry tick, and on an entry tick when the
blocking calibration of the altimeter returns. -/
theorem yawCalibrated_monotone (events : List heliEvent) (c d : Bool × HeliState)
    (hcal : yawCalibrated_p c.2.yawmeter = true) (hrun : eventRun events c = some d) :
    yawCalibrated_p d.2.yawmeter = true
    ∧ (∀ c0 c1 : Bool × HeliState, c0.2.yawRefIntEnabled = true →
        eventStep c0 heliEvent.reference = some c1 → yawCalibrated_p c1.2.yawmeter = true)
    ∧ (d.2.g_state = heliState_t.TAKING_OFF →
        ∀ (buttons : ButtonsState) (currentAlt : Int) (adc : List (Option Nat)),
          (checkButton buttons SLIDE_RIGHT).1 ≠ butStates.RELEASED →
          ((d.1 = false ∨ (calibrateAltimeter d.2.altimeter adc).isSome = true) →
            ∃ e, eventStep d (heliEvent.tick buttons currentAlt adc) = some e)
          ∧ (∀ e, eventStep d (heliEvent.tick buttons currentAlt adc) = some e →
              e.2.g_state = heliState_t.FLYING ∧ e.2.g_targetYaw = 0
              ∧ e.2.g_yawDebounce = (if d.1 then 0 else d.2.g_yawDebounce)
              ∧ e.1 = true)) := by
  have hd := eventRun_calibrated events c d hrun hcal
  refine ⟨hd, ?_, ?_⟩
  · intro c0 c1 hen h
    simp only [eventStep, Option.some.injEq] at h
    subst h
    dsimp only
    rw [if_pos hen]
    rfl
  · intro hst buttons currentAlt adc hsw
    constructor
    · intro hret
      exact supervisorTick_returns d.1 adc
        { d.2 with
          buttons := buttons
          g_currentAlt := currentAlt
          g_currentYaw := getCurrentYaw d.2.yawmeter }
        (by rcases hret with h | h
            · exact Or.inr (Or.inl h)
            · exact Or.inr (Or.inr h))
    · intro e he
      simp only [eventStep] at he
      obtain ⟨r, hr, k1, k2, k3, k4⟩ := supervisorTick_takingOff d.1 adc
        { d.2 with
          buttons := buttons
          g_currentAlt := currentAlt
          g_currentYaw := getCurrentYaw d.2.yawmeter } e hst he
      obtain ⟨e0, he0, rfl⟩ := (updateStateTakingOff_eq_some _ _ _ _).mp hr
      obtain ⟨hb, hy, _, _, _, _, _, hdeb⟩ := updateStateTakingOffEntry_fields _ _ _ _ he0
      obtain ⟨g1, _⟩ := updateStateTakingOffEntry_flag _ _ _ _ he0
      have hsw0 : (checkButton e0.buttons SLIDE_RIGHT).1 ≠ butStates.RELEASED := by
        rw [hb]; exact hsw
      have hcal0 : yawCalibrated_p e0.yawmeter = true := by
        rw [hy]; exact hd
      obtain ⟨b1, b2, _⟩ := updateStateTakingOffBody_calibrated e0 hsw0 hcal0
      have b3 := updateStateTakingOffBody_calibrated_debounce e0 hsw0 hcal0
      obtain ⟨_, f2, _⟩ := updateStateTakingOffBody_frame e0
      refine ⟨by rw [k1, b1], by rw [k3, b2], by rw [k4, b3, hdeb], ?_⟩
      rw [k2, b1, f2, g1]
      show decide (heliState_t.FLYING ≠ d.2.g_state) = true
      rw [hst]
      rfl

/-- Witness for C37: from `groundState` after a reference event, an edge event,
a second reference event and a loop iteration in IDLE leave the flag set. -/
theorem yawCalibrated_monotone_witness :
    ∃ d, eventRun
        [heliEvent.edge true false, heliEvent.reference, heliEvent.tick buttonsAtRest 0 []]
        (false, { groundState with yawmeter := yawRefIntHandler groundState.yawmeter })
        = some d
      ∧ yawCalibrated_p d.2.yawmeter = true :=
  ⟨_, rfl,
    (yawCalibrated_monotone
      [heliEvent.edge true false, heliEvent.reference, heliEvent.tick buttonsAtRest 0 []]
      (false, { groundState with yawmeter := yawRefIntHandler groundState.yawmeter }) _
      rfl rfl).1⟩

/-! ## Verified properties: debouncer over runs of polls -/

/-- C34: for every input and every run of polls starting from run counter 0,
if a poll changes the stable state (or the flag), then that poll and the two
polls immediately before it all read the level opposite to the stable state
held before the change, which was the stable state throughout those polls; the
poll then flips the state and raises the flag. From run counter 0, any run of
fewer than `NUM_BUT_POLLS = 3` polls, whatever it reads, changes neither the
stable state nor the flag. -/
theorem updateButtons_change_needs_three_polls (s0 : ButtonsState) (i : Fin NUM_BUTS)
    (h0 : s0.but_count i = 0) (pre : List (Fin NUM_BUTS → Bool)) (v : Fin NUM_BUTS → Bool) :
    (((updateButtons (pre.foldl updateButtons s0) v).but_state i
          ≠ (pre.foldl updateButtons s0).but_state i
        ∨ (updateButtons (pre.foldl updateButtons s0) v).but_flag i
          ≠ (pre.foldl updateButtons s0).but_flag i) →
      ∃ pre2 a b, pre = pre2 ++ [a, b]
        ∧ a i = (!(pre.foldl updateButtons s0).but_state i)
        ∧ b i = (!(pre.foldl updateButtons s0).but_state i)
        ∧ v i = (!(pre.foldl updateButtons s0).but_state i)
        ∧ (pre2.foldl updateButtons s0).but_state i = (pre.foldl updateButtons s0).but_state i
        ∧ ((pre2 ++ [a]).foldl updateButtons s0).but_state i
            = (pre.foldl updateButtons s0).but_state i
        ∧ (updateButtons (pre.foldl updateButtons s0) v).but_state i
            = (!(pre.foldl updateButtons s0).but_state i)
        ∧ (updateButtons (pre.foldl updateButtons s0) v).but_flag i = true)
    ∧ (∀ (s : ButtonsState) (vs : List (Fin NUM_BUTS → Bool)), s.but_count i = 0 →
        vs.length < NUM_BUT_POLLS →
        (vs.foldl updateButtons s).but_state i = s.but_state i
        ∧ (vs.foldl updateButtons s).but_flag i = s.but_flag i) := by
  constructor
  · intro hchange
    obtain ⟨I1, I2⟩ := pollRun_counter s0 i h0 pre
    by_cases hv : v i = (pre.foldl updateButtons s0).but_state i
    · obtain ⟨m1, _, m3⟩ := updateButtons_matching (pre.foldl updateButtons s0) v i hv
      rcases hchange with h | h
      · exact absurd m1 h
      · exact absurd m3 h
    · have hv2 := bool_eq_not_of_ne _ _ hv
      by_cases hc : (pre.foldl updateButtons s0).but_count i < 2
      · obtain ⟨m1, _, m3⟩ := updateButtons_opposite_count (pre.foldl updateButtons s0) v i hv2 hc
        rcases hchange with h | h
        · exact absurd m1 h
        · exact absurd m3 h
      · obtain ⟨m1, _, m3⟩ := updateButtons_opposite_flip (pre.foldl updateButtons s0) v i hv2
          (by omega)
        obtain ⟨pre2, b, hpre, hb, hs2, _, hc2⟩ := I2 (by omega)
        obtain ⟨_, J2⟩ := pollRun_counter s0 i h0 pre2
        obtain ⟨pre3, a, hpre2, ha, hs3, _, _⟩ := J2 (by omega)
        refine ⟨pre3, a, b, ?_, ?_, hb, hv2, ?_, ?_, m1, m3⟩
        · rw [hpre, hpre2, List.append_assoc]
          rfl
        · rw [ha, hs2]
        · rw [hs3, hs2]
        · rw [← hpre2, hs2]
  · intro s vs hc hlen
    unfold NUM_BUT_POLLS at hlen
    match vs, hlen with
    | [], _ => exact ⟨rfl, rfl⟩
    | [a], _ =>
      obtain ⟨a1, a2, _⟩ := updateButtons_short s a i (by omega)
      exact ⟨a1, a2⟩
    | [a, b], _ =>
      obtain ⟨a1, a2, a3⟩ := updateButtons_short s a i (by omega)
      obtain ⟨b1, b2, _⟩ := updateButtons_short (updateButtons s a) b i (by omega)
      exact ⟨by show (updateButtons (updateButtons s a) b).but_state i = _; rw [b1, a1],
        by show (updateButtons (updateButtons s a) b).but_flag i = _; rw [b2, a2]⟩
    | _ :: _ :: _ :: _, h => exact absurd h (by simp)

/-- Witness for C34: input `UP` from rest, three polls reading high: the state
changes at the third poll, and the two polls before it read high as well. -/
theorem updateButtons_change_needs_three_polls_witness :
    ∃ pre2 a b,
      [fun _ => true, fun _ => true] = pre2 ++ [a, b]
      ∧ a UP = (!([fun _ => true, fun _ => true].foldl updateButtons buttonsAtRest).but_state UP)
      ∧ b UP = (!([fun _ => true, fun _ => true].foldl updateButtons buttonsAtRest).but_state UP)
      ∧ (updateButtons ([fun _ => true, fun _ => true].foldl updateButtons buttonsAtRest)
          (fun _ => true)).but_flag UP = true := by
  obtain ⟨a1, a2, _⟩ := updateButtons_opposite_count buttonsAtRest (fun _ => true) UP
    (by decide) (by decide)
  obtain ⟨b1, b2, _⟩ := updateButtons_opposite_count
    (updateButtons buttonsAtRest (fun _ => true)) (fun _ => true) UP
    (by rw [a1]; decide) (by rw [a2]; decide)
  obtain ⟨c1, _, _⟩ := updateButtons_opposite_flip
    (updateButtons (updateButtons buttonsAtRest (fun _ => true)) (fun _ => true))
    (fun _ => true) UP (by rw [b1, a1]; decide) (by rw [b2, a2]; decide)
  obtain ⟨pre2, a, b, h1, h2, h3, _, _, _, _, h8⟩ :=
    (updateButtons_change_needs_three_polls buttonsAtRest UP rfl
      [fun _ => true, fun _ => true] (fun _ => true)).1
      (Or.inl (by
        show (updateButtons (updateButtons (updateButtons buttonsAtRest (fun _ => true))
          (fun _ => true)) (fun _ => true)).but_state UP
          ≠ (updateButtons (updateButtons buttonsAtRest (fun _ => true))
            (fun _ => true)).but_state UP
        rw [c1]
        cases (updateButtons (updateButtons buttonsAtRest (fun _ => true))
          (fun _ => true)).but_state UP <;> decide))
  exact ⟨pre2, a, b, h1, h2, h3, h8⟩

end Helicopter
